import Mathlib

/-!
# network-manager-applet: the gnome-bluetooth plugin

A shallow embedding of `src/gnome-bluetooth/network-manager-applet.c`.

* `PluginInfo` is the C struct of the same name; a `NULL` pointer is `none`.
* Every callback of the C file is a function from the `PluginInfo` it receives
  as `user_data` to the updated `PluginInfo` together with the list of calls it
  made on its collaborators (D-Bus, the GLib main loop, the mobile wizard, the
  connection store), in program order.  Widget state that the plugin owns
  (label text, toggle state, sensitivity, spinner) is part of `PluginInfo`.
* Results that come from outside (the bus, the id of a new timer, a fresh
  UUID, whether the store exported a connection) are passed in through `Env`.
* `_()` is the identity (untranslated messages); `g_message`/`g_warning`
  diagnostics are not part of the model.
* A callback that can dereference `NULL` or fail a `g_assert` returns an
  `Option`; `none` is the crash.
* Library functions whose result the plugin depends on (`g_path_get_basename`,
  `ether_aton`, `g_value_get_boolean`) are written out after their library
  sources; strings are C strings (no embedded NUL).
* `button_clicked`, `handle_event` and `Reachable` describe how the main loop
  drives the callbacks; `Reachable` puts no timing condition on the events, so
  it contains every state a real run can be in.  `World`, `deliverable` and
  `Run` add the conditions under which the main loop delivers an event, and
  keep track of the live timeout sources.
* The connection store is the list of records that a listing returns; a delete
  removes the record from it.
-/

namespace NMApplet

/-! ## Data model -/

/-- The C enum `BtMethod`. -/
inductive BtMethod where
  | BT_METHOD_UNKNOWN
  | BT_METHOD_PAN
  | BT_METHOD_DUN
  deriving DecidableEq, Repr

/-- The C enum `NMDeviceType` of NetworkManager 0.8 (`NetworkManager.h`). -/
inductive NMDeviceType where
  | NM_DEVICE_TYPE_UNKNOWN
  | NM_DEVICE_TYPE_ETHERNET
  | NM_DEVICE_TYPE_WIFI
  | NM_DEVICE_TYPE_GSM
  | NM_DEVICE_TYPE_CDMA
  | NM_DEVICE_TYPE_BT
  deriving DecidableEq, Repr

/-- A `GError`: a code and a message that may be `NULL`. -/
structure GError where
  code : Int
  message : Option String
  deriving DecidableEq, Repr

/-- A `DBusGConnection`. -/
structure DBusGConnection where
  id : Nat
  deriving DecidableEq, Repr

/-- A `DBusGProxy` as `dbus_g_proxy_new_for_name (bus, name, path, iface)` makes it;
`bus` is the connection pointer the call was given. -/
structure DBusGProxy where
  bus : Option DBusGConnection
  name : String
  path : String
  iface : String
  deriving DecidableEq, Repr

/-- A `GValue` as found in a D-Bus property map; a string value may hold `NULL`. -/
inductive GValue where
  | string (s : Option String)
  | uint (n : Nat)
  | boolean (b : Bool)
  | other
  deriving DecidableEq, Repr

/-- The `BlingSpinner` widget: whether it animates and whether it is shown. -/
structure BlingSpinner where
  running : Bool
  visible : Bool
  deriving DecidableEq, Repr

/-- A `GtkWindowGroup`; `has_window` records the window added to it. -/
structure GtkWindowGroup where
  has_window : Bool
  deriving DecidableEq, Repr

/-- A `MobileWizard` as `mobile_wizard_new (parent, window_group, devtype, FALSE, ...)` makes it. -/
structure MobileWizard where
  has_parent : Bool
  window_group : Option GtkWindowGroup
  devtype : NMDeviceType
  will_connect_after : Bool
  deriving DecidableEq, Repr

/-- One `NMSetting` of a connection, with the properties this plugin sets or reads;
the address and the type of a Bluetooth setting may be unset (`NULL`). -/
inductive NMSetting where
  | connection (id uuid type : String) (autoconnect : Bool)
  | bluetooth (bdaddr : Option (List Nat)) (type : Option String)
  | ip4_config (method : String)
  | gsm (number : String) (username password apn : Option String)
  | cdma (number : String) (username password : Option String)
  | serial (baud bits : Nat) (parity : Char) (stopbits : Nat)
  | ppp
  deriving DecidableEq, Repr

/-- An `NMConnection`: its settings in the order `nm_connection_add_setting` added them. -/
structure NMConnection where
  settings : List NMSetting
  deriving DecidableEq, Repr

/-- The C struct `MobileWizardAccessMethod` of `mobile-wizard.h`, the result the
wizard hands to its completion callback. -/
structure MobileWizardAccessMethod where
  provider_name : Option String
  plan_name : Option String
  devtype : NMDeviceType
  username : Option String
  password : Option String
  gsm_apn : Option String
  deriving DecidableEq, Repr

/-- The C struct `PluginInfo`.  `button_active`/`button_sensitive` are the state of
`button`, `label` is the text of `label`. -/
structure PluginInfo where
  bdaddr : String
  method : BtMethod
  button_active : Bool
  button_sensitive : Bool
  toggled_id : Nat
  label : String
  spinner : Option BlingSpinner
  connection : Option NMConnection
  bus : Option DBusGConnection
  bluez_proxy : Option DBusGProxy
  adapter_proxy : Option DBusGProxy
  dun_proxy : Option DBusGProxy
  mm_proxy : Option DBusGProxy
  modem_proxies : List DBusGProxy
  rfcomm_iface : Option String
  dun_timeout_id : Nat
  devtype : NMDeviceType
  wizard : Option MobileWizard
  window_group : Option GtkWindowGroup
  deriving DecidableEq, Repr

/-- A call the plugin makes on one of its collaborators. -/
inductive Effect where
  /-- Call `dbus_g_proxy_begin_call[_with_timeout] (proxy, method, callback, ..., args)`. -/
  | begin_call (proxy : DBusGProxy) (method : String) (callback : String)
      (timeout : Option Nat) (args : List String)
  /-- Call `dbus_g_proxy_call_no_reply (proxy, method, args)`. -/
  | call_no_reply (proxy : DBusGProxy) (method : String) (args : List String)
  /-- Call `dbus_g_proxy_connect_signal (proxy, signal, handler, info, NULL)`. -/
  | connect_signal (proxy : DBusGProxy) (signal : String) (handler : String)
  /-- Call `g_object_unref (proxy)`. -/
  | proxy_unref (proxy : DBusGProxy)
  /-- Call `dbus_g_connection_unref (bus)`. -/
  | connection_unref (bus : DBusGConnection)
  /-- Call `g_timeout_add_seconds (seconds, callback, info)`, which returned `id`. -/
  | timeout_add_seconds (seconds : Nat) (callback : String) (id : Nat)
  /-- Call `g_source_remove (id)`. -/
  | source_remove (id : Nat)
  /-- Call `g_object_unref (window_group)`. -/
  | window_group_unref (g : GtkWindowGroup)
  /-- Call `mobile_wizard_new (parent, window_group, devtype, FALSE, wizard_done_cb, info)`. -/
  | wizard_new (w : MobileWizard)
  /-- Call `mobile_wizard_present (wizard)`. -/
  | wizard_present (w : MobileWizard)
  /-- Call `mobile_wizard_destroy (wizard)`; `none` is the call on `NULL`. -/
  | wizard_destroy (w : Option MobileWizard)
  /-- Call `nma_gconf_settings_add_connection (settings, connection)`. -/
  | settings_add_connection (c : NMConnection)
  /-- Call `nm_settings_connection_interface_delete (connection, delete_cb, NULL)`. -/
  | settings_connection_delete (c : Option NMConnection)
  deriving DecidableEq, Repr

/-- What the world outside the plugin answers during one callback. -/
structure Env where
  /-- The connection `dbus_g_bus_get` returns. -/
  bus_get_bus : Option DBusGConnection
  /-- The error `dbus_g_bus_get` sets. -/
  bus_get_error : Option GError
  /-- The source id `g_timeout_add_seconds` returns. -/
  timeout_id : Nat
  /-- The string `nm_utils_uuid_generate` returns. -/
  uuid : String
  /-- Whether `nma_gconf_settings_add_connection` returns the exported connection. -/
  add_connection_ok : Bool
  /-- Whether `gtk_widget_get_toplevel (info->hbox)` is a toplevel window. -/
  hbox_in_toplevel : Bool
  deriving DecidableEq, Repr

/-! ## `get_best_method` -/

/-- The loop of `get_best_method` over the `NULL`-terminated array, carrying
`(has_nap, has_dun)`. -/
def get_best_method_loop : List String → Bool × Bool → Bool × Bool
  | [], flags => flags
  | u :: us, (has_nap, has_dun) =>
    get_best_method_loop us
      (if u = "NAP" then true else has_nap,
       if u = "DialupNetworking" then true else has_dun)

/-- The C function `get_best_method`; `uuids = none` is the `NULL` array. -/
def get_best_method (_bdaddr : String) (uuids : Option (List String)) : BtMethod :=
  let flags := match uuids with
    | none => (false, false)
    | some us => get_best_method_loop us (false, false)
  if flags.1 then BtMethod.BT_METHOD_PAN
  else if flags.2 then BtMethod.BT_METHOD_DUN
  else BtMethod.BT_METHOD_UNKNOWN

/-! ## Constants of the C file and of the NetworkManager headers -/

def BLUEZ_SERVICE : String := "org.bluez"
def BLUEZ_MANAGER_PATH : String := "/"
def BLUEZ_MANAGER_INTERFACE : String := "org.bluez.Manager"
def BLUEZ_ADAPTER_INTERFACE : String := "org.bluez.Adapter"
def BLUEZ_SERIAL_INTERFACE : String := "org.bluez.Serial"
def MM_SERVICE : String := "org.freedesktop.ModemManager"
def MM_PATH : String := "/org/freedesktop/ModemManager"
def MM_INTERFACE : String := "org.freedesktop.ModemManager"
def MM_MODEM_INTERFACE : String := "org.freedesktop.ModemManager.Modem"
def NM_SETTING_BLUETOOTH_SETTING_NAME : String := "bluetooth"
def NM_SETTING_BLUETOOTH_TYPE_PANU : String := "panu"
def NM_SETTING_BLUETOOTH_TYPE_DUN : String := "dun"
def NM_SETTING_IP4_CONFIG_METHOD_AUTO : String := "auto"
def NM_SETTING_GSM_SETTING_NAME : String := "gsm"
def NM_SETTING_CDMA_SETTING_NAME : String := "cdma"

/-- The call `dbus_g_proxy_new_for_name (bus, name, path, iface)`. -/
def dbus_g_proxy_new_for_name (bus : Option DBusGConnection) (name path iface : String) :
    DBusGProxy :=
  { bus := bus, name := name, path := path, iface := iface }

/-! ## Library functions the plugin calls -/

/-- GLib's `g_path_get_basename` on a non-`NULL` file name (directory separator `/`):
`"."` for the empty string, `"/"` for a string of slashes only, otherwise the
characters after the last slash that precedes the last non-slash character, up to
that character. -/
def g_path_get_basename (file_name : String) : String :=
  if file_name.data = [] then "."
  else
    let upto_last_nonslash := (file_name.data.reverse.dropWhile (fun c => c = '/')).reverse
    if upto_last_nonslash = [] then "/"
    else String.mk (upto_last_nonslash.reverse.takeWhile (fun c => c ≠ '/')).reverse

/-- The value of a hexadecimal digit after `_tolower`, as `ether_aton_r` computes it. -/
def hex_digit_value (c : Char) : Option Nat :=
  let ch := c.toLower
  if '0' ≤ ch ∧ ch ≤ '9' then some (ch.toNat - '0'.toNat)
  else if 'a' ≤ ch ∧ ch ≤ 'f' then some (ch.toNat - 'a'.toNat + 10)
  else none

/-- C's `isspace` in the "C" locale. -/
def isspace (c : Char) : Bool :=
  c = ' ' || c = '\t' || c = '\n' || c = '\x0b' || c = '\x0c' || c = '\r'

/-- The loop of glibc's `ether_aton_r`: `remaining` octets are still to be read from
`asc` (the end of the list is the terminating NUL), `acc` holds the octets read so
far, last first.  `cnt < 5` in the C code is `remaining > 1` here. -/
def ether_aton_loop : Nat → List Char → List Nat → Option (List Nat)
  | 0, _, acc => some acc.reverse
  | remaining + 1, asc, acc =>
    match asc with
    | [] => none
    | c :: rest =>
      match hex_digit_value c with
      | none => none
      | some number =>
        match rest with
        | [] => if remaining = 0 then some (number :: acc).reverse else none
        | ch :: rest2 =>
          if (0 < remaining ∧ ch ≠ ':') ∨ (remaining = 0 ∧ isspace ch = false) then
            match hex_digit_value ch with
            | none => none
            | some low =>
              if remaining = 0 then some ((number * 16 + low) :: acc).reverse
              else
                match rest2 with
                | ':' :: rest3 => ether_aton_loop remaining rest3 ((number * 16 + low) :: acc)
                | _ => none
          else ether_aton_loop remaining rest2 (number :: acc)

/-- The libc function `ether_aton`, after glibc's `ether_aton_r`: the six octets,
or `none` for `NULL`. -/
def ether_aton (str : String) : Option (List Nat) :=
  ether_aton_loop 6 str.data []

/-- The C function `get_array_from_bdaddr`. -/
def get_array_from_bdaddr (str : String) : Option (List Nat) :=
  match ether_aton str with
  | some addr => some addr
  | none => none

/-! ## The PAN path -/

/-- The C function `add_pan_connection`: the exported connection (or `NULL`) and the
calls made on the store. -/
def add_pan_connection (env : Env) (bdaddr : String) : Option NMConnection × List Effect :=
  match get_array_from_bdaddr bdaddr with
  | none => (none, [])
  | some mac =>
    let connection : NMConnection :=
      { settings :=
          [ NMSetting.connection (bdaddr ++ " " ++ "PANU") env.uuid
              NM_SETTING_BLUETOOTH_SETTING_NAME false,
            NMSetting.bluetooth (some mac) (some NM_SETTING_BLUETOOTH_TYPE_PANU),
            NMSetting.ip4_config NM_SETTING_IP4_CONFIG_METHOD_AUTO ] }
    (if env.add_connection_ok then some connection else none,
     [Effect.settings_add_connection connection])

/-! ## Teardown -/

/-- The C function `dun_cleanup`. -/
def dun_cleanup (info : PluginInfo) (message : String) (uncheck : Bool) :
    PluginInfo × List Effect :=
  let unref_modems := info.modem_proxies.map Effect.proxy_unref
  let release_dun :=
    match info.dun_proxy with
    | some dun =>
      (match info.rfcomm_iface with
        | some iface => [Effect.call_no_reply dun "Disconnect" [iface]]
        | none => []) ++ [Effect.proxy_unref dun]
    | none => []
  let release_adapter :=
    match info.adapter_proxy with
    | some p => [Effect.proxy_unref p]
    | none => []
  let release_bluez :=
    match info.bluez_proxy with
    | some p => [Effect.proxy_unref p]
    | none => []
  let release_bus :=
    match info.bus with
    | some b => [Effect.connection_unref b]
    | none => []
  let remove_timeout :=
    if info.dun_timeout_id ≠ 0 then [Effect.source_remove info.dun_timeout_id] else []
  let release_group :=
    match info.window_group with
    | some g => [Effect.window_group_unref g]
    | none => []
  let destroy_wizard :=
    match info.wizard with
    | some w => [Effect.wizard_destroy (some w)]
    | none => []
  ({ info with
      modem_proxies := []
      dun_proxy := none
      rfcomm_iface := none
      adapter_proxy := none
      bluez_proxy := none
      bus := none
      dun_timeout_id := 0
      window_group := none
      wizard := none
      devtype := NMDeviceType.NM_DEVICE_TYPE_UNKNOWN
      spinner :=
        match info.spinner with
        | some _ => some { running := false, visible := false }
        | none => none
      label := message
      button_sensitive := true
      button_active := if uncheck then false else info.button_active },
   unref_modems ++ release_dun ++ release_adapter ++ release_bluez ++ release_bus
     ++ remove_timeout ++ release_group ++ destroy_wizard)

/-- The message `dun_error` builds: `"Error: %s"` with the error's message when the
error and its message are both present, with `fallback` otherwise. -/
def dun_error_message (error : Option GError) (fallback : String) : String :=
  "Error: " ++
    (match error with
      | some e =>
        (match e.message with
          | some m => m
          | none => fallback)
      | none => fallback)

/-- The C function `dun_error`. -/
def dun_error (info : PluginInfo) (error : Option GError) (fallback : String) :
    PluginInfo × List Effect :=
  dun_cleanup info (dun_error_message error fallback) true

/-! ## The modem watch -/

/-- The technology family `modem_get_all_cb` leaves in `info->devtype` after looking
at the property map: `none` is the `strcmp` on the `NULL` that
`g_path_get_basename (NULL)` returns (a crash). -/
def modem_devtype_from_properties (info : PluginInfo) (properties : List (String × GValue)) :
    Option NMDeviceType :=
  match properties.lookup "Device" with
  | some (GValue.string (some modem_iface)) =>
    match info.rfcomm_iface with
    | none => none
    | some rfcomm_iface =>
      if g_path_get_basename rfcomm_iface = modem_iface then
        match properties.lookup "Type" with
        | some (GValue.uint 1) => some NMDeviceType.NM_DEVICE_TYPE_GSM
        | some (GValue.uint 2) => some NMDeviceType.NM_DEVICE_TYPE_CDMA
        | _ => some info.devtype
      else some info.devtype
  | _ => some info.devtype

/-- The tail of `modem_get_all_cb` (from the test of `info->devtype` on): when the
family is known, remove the timeout and start the mobile wizard. -/
def modem_start_wizard (info : PluginInfo) (env : Env) : PluginInfo × List Effect :=
  if info.devtype ≠ NMDeviceType.NM_DEVICE_TYPE_UNKNOWN then
    let window_group : Option GtkWindowGroup :=
      if env.hbox_in_toplevel then some { has_window := true } else none
    let wizard : MobileWizard :=
      { has_parent := env.hbox_in_toplevel
        window_group := window_group
        devtype := info.devtype
        will_connect_after := false }
    ({ info with dun_timeout_id := 0, window_group := window_group, wizard := some wizard },
     [Effect.source_remove info.dun_timeout_id, Effect.wizard_new wizard,
      Effect.wizard_present wizard])
  else (info, [])

/-- The C function `modem_get_all_cb` for the reply to `GetAll` on `proxy`: an error
or the property map.  `none` is a crash. -/
def modem_get_all_cb (info : PluginInfo) (_proxy : DBusGProxy)
    (reply : Except GError (List (String × GValue))) (env : Env) :
    Option (PluginInfo × List Effect) :=
  match reply with
  | Except.error _ => some (info, [])
  | Except.ok properties =>
    match modem_devtype_from_properties info properties with
    | none => none
    | some devtype => some (modem_start_wizard { info with devtype := devtype } env)

/-- The C function `modem_added` (the `DeviceAdded` handler connected on `mm_proxy`). -/
def modem_added (info : PluginInfo) (path : String) : PluginInfo × List Effect :=
  let props_proxy :=
    dbus_g_proxy_new_for_name info.bus MM_SERVICE path "org.freedesktop.DBus.Properties"
  ({ info with modem_proxies := info.modem_proxies ++ [props_proxy] },
   [Effect.begin_call props_proxy "GetAll" "modem_get_all_cb" none [MM_MODEM_INTERFACE]])

/-- The search loop of `modem_removed`: the first proxy of the list whose path is `path`. -/
def modem_find (path : String) : List DBusGProxy → Option DBusGProxy
  | [] => none
  | p :: ps => if path = p.path then some p else modem_find path ps

/-- The list `g_slist_remove` returns in `modem_removed`: the list without the node
found by the search loop (the first one whose path is `path`). -/
def modem_list_remove (path : String) : List DBusGProxy → List DBusGProxy
  | [] => []
  | p :: ps => if path = p.path then ps else p :: modem_list_remove path ps

/-- The C function `modem_removed` (the `DeviceRemoved` handler connected on `mm_proxy`). -/
def modem_removed (info : PluginInfo) (path : String) : PluginInfo × List Effect :=
  match modem_find path info.modem_proxies with
  | some found =>
    ({ info with modem_proxies := modem_list_remove path info.modem_proxies },
     [Effect.proxy_unref found])
  | none => (info, [])

/-! ## The tunnel steps -/

/-- The C function `dun_connect_cb` for the reply to `Connect`: an error or the
returned device string (which may be `NULL`). -/
def dun_connect_cb (info : PluginInfo) (reply : Except GError (Option String)) :
    PluginInfo × List Effect :=
  match reply with
  | Except.error error => dun_error info (some error) "failed to connect to the phone."
  | Except.ok device =>
    match device with
    | none => dun_error info none "failed to connect to the phone."
    | some dev =>
      if dev.length = 0 then dun_error info none "failed to connect to the phone."
      else ({ info with rfcomm_iface := some dev }, [])

/-- GLib's `g_value_get_boolean`: the boolean held, `FALSE` for a value of another type. -/
def g_value_get_boolean (value : GValue) : Bool :=
  match value with
  | GValue.boolean b => b
  | _ => false

/-- The C function `dun_property_changed` (the `PropertyChanged` handler connected
on `dun_proxy`). -/
def dun_property_changed (info : PluginInfo) (property : String) (value : GValue) :
    PluginInfo × List Effect :=
  if property ≠ "Connected" then (info, [])
  else if g_value_get_boolean value then (info, [])
  else dun_error info none "unexpectedly disconnected from the phone."

/-- The C function `find_device_cb` for the reply to `FindDevice`: an error or the
device object path. -/
def find_device_cb (info : PluginInfo) (reply : Except GError String) :
    PluginInfo × List Effect :=
  match reply with
  | Except.error error => dun_error info (some error) "failed to discover the phone."
  | Except.ok dev_path =>
    let dun_proxy :=
      dbus_g_proxy_new_for_name info.bus BLUEZ_SERVICE dev_path BLUEZ_SERIAL_INTERFACE
    ({ info with dun_proxy := some dun_proxy },
     [Effect.begin_call dun_proxy "Connect" "dun_connect_cb" (some 20000) ["dun"],
      Effect.connect_signal dun_proxy "PropertyChanged" "dun_property_changed"])

/-- The C function `default_adapter_cb` for the reply to `DefaultAdapter`: an error
or the adapter object path. -/
def default_adapter_cb (info : PluginInfo) (reply : Except GError String) :
    PluginInfo × List Effect :=
  match reply with
  | Except.error error => dun_error info (some error) "could not discover Bluetooth adapter."
  | Except.ok default_adapter =>
    let adapter_proxy :=
      dbus_g_proxy_new_for_name info.bus BLUEZ_SERVICE default_adapter BLUEZ_ADAPTER_INTERFACE
    ({ info with adapter_proxy := some adapter_proxy },
     [Effect.begin_call adapter_proxy "FindDevice" "find_device_cb" none [info.bdaddr]])

/-- The C function `dun_timeout_cb`: the new state, the calls made, and the value
returned to the GLib main loop (`FALSE` removes the source). -/
def dun_timeout_cb (info : PluginInfo) : (PluginInfo × List Effect) × Bool :=
  (dun_error { info with dun_timeout_id := 0 } none "timed out detecting phone details.", false)

/-- The C function `dun_start`. -/
def dun_start (info : PluginInfo) (env : Env) : PluginInfo × List Effect :=
  let info1 := { info with bus := env.bus_get_bus }
  if env.bus_get_error.isSome ∨ info1.bus.isNone then
    dun_error info1 env.bus_get_error "could not connect to the system bus."
  else
    let mm_proxy := dbus_g_proxy_new_for_name info1.bus MM_SERVICE MM_PATH MM_INTERFACE
    let bluez_proxy :=
      dbus_g_proxy_new_for_name info1.bus BLUEZ_SERVICE BLUEZ_MANAGER_PATH BLUEZ_MANAGER_INTERFACE
    ({ info1 with
        label := "Detecting phone configuration..."
        spinner := some { running := true, visible := true }
        button_sensitive := false
        mm_proxy := some mm_proxy
        bluez_proxy := some bluez_proxy
        dun_timeout_id := env.timeout_id },
     [Effect.connect_signal mm_proxy "DeviceAdded" "modem_added",
      Effect.connect_signal mm_proxy "DeviceRemoved" "modem_removed",
      Effect.begin_call bluez_proxy "DefaultAdapter" "default_adapter_cb" none [],
      Effect.timeout_add_seconds 30 "dun_timeout_cb" env.timeout_id])

/-! ## The toggle -/

/-- The C function `button_toggled`; `info.button_active` is what
`gtk_toggle_button_get_active (button)` returns. -/
def button_toggled (info : PluginInfo) (env : Env) : PluginInfo × List Effect :=
  if info.button_active = false then
    ({ info with connection := none }, [Effect.settings_connection_delete info.connection])
  else if info.method = BtMethod.BT_METHOD_PAN then
    let added := add_pan_connection env info.bdaddr
    ({ info with connection := added.1 }, added.2)
  else if info.method = BtMethod.BT_METHOD_DUN then
    dun_start info env
  else (info, [])

/-- GTK's handling of a user click on the check button: an insensitive widget
receives no input; a sensitive toggle flips its state and emits `toggled`, whose
handler is `button_toggled`. -/
def button_clicked (info : PluginInfo) (env : Env) : PluginInfo × List Effect :=
  if info.button_sensitive then
    button_toggled { info with button_active := !info.button_active } env
  else (info, [])

/-- The `PluginInfo` that `g_malloc0 (sizeof (PluginInfo))` yields once
`get_config_widgets` has stored the address and the method and created the button
and the (empty) label: every other field is zero. -/
def plugin_info_new (bdaddr : String) (method : BtMethod) (connection : Option NMConnection)
    (toggled_id : Nat) : PluginInfo :=
  { bdaddr := bdaddr
    method := method
    button_active := connection.isSome
    button_sensitive := true
    toggled_id := toggled_id
    label := ""
    spinner := none
    connection := connection
    bus := none
    bluez_proxy := none
    adapter_proxy := none
    dun_proxy := none
    mm_proxy := none
    modem_proxies := []
    rfcomm_iface := none
    dun_timeout_id := 0
    devtype := NMDeviceType.NM_DEVICE_TYPE_UNKNOWN
    wizard := none
    window_group := none }

/-! ## Completion of the mobile wizard -/

/-- What `%s` prints for a string argument (glibc prints `(null)` for `NULL`). -/
def printf_s (s : Option String) : String :=
  match s with
  | some str => str
  | none => "(null)"

/-- The connection id both `dun_new_cdma` and `dun_new_gsm` build. -/
def dun_connection_id (method : MobileWizardAccessMethod) : String :=
  match method.plan_name with
  | some plan_name => printf_s method.provider_name ++ " " ++ plan_name
  | none => printf_s method.provider_name ++ " connection"

/-- The C function `dun_new_cdma`. -/
def dun_new_cdma (env : Env) (method : MobileWizardAccessMethod) : NMConnection :=
  { settings :=
      [ NMSetting.cdma "#777" method.username method.password,
        NMSetting.serial 115200 8 'n' 1,
        NMSetting.ppp,
        NMSetting.connection (dun_connection_id method) env.uuid
          NM_SETTING_CDMA_SETTING_NAME false ] }

/-- The C function `dun_new_gsm`. -/
def dun_new_gsm (env : Env) (method : MobileWizardAccessMethod) : NMConnection :=
  { settings :=
      [ NMSetting.gsm "*99#" method.username method.password method.gsm_apn,
        NMSetting.serial 115200 8 'n' 1,
        NMSetting.ppp,
        NMSetting.connection (dun_connection_id method) env.uuid
          NM_SETTING_GSM_SETTING_NAME false ] }

/-- The part of `wizard_done_cb` after the connection has been built: call
`mobile_wizard_destroy (info->wizard)` (unconditionally, so also on `NULL`), add
the Bluetooth setting, add the connection to the store, clean up.  `none` is the
failed `g_assert (mac)`. -/
def wizard_done_store (info : PluginInfo) (connection : NMConnection) (env : Env) :
    Option (PluginInfo × List Effect) :=
  let destroy := [Effect.wizard_destroy info.wizard]
  let info1 := { info with wizard := none }
  match get_array_from_bdaddr info1.bdaddr with
  | none => none
  | some mac =>
    let connection1 : NMConnection :=
      { settings :=
          connection.settings ++ [NMSetting.bluetooth (some mac) (some NM_SETTING_BLUETOOTH_TYPE_DUN)] }
    let info2 :=
      if env.add_connection_ok then { info1 with connection := some connection1 } else info1
    let cleaned := dun_cleanup info2 "Your phone is now ready to use!" false
    some (cleaned.1, destroy ++ [Effect.settings_add_connection connection1] ++ cleaned.2)

/-- The C function `wizard_done_cb`; `method = none` is the `NULL` result.  `none`
is a failed assertion. -/
def wizard_done_cb (info : PluginInfo) (canceled : Bool)
    (method : Option MobileWizardAccessMethod) (env : Env) :
    Option (PluginInfo × List Effect) :=
  match canceled, method with
  | true, _ => some (dun_error info none "Mobile wizard was canceled")
  | false, none => some (dun_error info none "Mobile wizard was canceled")
  | false, some m =>
    if m.devtype = NMDeviceType.NM_DEVICE_TYPE_CDMA then
      wizard_done_store info (dun_new_cdma env m) env
    else if m.devtype = NMDeviceType.NM_DEVICE_TYPE_GSM then
      wizard_done_store info (dun_new_gsm env m) env
    else some (dun_error info none "Unknown phone device type (not GSM or CDMA)")

/-! ## The callbacks as one event handler -/

/-- An event the main loop can hand to the plugin once the widget exists. -/
inductive Event where
  /-- The user clicks the check button. -/
  | click (env : Env)
  /-- The reply to `DefaultAdapter`. -/
  | default_adapter_reply (reply : Except GError String)
  /-- The reply to `FindDevice`. -/
  | find_device_reply (reply : Except GError String)
  /-- The reply to `Connect`. -/
  | connect_reply (reply : Except GError (Option String))
  /-- The signal `PropertyChanged` of the serial proxy. -/
  | property_changed (property : String) (value : GValue)
  /-- The signal `DeviceAdded` of ModemManager. -/
  | device_added (path : String)
  /-- The signal `DeviceRemoved` of ModemManager. -/
  | device_removed (path : String)
  /-- The reply to `GetAll` on a modem proxy. -/
  | get_all_reply (proxy : DBusGProxy) (reply : Except GError (List (String × GValue)))
      (env : Env)
  /-- The 30 second timeout fires. -/
  | timeout
  /-- The mobile wizard completes. -/
  | wizard_done (canceled : Bool) (method : Option MobileWizardAccessMethod) (env : Env)

/-- The callback that runs for an event; `none` is a crash or a failed assertion. -/
def handle_event (info : PluginInfo) : Event → Option (PluginInfo × List Effect)
  | Event.click env => some (button_clicked info env)
  | Event.default_adapter_reply reply => some (default_adapter_cb info reply)
  | Event.find_device_reply reply => some (find_device_cb info reply)
  | Event.connect_reply reply => some (dun_connect_cb info reply)
  | Event.property_changed property value => some (dun_property_changed info property value)
  | Event.device_added path => some (modem_added info path)
  | Event.device_removed path => some (modem_removed info path)
  | Event.get_all_reply proxy reply env => modem_get_all_cb info proxy reply env
  | Event.timeout => some (dun_timeout_cb info).1
  | Event.wizard_done canceled method env => wizard_done_cb info canceled method env

/-- The states of a widget: those `get_config_widgets` creates and those any
sequence of callbacks leads to from there. -/
inductive Reachable : PluginInfo → Prop where
  | init (bdaddr : String) (method : BtMethod) (connection : Option NMConnection)
      (toggled_id : Nat) : method ≠ BtMethod.BT_METHOD_UNKNOWN →
      Reachable (plugin_info_new bdaddr method connection toggled_id)
  | step (info : PluginInfo) (event : Event) (next : PluginInfo × List Effect) :
      Reachable info → handle_event info event = some next → Reachable next.1

/-- Whether an effect is a D-Bus method call (with or without a reply). -/
def Effect.is_dbus_call : Effect → Bool
  | Effect.begin_call _ _ _ _ _ => true
  | Effect.call_no_reply _ _ _ => true
  | _ => false

/-- Whether an effect is one of the releasing calls of the teardown: dropping a
reference, the `Disconnect` without reply, removing a source, destroying the wizard. -/
def Effect.is_release : Effect → Bool
  | Effect.call_no_reply _ _ _ => true
  | Effect.proxy_unref _ => true
  | Effect.connection_unref _ => true
  | Effect.source_remove _ => true
  | Effect.window_group_unref _ => true
  | Effect.wizard_destroy _ => true
  | _ => false

/-- What one callback does to the fields that tell whether a negotiation is going
on: it runs the teardown, or it starts a negotiation (`dun_start` with a bus), or
it starts the wizard for a known family, or it leaves all of them alone. -/
def step_kinds (info next : PluginInfo) : Prop :=
  (∃ before message uncheck, next = (dun_cleanup before message uncheck).1)
    ∨ (next.bus.isSome ∧ next.button_sensitive = false
        ∧ next.wizard = info.wizard ∧ next.devtype = info.devtype)
    ∨ (next.wizard.isSome ∧ next.devtype ≠ NMDeviceType.NM_DEVICE_TYPE_UNKNOWN
        ∧ next.bus = info.bus ∧ next.button_sensitive = info.button_sensitive)
    ∨ (next.wizard = info.wizard ∧ next.devtype = info.devtype
        ∧ next.bus = info.bus ∧ next.button_sensitive = info.button_sensitive)

/-- The wizard `modem_get_all_cb` creates for a technology family: the arguments of
its `mobile_wizard_new` call. -/
def wizard_for (env : Env) (devtype : NMDeviceType) : MobileWizard :=
  { has_parent := env.hbox_in_toplevel
    window_group := if env.hbox_in_toplevel then some { has_window := true } else none
    devtype := devtype
    will_connect_after := false }

/-! ## A sample DUN session

The run of the scenario of the specification: a peer that advertises
`DialupNetworking`, the three tunnel steps succeed with the interface
`/dev/rfcomm0`, two modems are added. -/

/-- The answers of the outside world in the sample session. -/
def sample_env : Env :=
  { bus_get_bus := some { id := 1 }
    bus_get_error := none
    timeout_id := 7
    uuid := "2815492f-7e56-435e-b2e9-246bd7cdc664"
    add_connection_ok := true
    hbox_in_toplevel := true }

/-- The widget state for a DUN peer without a stored connection. -/
def sample_idle : PluginInfo :=
  plugin_info_new "00:11:22:33:44:55" BtMethod.BT_METHOD_DUN none 1

/-- After the user has ticked the check button: `DefaultAdapter` is outstanding. -/
def sample_started : PluginInfo :=
  (button_clicked sample_idle sample_env).1

/-- After the `DefaultAdapter` reply: `FindDevice` is outstanding. -/
def sample_adapter : PluginInfo :=
  (default_adapter_cb sample_started (Except.ok "/org/bluez/hci0")).1

/-- After the `FindDevice` reply: `Connect` is outstanding. -/
def sample_device : PluginInfo :=
  (find_device_cb sample_adapter (Except.ok "/org/bluez/hci0/dev_00_11_22_33_44_55")).1

/-- After the `Connect` reply: the tunnel is open on `/dev/rfcomm0`. -/
def sample_tunnel : PluginInfo :=
  (dun_connect_cb sample_device (Except.ok (some "/dev/rfcomm0"))).1

/-- The properties proxy `modem_added` creates for modem `n` of the sample session. -/
def sample_modem (n : Nat) : DBusGProxy :=
  dbus_g_proxy_new_for_name (some { id := 1 }) MM_SERVICE
    ("/org/freedesktop/ModemManager/Modems/" ++ toString n) "org.freedesktop.DBus.Properties"

/-- After ModemManager has announced two modems: two `GetAll` are outstanding. -/
def sample_watching : PluginInfo :=
  (modem_added (modem_added sample_tunnel "/org/freedesktop/ModemManager/Modems/0").1
    "/org/freedesktop/ModemManager/Modems/1").1

/-- The property map of the modem that sits on the tunnel: a GSM modem on `rfcomm0`. -/
def sample_gsm_properties : List (String × GValue) :=
  [("Device", GValue.string (some "rfcomm0")), ("Type", GValue.uint 1)]

/-- The property map of another modem: a CDMA modem on `ttyUSB0`. -/
def sample_other_properties : List (String × GValue) :=
  [("Device", GValue.string (some "ttyUSB0")), ("Type", GValue.uint 2)]

/-- The wizard the sample session presents for the GSM modem. -/
def sample_wizard : MobileWizard :=
  { has_parent := true
    window_group := some { has_window := true }
    devtype := NMDeviceType.NM_DEVICE_TYPE_GSM
    will_connect_after := false }

/-- After the `GetAll` reply of modem 0: the wizard is shown for a GSM modem. -/
def sample_matched : PluginInfo :=
  { sample_watching with
    devtype := NMDeviceType.NM_DEVICE_TYPE_GSM
    dun_timeout_id := 0
    window_group := some { has_window := true }
    wizard := some sample_wizard }

/-- After the timeout has fired while the two `GetAll` were outstanding. -/
def sample_timed_out : PluginInfo :=
  (dun_timeout_cb sample_watching).1.1

/-! ## The connection store -/

/-- The C function `delete_cb`, the completion callback of a store delete: it only
logs the error.  It receives no `PluginInfo` (`user_data` is `NULL`); `info` is the
controller state at the time it runs. -/
def delete_cb (info : PluginInfo) (_connection : Option NMConnection) (_error : Option GError) :
    PluginInfo × List Effect :=
  (info, [])

/-- Whether an effect is a call on the connection store (an add or a delete). -/
def Effect.is_store_request : Effect → Bool
  | Effect.settings_add_connection _ => true
  | Effect.settings_connection_delete _ => true
  | _ => false

/-- The call `nm_connection_get_setting_by_name (candidate, "bluetooth")`: the address
and the type of the Bluetooth setting, `none` when the connection has no such setting. -/
def nm_connection_get_setting_bluetooth (candidate : NMConnection) :
    Option (Option (List Nat) × Option String) :=
  candidate.settings.findSome? fun setting =>
    match setting with
    | NMSetting.bluetooth bdaddr type => some (bdaddr, type)
    | _ => none

/-- GLib's `g_strcmp0 (str, lit) != 0` for a string `str` that may be `NULL`. -/
def g_strcmp0_differs (str : Option String) (lit : String) : Bool :=
  match str with
  | some s => s != lit
  | none => true

/-- C's `memcmp (a, b, n) != 0`; `none` when `n` bytes cannot be read from both
buffers (a read past the end: undefined behaviour). -/
def memcmp_differs (a b : List Nat) (n : Nat) : Option Bool :=
  if n ≤ a.length ∧ n ≤ b.length then some (a.take n != b.take n) else none

/-- One iteration of the loop of `get_connection_for_bdaddr` on `candidate`:
`some true` when it is the record looked for (`found = candidate; break`),
`some false` for `continue`, `none` when the `memcmp` reads past the parsed array. -/
def candidate_found (array : List Nat) (method : BtMethod) (candidate : NMConnection) :
    Option Bool :=
  match nm_connection_get_setting_bluetooth candidate with
  | none => some false
  | some (addr, type) =>
    if method = BtMethod.BT_METHOD_PAN ∧ g_strcmp0_differs type NM_SETTING_BLUETOOTH_TYPE_PANU
    then some false
    else if method = BtMethod.BT_METHOD_DUN
        ∧ g_strcmp0_differs type NM_SETTING_BLUETOOTH_TYPE_DUN
    then some false
    else
      match addr with
      | none => some false
      | some bytes =>
        match memcmp_differs bytes array bytes.length with
        | none => none
        | some differs => some (!differs)

/-- The loop of `get_connection_for_bdaddr` over the listed connections. -/
def get_connection_loop (array : List Nat) (method : BtMethod) :
    List NMConnection → Option (Option NMConnection)
  | [] => some none
  | candidate :: rest =>
    match candidate_found array method candidate with
    | none => none
    | some true => some (some candidate)
    | some false => get_connection_loop array method rest

/-- The C function `get_connection_for_bdaddr`; `store` is the list that
`nm_settings_interface_list_connections` returns.  The result is `some found`
(`found = none` for `NULL`), or `none` for undefined behaviour. -/
def get_connection_for_bdaddr (store : List NMConnection) (bdaddr : String)
    (method : BtMethod) : Option (Option NMConnection) :=
  match get_array_from_bdaddr bdaddr with
  | none => some none
  | some array => get_connection_loop array method store

/-- Modelled from the spec: the store's `delete(StoredRef, callback)` (the GConf
settings service of this repository, which is outside the two source files): the
deleted record is no longer part of subsequent listings. -/
def store_delete (store : List NMConnection) (connection : NMConnection) : List NMConnection :=
  store.erase connection

/-- The `do ... while (connection)` loop of `device_removed` with at most `fuel`
iterations: the store that is left and the delete calls made so far.  `none` is
undefined behaviour in the lookup or `fuel` used up. -/
def device_removed_loop (bdaddr : String) :
    Nat → List NMConnection → List Effect → Option (List NMConnection × List Effect)
  | 0, _, _ => none
  | fuel + 1, store, calls =>
    match get_connection_for_bdaddr store bdaddr BtMethod.BT_METHOD_UNKNOWN with
    | none => none
    | some none => some (store, calls)
    | some (some connection) =>
      device_removed_loop bdaddr fuel (store_delete store connection)
        (calls ++ [Effect.settings_connection_delete (some connection)])

/-- The C function `device_removed`: the store it leaves and the delete calls it
made.  One more iteration than there are records is enough for the loop to end. -/
def device_removed (store : List NMConnection) (bdaddr : String) :
    Option (List NMConnection × List Effect) :=
  device_removed_loop bdaddr (store.length + 1) store []

/-- No negotiation is going on: no wizard, no technology family, no interface
name, no timeout, no serial, adapter or BlueZ manager proxy and no bus (the
state of a new widget and the state `dun_cleanup` leaves). -/
def session_clear (info : PluginInfo) : Prop :=
  info.wizard = none ∧ info.devtype = NMDeviceType.NM_DEVICE_TYPE_UNKNOWN
    ∧ info.rfcomm_iface = none ∧ info.dun_timeout_id = 0 ∧ info.dun_proxy = none
    ∧ info.adapter_proxy = none ∧ info.bluez_proxy = none ∧ info.bus = none

/-- Whether an effect arms a timeout. -/
def Effect.is_timeout_add : Effect → Bool
  | Effect.timeout_add_seconds _ _ _ => true
  | _ => false

/-- The result the wizard of the sample session returns: a GSM plan. -/
def sample_access_method : MobileWizardAccessMethod :=
  { provider_name := some "Acme Mobile"
    plan_name := some "Internet"
    devtype := NMDeviceType.NM_DEVICE_TYPE_GSM
    username := none
    password := none
    gsm_apn := some "internet.acme" }

/-- Whether the loop of `get_connection_for_bdaddr` stops at `candidate`. -/
def is_found (array : List Nat) (method : BtMethod) (candidate : NMConnection) : Bool :=
  candidate_found array method candidate = some true

/-- No stored Bluetooth address is longer than `limit` bytes (so that the `memcmp`
against a parsed address of `limit` bytes stays inside both arrays). -/
def addresses_within (limit : Nat) (store : List NMConnection) : Prop :=
  ∀ candidate ∈ store, ∀ addr type,
    nm_connection_get_setting_bluetooth candidate = some (some addr, type) →
    addr.length ≤ limit

/-! ## A sample store -/

/-- A stored wired connection: it has no Bluetooth setting. -/
def sample_wired : NMConnection :=
  { settings := [NMSetting.connection "Wired" "7d0a5b1c-0001" "802-3-ethernet" true] }

/-- The PAN record of the peer 00:11:22:33:44:55, as `add_pan_connection` builds it. -/
def sample_pan_record : NMConnection :=
  { settings :=
      [NMSetting.connection "00:11:22:33:44:55 PANU" "7d0a5b1c-0002" "bluetooth" false,
       NMSetting.bluetooth (some [0, 17, 34, 51, 68, 85]) (some "panu"),
       NMSetting.ip4_config "auto"] }

/-- A DUN record of the same peer. -/
def sample_dun_record : NMConnection :=
  { settings :=
      [NMSetting.gsm "*99#" none none (some "internet.acme"),
       NMSetting.serial 115200 8 'n' 1,
       NMSetting.ppp,
       NMSetting.connection "Acme Mobile Internet" "7d0a5b1c-0003" "gsm" false,
       NMSetting.bluetooth (some [0, 17, 34, 51, 68, 85]) (some "dun")] }

/-- The PAN record of another peer, 00:11:22:AA:BB:CC. -/
def sample_other_record : NMConnection :=
  { settings :=
      [NMSetting.connection "00:11:22:AA:BB:CC PANU" "7d0a5b1c-0004" "bluetooth" false,
       NMSetting.bluetooth (some [0, 17, 34, 170, 187, 204]) (some "panu"),
       NMSetting.ip4_config "auto"] }

/-- A store with the four records above. -/
def sample_store : List NMConnection :=
  [sample_wired, sample_pan_record, sample_other_record, sample_dun_record]

/-- A PAN record whose stored address holds only the three bytes 00:11:22. -/
def sample_short_record : NMConnection :=
  { settings :=
      [NMSetting.connection "truncated PANU" "7d0a5b1c-0005" "bluetooth" false,
       NMSetting.bluetooth (some [0, 17, 34]) (some "panu"),
       NMSetting.ip4_config "auto"] }

/-! ## The plugin inside the main loop

`World` adds to the plugin state what GLib and the wizard library hold for it:
the timeout sources that are live and the wizards that exist.  `deliverable`
says when the main loop can hand an event to the plugin: a reply or a signal
only while the proxy it belongs to is held (dropping the last reference of a
proxy cancels its pending calls and its signal connections), a timeout only
while its source is live, a wizard completion only while a wizard exists. -/

/-- The plugin state with the live timeout sources and the number of wizards that
have been created and not destroyed. -/
structure World where
  info : PluginInfo
  sources : List Nat
  wizards : Nat
  deriving DecidableEq, Repr

/-- What the main loop hands to the plugin: an event, or the firing of the timeout
source `id`. -/
inductive Delivery where
  | event (e : Event)
  | fire (id : Nat)

/-- The live timeout sources after a list of calls: `g_timeout_add_seconds` adds
the new source, `g_source_remove` removes the source of that id. -/
def sources_after : List Effect → List Nat → List Nat
  | [], sources => sources
  | Effect.timeout_add_seconds _ _ id :: rest, sources => sources_after rest (id :: sources)
  | Effect.source_remove id :: rest, sources => sources_after rest (sources.erase id)
  | _ :: rest, sources => sources_after rest sources

/-- The number of existing wizards after a list of calls; the call of
`mobile_wizard_destroy` on `NULL` destroys none. -/
def wizards_after : List Effect → Nat → Nat
  | [], wizards => wizards
  | Effect.wizard_new _ :: rest, wizards => wizards_after rest (wizards + 1)
  | Effect.wizard_destroy (some _) :: rest, wizards => wizards_after rest (wizards - 1)
  | _ :: rest, wizards => wizards_after rest wizards

/-- Whether the main loop can make the delivery in this world.  For a click, the
condition is on the id GLib would give to a new source: not 0 and not in use. -/
def deliverable (w : World) : Delivery → Bool
  | Delivery.fire id => decide (id ∈ w.sources)
  | Delivery.event (Event.click env) =>
    decide (env.timeout_id ≠ 0 ∧ env.timeout_id ∉ w.sources)
  | Delivery.event (Event.default_adapter_reply _) => w.info.bluez_proxy.isSome
  | Delivery.event (Event.find_device_reply _) => w.info.adapter_proxy.isSome
  | Delivery.event (Event.connect_reply _) => w.info.dun_proxy.isSome
  | Delivery.event (Event.property_changed _ _) => w.info.dun_proxy.isSome
  | Delivery.event (Event.device_added _) => w.info.mm_proxy.isSome
  | Delivery.event (Event.device_removed _) => w.info.mm_proxy.isSome
  | Delivery.event (Event.get_all_reply proxy _ _) => decide (proxy ∈ w.info.modem_proxies)
  | Delivery.event Event.timeout => false
  | Delivery.event (Event.wizard_done _ _ _) => decide (0 < w.wizards)

/-- One turn of the main loop: the world after the delivery; `none` when the
delivery cannot be made or the callback crashes.  A timeout source whose callback
returns `FALSE` is removed. -/
def world_step (w : World) (d : Delivery) : Option World :=
  if deliverable w d then
    match d with
    | Delivery.fire id =>
      let result := dun_timeout_cb w.info
      some
        { info := result.1.1
          sources :=
            if result.2 then sources_after result.1.2 w.sources
            else (sources_after result.1.2 w.sources).erase id
          wizards := wizards_after result.1.2 w.wizards }
    | Delivery.event e =>
      match handle_event w.info e with
      | none => none
      | some next =>
        some
          { info := next.1
            sources := sources_after next.2 w.sources
            wizards := wizards_after next.2 w.wizards }
  else none

/-- The worlds of a widget: the one `get_config_widgets` creates, and those the
main loop leads to from there. -/
inductive Run : World → Prop where
  | init (bdaddr : String) (method : BtMethod) (connection : Option NMConnection)
      (toggled_id : Nat) : method ≠ BtMethod.BT_METHOD_UNKNOWN →
      Run { info := plugin_info_new bdaddr method connection toggled_id
            sources := []
            wizards := 0 }
  | step (w : World) (d : Delivery) (next : World) :
      Run w → world_step w d = some next → Run next

/-- Whether an effect adds or removes a timeout source. -/
def Effect.is_timer : Effect → Bool
  | Effect.timeout_add_seconds _ _ _ => true
  | Effect.source_remove _ => true
  | _ => false

/-- The facts that hold in every world of a run: the live sources are exactly the
source of the stored timeout id (none when the id is 0); while the toggle is
sensitive no session exists; while a wizard is held the timeout id is 0. -/
def world_invariant (w : World) : Prop :=
  (w.sources = if w.info.dun_timeout_id = 0 then [] else [w.info.dun_timeout_id])
    ∧ (w.info.button_sensitive = true → session_clear w.info)
    ∧ (w.info.wizard.isSome = true → w.info.dun_timeout_id = 0)

/-- The world of the sample session right after the user has ticked the toggle. -/
def sample_world_started : World :=
  { info := sample_started, sources := [7], wizards := 0 }

/-- The world of the sample session after ModemManager has announced modem 0 while
`DefaultAdapter` is still outstanding. -/
def sample_world_early_modem : World :=
  { info := (modem_added sample_started "/org/freedesktop/ModemManager/Modems/0").1
    sources := [7]
    wizards := 0 }

/-- The first world of the sample session. -/
def sample_world_idle : World :=
  { info := sample_idle, sources := [], wizards := 0 }

/-- The world of the sample session with the tunnel open and two property replies
outstanding. -/
def sample_world_watching : World :=
  { info := sample_watching, sources := [7], wizards := 0 }

/-- The world of the sample session with the wizard shown. -/
def sample_world_matched : World :=
  { info := sample_matched, sources := [], wizards := 1 }

/-! ## The IPv4 page of the connection editor (`src/connection-editor/page-ip4.c`) -/

/-- What `ip_address_filter_cb` does with an `insert-text` emission: the text it
passes to `gtk_editable_insert_text` (`none` when it makes no such call; the count
passed is the length of the text), and whether it stops the emission, which
suppresses the insertion of the original text. -/
structure InsertTextOutcome where
  inserted : Option (List Char)
  emission_stopped : Bool
  deriving DecidableEq, Repr

/-- The loop of `ip_address_filter_cb` over `text[i]`, `i < length`: `text` holds the
characters still to be looked at and `result` the `count` characters kept so far. -/
def ip_address_filter_loop : List Char → List Char → List Char
  | [], result => result
  | c :: rest, result =>
    if ('0' ≤ c ∧ c ≤ '9') ∨ c = '.' then ip_address_filter_loop rest (result ++ [c])
    else ip_address_filter_loop rest result

/-- The C function `ip_address_filter_cb`; `text` is the list of the `length`
characters offered for insertion. -/
def ip_address_filter_cb (text : List Char) : InsertTextOutcome :=
  let result := ip_address_filter_loop text []
  { inserted := if result.length > 0 then some result else none
    emission_stopped := true }

def IP4_METHOD_AUTO : Nat := 0
def IP4_METHOD_AUTO_MANUAL_DNS : Nat := 1
def IP4_METHOD_MANUAL : Nat := 2
def IP4_METHOD_LINK_LOCAL : Nat := 3
def IP4_METHOD_SHARED : Nat := 4

/-- The values of the macros `NM_SETTING_IP4_CONFIG_METHOD_DHCP`, `_AUTOIP`,
`_MANUAL` and `_SHARED` of `nm-setting-ip4-config.h`, which the page only names. -/
structure IP4MethodNames where
  dhcp : String
  autoip : String
  manual : String
  shared : String
  deriving DecidableEq, Repr

/-- The macro values in the NetworkManager release the page was written for. -/
def nm_ip4_method_names : IP4MethodNames :=
  { dhcp := "dhcp", autoip := "autoip", manual := "manual", shared := "shared" }

/-- The rows of `method_store` as `ip4_private_init` appends them (column
`METHOD_COL_NUM`); a VPN page has no Link-Local row. -/
def method_store (is_vpn : Bool) : List Nat :=
  [IP4_METHOD_AUTO, IP4_METHOD_AUTO_MANUAL_DNS, IP4_METHOD_MANUAL]
    ++ (if is_vpn then [] else [IP4_METHOD_LINK_LOCAL])
    ++ [IP4_METHOD_SHARED]

/-- The method part of `ui_to_setting`: the number of the active combo row
(`IP4_METHOD_AUTO` when no row is active) and the `switch` on it give the method
string and the `ignore_dhcp_dns` flag that the final `g_object_set` writes. -/
def ui_to_setting_method (names : IP4MethodNames) (store : List Nat) (active : Option Nat) :
    String × Bool :=
  let int_method :=
    match active with
    | some row => (store.get? row).getD IP4_METHOD_AUTO
    | none => IP4_METHOD_AUTO
  if int_method = IP4_METHOD_LINK_LOCAL then (names.autoip, false)
  else if int_method = IP4_METHOD_MANUAL then (names.manual, false)
  else if int_method = IP4_METHOD_SHARED then (names.shared, false)
  else if int_method = IP4_METHOD_AUTO_MANUAL_DNS then (names.dhcp, true)
  else (names.dhcp, false)

/-- The method number `populate_ui` computes from the setting's method string
(`none` for `NULL`) and its `ignore_dhcp_dns` flag. -/
def populate_ui_method (names : IP4MethodNames) (setting_method : Option String)
    (ignore_dhcp_dns : Bool) : Nat :=
  let method :=
    match setting_method with
    | some m =>
      if m = names.autoip then IP4_METHOD_LINK_LOCAL
      else if m = names.manual then IP4_METHOD_MANUAL
      else if m = names.shared then IP4_METHOD_SHARED
      else IP4_METHOD_AUTO
    | none => IP4_METHOD_AUTO
  if method = IP4_METHOD_AUTO ∧ ignore_dhcp_dns = true then IP4_METHOD_AUTO_MANUAL_DNS
  else method

/-- The walk of `gtk_tree_model_foreach` with `set_method` over the rows from index
`row` on: the index of the first row whose number is `method`, at which the walk
stops, or `none` when no row has it. -/
def set_method_walk (method : Nat) : List Nat → Nat → Option Nat
  | [], _ => none
  | num :: rest, row => if num = method then some row else set_method_walk method rest (row + 1)

/-- The method part of `populate_ui`: the combo row that is active afterwards: row
0 from `gtk_combo_box_set_active (priv->method, 0)`, replaced by the row that
`set_method` activates. -/
def populate_ui_active (names : IP4MethodNames) (store : List Nat)
    (setting_method : Option String) (ignore_dhcp_dns : Bool) : Nat :=
  match set_method_walk (populate_ui_method names setting_method ignore_dhcp_dns) store 0 with
  | some row => row
  | none => 0

/-! ## The plugin entry points -/

/-- The C function `has_config_widget`. -/
def has_config_widget (bdaddr : String) (uuids : Option (List String)) : Bool :=
  decide (get_best_method bdaddr uuids ≠ BtMethod.BT_METHOD_UNKNOWN)

/-- The C function `get_config_widgets`: the widget is represented by the
`PluginInfo` attached to it; `some none` is the `NULL` widget and `none` undefined
behaviour in the store lookup.  `store` is the listing of the connection store
and `toggled_id` the handler id `g_signal_connect` returns. -/
def get_config_widgets (store : List NMConnection) (toggled_id : Nat) (bdaddr : String)
    (uuids : Option (List String)) : Option (Option PluginInfo) :=
  let method := get_best_method bdaddr uuids
  if method = BtMethod.BT_METHOD_UNKNOWN then some none
  else
    match get_connection_for_bdaddr store bdaddr method with
    | none => none
    | some connection => some (some (plugin_info_new bdaddr method connection toggled_id))

/-- The worlds the main loop leads to from a given world. -/
inductive Steps : World → World → Prop where
  | refl (w : World) : Steps w w
  | step (start w : World) (d : Delivery) (next : World) :
      Steps start w → world_step w d = some next → Steps start next

/-! ## The address format in the words of the specification -/

/-- The value of one hexadecimal digit, letters in either case, in the words of the
specification (not translated from the code). -/
def spec_hex_digit (c : Char) : Option Nat :=
  if '0' ≤ c ∧ c ≤ '9' then some (c.toNat - 48)
  else if 'a' ≤ c ∧ c ≤ 'f' then some (c.toNat - 97 + 10)
  else if 'A' ≤ c ∧ c ≤ 'F' then some (c.toNat - 65 + 10)
  else none

/-- The value of a two-digit hexadecimal octet, in the words of the specification. -/
def spec_octet (high low : Char) : Option Nat :=
  match spec_hex_digit high, spec_hex_digit low with
  | some h, some l => some (h * 16 + l)
  | _, _ => none

/-- The address parser in the words of the specification (not translated from the
code): the text is exactly six two-digit hexadecimal octets separated by colons;
the result is the octet values in order, and `none` for any other shape. -/
def spec_parse_bdaddr (str : String) : Option (List Nat) :=
  match str.data with
  | [a1, b1, s1, a2, b2, s2, a3, b3, s3, a4, b4, s4, a5, b5, s5, a6, b6] =>
    if s1 = ':' ∧ s2 = ':' ∧ s3 = ':' ∧ s4 = ':' ∧ s5 = ':' then
      match spec_octet a1 b1, spec_octet a2 b2, spec_octet a3 b3, spec_octet a4 b4,
          spec_octet a5 b5, spec_octet a6 b6 with
      | some o1, some o2, some o3, some o4, some o5, some o6 => some [o1, o2, o3, o4, o5, o6]
      | _, _, _, _, _, _ => none
    else none
  | _ => none

/-! ## A session for a peer whose address text is no address -/

/-- The world after a list of deliveries, made in order; `none` when one of them
cannot be made or crashes. -/
def world_run (w : World) : List Delivery → Option World
  | [] => some w
  | d :: ds =>
    match world_step w d with
    | none => none
    | some next => world_run next ds

/-- The deliveries of the sample session up to the wizard: the click, the three
tunnel replies, two modems, the property reply of the modem on the tunnel. -/
def sample_deliveries : List Delivery :=
  [Delivery.event (Event.click sample_env),
   Delivery.event (Event.default_adapter_reply (Except.ok "/org/bluez/hci0")),
   Delivery.event (Event.find_device_reply (Except.ok "/org/bluez/hci0/dev_00_11_22_33_44_55")),
   Delivery.event (Event.connect_reply (Except.ok (some "/dev/rfcomm0"))),
   Delivery.event (Event.device_added "/org/freedesktop/ModemManager/Modems/0"),
   Delivery.event (Event.device_added "/org/freedesktop/ModemManager/Modems/1"),
   Delivery.event
     (Event.get_all_reply (sample_modem 0) (Except.ok sample_gsm_properties) sample_env)]

/-- The widget state `get_config_widgets` creates for the address text "phone" of a
peer that advertises `DialupNetworking`, on an empty store. -/
def sample_malformed_idle : PluginInfo :=
  plugin_info_new "phone" BtMethod.BT_METHOD_DUN none 1

/-- The world with the wizard shown for that peer. -/
def sample_world_malformed : World :=
  { info := { sample_matched with bdaddr := "phone" }, sources := [], wizards := 1 }

/-- The first world of a widget. -/
def world_new (info : PluginInfo) : World :=
  { info := info, sources := [], wizards := 0 }

/-! ## Sessions in which the store refuses the new record -/

/-- The answers of the outside world of the sample session, except that
`nma_gconf_settings_add_connection` returns `NULL`. -/
def sample_refusing_env : Env :=
  { sample_env with add_connection_ok := false }

/-- The widget state `get_config_widgets` creates for a peer that advertises `NAP`,
on an empty store. -/
def sample_pan_idle : PluginInfo :=
  plugin_info_new "00:11:22:33:44:55" BtMethod.BT_METHOD_PAN none 1

/-- What the user sees of a world and what the controller holds: whether the
toggle is sensitive, whether it is on, the record held, the label, the wizard,
the bus and the live timeout sources. -/
structure WorldSummary where
  button_sensitive : Bool
  button_active : Bool
  connection : Option NMConnection
  label : String
  wizard : Option MobileWizard
  bus : Option DBusGConnection
  sources : List Nat
  deriving DecidableEq, Repr

/-- The summary of a world. -/
def world_summary (w : World) : WorldSummary :=
  { button_sensitive := w.info.button_sensitive
    button_active := w.info.button_active
    connection := w.info.connection
    label := w.info.label
    wizard := w.info.wizard
    bus := w.info.bus
    sources := w.sources }

/-! ## The answers of BlueZ to `FindDevice`

BlueZ is outside this repository.  Its adapter keeps every device under an
address of six colon-separated two-digit hexadecimal octets, and `FindDevice`
returns the object path of such a device or an error.  `bluez_resolves` states
that behaviour as a condition on the deliveries of the main loop. -/

/-- Whether BlueZ can make the delivery: a reply to `FindDevice (info->bdaddr)` that
carries a device path only when the text asked for has the form of a device
address; every other delivery is left as it is. -/
def bluez_resolves (w : World) : Delivery → Bool
  | Delivery.event (Event.find_device_reply (Except.ok _)) =>
    (spec_parse_bdaddr w.info.bdaddr).isSome
  | _ => true

/-- One turn of the main loop with a delivery BlueZ can make. -/
def bluez_step (w : World) (d : Delivery) : Option World :=
  if bluez_resolves w d then world_step w d else none

/-- The world after a list of deliveries BlueZ can make, made in order. -/
def bluez_run (w : World) : List Delivery → Option World
  | [] => some w
  | d :: ds =>
    match bluez_step w d with
    | none => none
    | some next => bluez_run next ds

/-- The loop of `get_best_method` sets each flag exactly when its marker occurs. -/
theorem get_best_method_loop_eq (us : List String) (has_nap has_dun : Bool) :
    get_best_method_loop us (has_nap, has_dun) =
      (has_nap || decide ("NAP" ∈ us), has_dun || decide ("DialupNetworking" ∈ us)) := by
  induction us generalizing has_nap has_dun with
  | nil => simp [get_best_method_loop]
  | cons u us ih =>
    simp only [get_best_method_loop, ih]
    by_cases h1 : u = "NAP" <;> by_cases h2 : u = "DialupNetworking" <;>
      simp [h1, h2, List.mem_cons, eq_comm]

/-- C2: for every service list (the absent list and the empty list included),
`get_best_method` returns PAN if some element is "NAP", otherwise DUN if some
element is "DialupNetworking", otherwise UNKNOWN; so a list with both markers
yields PAN in any order and multiplicity, and the address argument is irrelevant. -/
theorem get_best_method_classifies (bdaddr : String) (uuids : Option (List String)) :
    get_best_method bdaddr uuids =
        (if "NAP" ∈ uuids.getD [] then BtMethod.BT_METHOD_PAN
         else if "DialupNetworking" ∈ uuids.getD [] then BtMethod.BT_METHOD_DUN
         else BtMethod.BT_METHOD_UNKNOWN)
      ∧ ∀ other : String, get_best_method other uuids = get_best_method bdaddr uuids := by
  refine ⟨?_, fun _ => rfl⟩
  cases uuids with
  | none => simp [get_best_method]
  | some us =>
    simp only [get_best_method, get_best_method_loop_eq, Option.getD_some]
    by_cases h1 : "NAP" ∈ us <;> by_cases h2 : "DialupNetworking" ∈ us <;> simp [h1, h2]


/-- The state `dun_cleanup` returns, field by field. -/
theorem dun_cleanup_state (info : PluginInfo) (message : String) (uncheck : Bool) :
    (dun_cleanup info message uncheck).1 =
      { info with
        modem_proxies := []
        dun_proxy := none
        rfcomm_iface := none
        adapter_proxy := none
        bluez_proxy := none
        bus := none
        dun_timeout_id := 0
        window_group := none
        wizard := none
        devtype := NMDeviceType.NM_DEVICE_TYPE_UNKNOWN
        spinner := info.spinner.map (fun _ => { running := false, visible := false })
        label := message
        button_sensitive := true
        button_active := if uncheck then false else info.button_active } := by
  cases h : info.spinner <;> simp [dun_cleanup, h]

/-- The D-Bus calls among the effects of `dun_cleanup`: one `Disconnect` without
reply when both the serial proxy and the interface name are present. -/
theorem dun_cleanup_dbus_calls (info : PluginInfo) (message : String) (uncheck : Bool) :
    (dun_cleanup info message uncheck).2.filter Effect.is_dbus_call =
      (match info.dun_proxy, info.rfcomm_iface with
        | some dun, some iface => [Effect.call_no_reply dun "Disconnect" [iface]]
        | _, _ => []) := by
  have hmap : ∀ l : List DBusGProxy,
      (l.map Effect.proxy_unref).filter Effect.is_dbus_call = [] := by
    intro l
    induction l with
    | nil => rfl
    | cons p ps ih => simp [Effect.is_dbus_call, ih]
  simp only [dun_cleanup, List.filter_append, hmap]
  cases info.dun_proxy <;> cases info.rfcomm_iface <;> cases info.adapter_proxy <;>
    cases info.bluez_proxy <;> cases info.bus <;> cases info.window_group <;>
    cases info.wizard <;> by_cases h : info.dun_timeout_id = 0 <;>
    simp [Effect.is_dbus_call, h]

/-- C7: for every state, `dun_cleanup` issues a `Disconnect` on the serial proxy
exactly when the tunnel was opened (serial proxy present and interface name
resolved), with that interface name and without waiting for a reply, and issues
no other D-Bus call; in every case the state it returns has no serial proxy
(`dun_proxy`), no interface name, no adapter proxy, no BlueZ manager proxy
(`bluez_proxy`), no bus, no modem candidates, no wizard and no window group, a
timeout id of 0 and an unknown technology family. -/
theorem dun_cleanup_releases (info : PluginInfo) (message : String) (uncheck : Bool) :
    (dun_cleanup info message uncheck).2.filter Effect.is_dbus_call =
        (match info.dun_proxy, info.rfcomm_iface with
          | some dun, some iface => [Effect.call_no_reply dun "Disconnect" [iface]]
          | _, _ => [])
      ∧ (dun_cleanup info message uncheck).1.dun_proxy = none
      ∧ (dun_cleanup info message uncheck).1.rfcomm_iface = none
      ∧ (dun_cleanup info message uncheck).1.adapter_proxy = none
      ∧ (dun_cleanup info message uncheck).1.bluez_proxy = none
      ∧ (dun_cleanup info message uncheck).1.bus = none
      ∧ (dun_cleanup info message uncheck).1.modem_proxies = []
      ∧ (dun_cleanup info message uncheck).1.wizard = none
      ∧ (dun_cleanup info message uncheck).1.window_group = none
      ∧ (dun_cleanup info message uncheck).1.dun_timeout_id = 0
      ∧ (dun_cleanup info message uncheck).1.devtype = NMDeviceType.NM_DEVICE_TYPE_UNKNOWN := by
  refine ⟨dun_cleanup_dbus_calls info message uncheck, ?_⟩
  simp [dun_cleanup_state]

/-- C8: teardown is idempotent: for every state, message and uncheck flag, a second
`dun_cleanup` returns the state the first one returned and makes no call at all
(no `Disconnect`, no `g_source_remove`, no `mobile_wizard_destroy`). -/
theorem dun_cleanup_idempotent (info : PluginInfo) (message : String) (uncheck : Bool) :
    dun_cleanup (dun_cleanup info message uncheck).1 message uncheck =
      ((dun_cleanup info message uncheck).1, []) := by
  cases h : info.spinner <;> cases uncheck <;> simp [dun_cleanup, h]

/-- The message of `dun_error` for a transport error: the error's message when it
has one, the fallback otherwise. -/
theorem dun_error_message_some (error : GError) (fallback : String) :
    dun_error_message (some error) fallback = "Error: " ++ error.message.getD fallback := by
  cases h : error.message <;> simp [dun_error_message, h]

/-- Every call the teardown makes releases something: it drops a reference, sends
the `Disconnect` that expects no reply, removes the timeout or destroys the wizard. -/
theorem dun_cleanup_effects_release (info : PluginInfo) (message : String) (uncheck : Bool) :
    ∀ e ∈ (dun_cleanup info message uncheck).2, e.is_release = true := by
  intro e he
  simp only [dun_cleanup, List.mem_append, List.mem_map] at he
  rcases he with (((((((⟨p, -, rfl⟩ | h) | h) | h) | h) | h) | h) | h)
  · rfl
  · cases hd : info.dun_proxy <;> cases hi : info.rfcomm_iface <;>
      simp [hd, hi] at h <;> (try rcases h with rfl | rfl) <;> rfl
  · cases hd : info.adapter_proxy <;> simp [hd] at h; subst h; rfl
  · cases hd : info.bluez_proxy <;> simp [hd] at h; subst h; rfl
  · cases hd : info.bus <;> simp [hd] at h; subst h; rfl
  · by_cases hd : info.dun_timeout_id = 0 <;> simp [hd] at h; subst h; rfl
  · cases hd : info.window_group <;> simp [hd] at h; subst h; rfl
  · cases hd : info.wizard <;> simp [hd] at h; subst h; rfl

/-- The teardown starts no request that expects a reply, arms no timer and
presents no wizard. -/
theorem dun_cleanup_starts_nothing (info : PluginInfo) (message : String) (uncheck : Bool) :
    (∀ p m cb t a, Effect.begin_call p m cb t a ∉ (dun_cleanup info message uncheck).2)
      ∧ (∀ n cb id, Effect.timeout_add_seconds n cb id ∉ (dun_cleanup info message uncheck).2)
      ∧ (∀ w, Effect.wizard_present w ∉ (dun_cleanup info message uncheck).2) := by
  refine ⟨?_, ?_, ?_⟩ <;> intros <;> intro hmem <;>
    exact Bool.noConfusion (dun_cleanup_effects_release info message uncheck _ hmem)

/-- C5: in every state, the notification ("Connected", false) runs the full
teardown `dun_cleanup` with the "unexpectedly disconnected" message and the
toggle reset to off (session fields cleared, no new request), whereas a
notification for another property name, or ("Connected", true), returns the
state unchanged and makes no call. -/
theorem dun_property_changed_aborts (info : PluginInfo) (property : String) (value : GValue) :
    dun_property_changed info "Connected" (GValue.boolean false) =
        dun_cleanup info "Error: unexpectedly disconnected from the phone." true
      ∧ (dun_property_changed info "Connected" (GValue.boolean false)).1.label =
          "Error: unexpectedly disconnected from the phone."
      ∧ (dun_property_changed info "Connected" (GValue.boolean false)).1.button_active = false
      ∧ (dun_property_changed info "Connected" (GValue.boolean false)).1.wizard = none
      ∧ (dun_property_changed info "Connected" (GValue.boolean false)).1.dun_timeout_id = 0
      ∧ (dun_property_changed info "Connected" (GValue.boolean false)).1.devtype =
          NMDeviceType.NM_DEVICE_TYPE_UNKNOWN
      ∧ (dun_property_changed info "Connected" (GValue.boolean false)).1.dun_proxy = none
      ∧ (dun_property_changed info "Connected" (GValue.boolean false)).1.bus = none
      ∧ (dun_property_changed info "Connected" (GValue.boolean false)).1.modem_proxies = []
      ∧ (property ≠ "Connected" → dun_property_changed info property value = (info, []))
      ∧ dun_property_changed info "Connected" (GValue.boolean true) = (info, []) := by
  have h : dun_property_changed info "Connected" (GValue.boolean false) =
      dun_cleanup info "Error: unexpectedly disconnected from the phone." true := by
    simp [dun_property_changed, g_value_get_boolean, dun_error, dun_error_message]
  refine ⟨h, ?_, ?_, ?_, ?_, ?_, ?_, ?_, ?_, ?_, ?_⟩
  · simp [h, dun_cleanup_state]
  · simp [h, dun_cleanup_state]
  · simp [h, dun_cleanup_state]
  · simp [h, dun_cleanup_state]
  · simp [h, dun_cleanup_state]
  · simp [h, dun_cleanup_state]
  · simp [h, dun_cleanup_state]
  · simp [h, dun_cleanup_state]
  · intro hp
    simp [dun_property_changed, hp]
  · simp [dun_property_changed, g_value_get_boolean]

/-- C6: for each of the three tunnel steps an error reply is terminal: the handler
does exactly the full teardown `dun_cleanup` with the toggle reset to off and
the status text "Error: " followed by the transport's message when there is one
and by the step's fixed cause otherwise; a `Connect` reply that succeeds with an
absent or empty interface name is the same tunnel-open failure.  The teardown
starts no request that expects a reply and arms no timer, shows the message,
unchecks the toggle and clears the session. -/
theorem tunnel_step_error_terminal (info : PluginInfo) (error : GError) :
    default_adapter_cb info (Except.error error) =
        dun_cleanup info
          ("Error: " ++ error.message.getD "could not discover Bluetooth adapter.") true
      ∧ find_device_cb info (Except.error error) =
        dun_cleanup info ("Error: " ++ error.message.getD "failed to discover the phone.") true
      ∧ dun_connect_cb info (Except.error error) =
        dun_cleanup info ("Error: " ++ error.message.getD "failed to connect to the phone.") true
      ∧ dun_connect_cb info (Except.ok none) =
        dun_cleanup info "Error: failed to connect to the phone." true
      ∧ dun_connect_cb info (Except.ok (some "")) =
        dun_cleanup info "Error: failed to connect to the phone." true
      ∧ ∀ message : String,
          (∀ p m cb t a, Effect.begin_call p m cb t a ∉ (dun_cleanup info message true).2)
          ∧ (∀ n cb id, Effect.timeout_add_seconds n cb id ∉ (dun_cleanup info message true).2)
          ∧ (dun_cleanup info message true).1.label = message
          ∧ (dun_cleanup info message true).1.button_active = false
          ∧ (dun_cleanup info message true).1.dun_proxy = none
          ∧ (dun_cleanup info message true).1.rfcomm_iface = none
          ∧ (dun_cleanup info message true).1.adapter_proxy = none
          ∧ (dun_cleanup info message true).1.bluez_proxy = none
          ∧ (dun_cleanup info message true).1.bus = none
          ∧ (dun_cleanup info message true).1.modem_proxies = []
          ∧ (dun_cleanup info message true).1.dun_timeout_id = 0
          ∧ (dun_cleanup info message true).1.wizard = none
          ∧ (dun_cleanup info message true).1.devtype = NMDeviceType.NM_DEVICE_TYPE_UNKNOWN := by
  refine ⟨?_, ?_, ?_, ?_, ?_, ?_⟩
  · simp [default_adapter_cb, dun_error, dun_error_message_some]
  · simp [find_device_cb, dun_error, dun_error_message_some]
  · simp [dun_connect_cb, dun_error, dun_error_message_some]
  · simp [dun_connect_cb, dun_error, dun_error_message]
  · simp [dun_connect_cb, dun_error, dun_error_message]
  · intro message
    refine ⟨(dun_cleanup_starts_nothing info message true).1,
      (dun_cleanup_starts_nothing info message true).2.1, ?_⟩
    simp [dun_cleanup_state]

/-- A witness for `dun_property_changed_aborts`: a notification for "Name" changes
nothing in a fresh DUN widget. -/
theorem dun_property_changed_aborts_witness :
    "Name" ≠ "Connected" ∧
      dun_property_changed (plugin_info_new "00:11:22:33:44:55" BtMethod.BT_METHOD_DUN none 1)
          "Name" (GValue.string (some "phone")) =
        (plugin_info_new "00:11:22:33:44:55" BtMethod.BT_METHOD_DUN none 1, []) :=
  ⟨by decide,
   (dun_property_changed_aborts
      (plugin_info_new "00:11:22:33:44:55" BtMethod.BT_METHOD_DUN none 1)
      "Name" (GValue.string (some "phone"))).2.2.2.2.2.2.2.2.2.1 (by decide)⟩

/-- The teardown is a step of the first kind. -/
theorem step_kinds_cleanup (info before : PluginInfo) (message : String) (uncheck : Bool) :
    step_kinds info (dun_cleanup before message uncheck).1 :=
  Or.inl ⟨before, message, uncheck, rfl⟩

/-- The error path `dun_error` is a step of the first kind. -/
theorem step_kinds_error (info before : PluginInfo) (error : Option GError) (fallback : String) :
    step_kinds info (dun_error before error fallback).1 :=
  Or.inl ⟨before, _, true, rfl⟩

/-- A step that keeps the four fields is of the last kind. -/
theorem step_kinds_frame (info next : PluginInfo) (h1 : next.wizard = info.wizard)
    (h2 : next.devtype = info.devtype) (h3 : next.bus = info.bus)
    (h4 : next.button_sensitive = info.button_sensitive) : step_kinds info next :=
  Or.inr (Or.inr (Or.inr ⟨h1, h2, h3, h4⟩))

/-- The step kinds of `dun_start`: teardown without a bus, start of a negotiation with one. -/
theorem dun_start_kinds (info : PluginInfo) (env : Env) :
    step_kinds info (dun_start info env).1 := by
  by_cases h : env.bus_get_error.isSome = true ∨ env.bus_get_bus.isNone = true
  · simp only [dun_start, h, if_true]
    exact step_kinds_error _ _ _ _
  · simp only [dun_start, h, if_false]
    simp only [not_or, Bool.not_eq_true] at h
    right; left
    cases hb : env.bus_get_bus with
    | none => simp [hb] at h
    | some b => simp

/-- The step kinds of `button_toggled`. -/
theorem button_toggled_kinds (info : PluginInfo) (env : Env) :
    step_kinds info (button_toggled info env).1 := by
  unfold button_toggled
  split
  · exact step_kinds_frame _ _ rfl rfl rfl rfl
  · split
    · exact step_kinds_frame _ _ rfl rfl rfl rfl
    · split
      · exact dun_start_kinds info env
      · exact step_kinds_frame _ _ rfl rfl rfl rfl

/-- The step kinds of a click on the toggle. -/
theorem button_clicked_kinds (info : PluginInfo) (env : Env) :
    step_kinds info (button_clicked info env).1 := by
  unfold button_clicked
  split
  · have := button_toggled_kinds { info with button_active := !info.button_active } env
    exact this
  · exact step_kinds_frame _ _ rfl rfl rfl rfl

/-- The step kinds of `default_adapter_cb`. -/
theorem default_adapter_cb_kinds (info : PluginInfo) (reply : Except GError String) :
    step_kinds info (default_adapter_cb info reply).1 := by
  cases reply with
  | error e => exact step_kinds_error _ _ _ _
  | ok p => exact step_kinds_frame _ _ rfl rfl rfl rfl

/-- The step kinds of `find_device_cb`. -/
theorem find_device_cb_kinds (info : PluginInfo) (reply : Except GError String) :
    step_kinds info (find_device_cb info reply).1 := by
  cases reply with
  | error e => exact step_kinds_error _ _ _ _
  | ok p => exact step_kinds_frame _ _ rfl rfl rfl rfl

/-- The step kinds of `dun_connect_cb`. -/
theorem dun_connect_cb_kinds (info : PluginInfo) (reply : Except GError (Option String)) :
    step_kinds info (dun_connect_cb info reply).1 := by
  unfold dun_connect_cb
  split
  · exact step_kinds_error _ _ _ _
  · split
    · exact step_kinds_error _ _ _ _
    · split
      · exact step_kinds_error _ _ _ _
      · exact step_kinds_frame _ _ rfl rfl rfl rfl

/-- The step kinds of `dun_property_changed`. -/
theorem dun_property_changed_kinds (info : PluginInfo) (property : String) (value : GValue) :
    step_kinds info (dun_property_changed info property value).1 := by
  unfold dun_property_changed
  split
  · exact step_kinds_frame _ _ rfl rfl rfl rfl
  · split
    · exact step_kinds_frame _ _ rfl rfl rfl rfl
    · exact step_kinds_error _ _ _ _

/-- The step kinds of `modem_removed`. -/
theorem modem_removed_kinds (info : PluginInfo) (path : String) :
    step_kinds info (modem_removed info path).1 := by
  unfold modem_removed
  split <;> exact step_kinds_frame _ _ rfl rfl rfl rfl

/-- The tail of `modem_get_all_cb` keeps the bus, the sensitivity and the family, and
sets the wizard exactly when the family is known. -/
theorem modem_start_wizard_kinds (info : PluginInfo) (env : Env) :
    (modem_start_wizard info env).1.bus = info.bus
      ∧ (modem_start_wizard info env).1.button_sensitive = info.button_sensitive
      ∧ (modem_start_wizard info env).1.devtype = info.devtype
      ∧ (if info.devtype = NMDeviceType.NM_DEVICE_TYPE_UNKNOWN
          then (modem_start_wizard info env).1.wizard = info.wizard
          else (modem_start_wizard info env).1.wizard.isSome) := by
  by_cases h : info.devtype = NMDeviceType.NM_DEVICE_TYPE_UNKNOWN <;>
    simp [modem_start_wizard, h]

/-- The family after a reply is GSM, CDMA or the family before. -/
theorem modem_devtype_from_properties_cases (info : PluginInfo)
    (properties : List (String × GValue)) (devtype : NMDeviceType)
    (h : modem_devtype_from_properties info properties = some devtype) :
    devtype = NMDeviceType.NM_DEVICE_TYPE_GSM ∨ devtype = NMDeviceType.NM_DEVICE_TYPE_CDMA
      ∨ devtype = info.devtype := by
  unfold modem_devtype_from_properties at h
  split at h
  · split at h
    · exact absurd h (by simp)
    · split at h
      · split at h <;> simp only [Option.some.injEq] at h <;> subst h <;> simp
      · simp only [Option.some.injEq] at h
        subst h
        simp
  · simp only [Option.some.injEq] at h
    subst h
    simp

/-- The step kinds of `modem_get_all_cb`. -/
theorem modem_get_all_cb_kinds (info : PluginInfo) (proxy : DBusGProxy)
    (reply : Except GError (List (String × GValue))) (env : Env)
    (next : PluginInfo × List Effect) (h : modem_get_all_cb info proxy reply env = some next) :
    step_kinds info next.1 := by
  unfold modem_get_all_cb at h
  split at h
  · simp only [Option.some.injEq] at h
    subst h
    exact step_kinds_frame _ _ rfl rfl rfl rfl
  · split at h
    · exact absurd h (by simp)
    · rename_i properties _ devtype hdev
      simp only [Option.some.injEq] at h
      subst h
      have hk := modem_start_wizard_kinds { info with devtype := devtype } env
      by_cases hu : devtype = NMDeviceType.NM_DEVICE_TYPE_UNKNOWN
      · have hold : info.devtype = NMDeviceType.NM_DEVICE_TYPE_UNKNOWN := by
          rcases modem_devtype_from_properties_cases info properties devtype hdev with h1 | h1 | h1
          · rw [hu] at h1; exact absurd h1 (by decide)
          · rw [hu] at h1; exact absurd h1 (by decide)
          · rw [← h1]; exact hu
        subst hu
        simp only [if_true] at hk
        refine step_kinds_frame _ _ hk.2.2.2 ?_ hk.1 hk.2.1
        rw [hk.2.2.1, hold]
      · simp only [hu, if_false] at hk
        right; right; left
        refine ⟨hk.2.2.2, ?_, hk.1, hk.2.1⟩
        rw [hk.2.2.1]
        exact hu

/-- The step kinds of `wizard_done_cb`: every path ends in the teardown. -/
theorem wizard_done_cb_kinds (info : PluginInfo) (canceled : Bool)
    (method : Option MobileWizardAccessMethod) (env : Env) (next : PluginInfo × List Effect)
    (h : wizard_done_cb info canceled method env = some next) : step_kinds info next.1 := by
  have hstore : ∀ connection, wizard_done_store info connection env = some next →
      step_kinds info next.1 := by
    intro connection hs
    unfold wizard_done_store at hs
    cases hm : get_array_from_bdaddr info.bdaddr with
    | none => simp [hm] at hs
    | some mac =>
      simp only [hm, Option.some.injEq] at hs
      subst hs
      exact step_kinds_cleanup _ _ _ _
  unfold wizard_done_cb at h
  split at h
  · simp only [Option.some.injEq] at h; subst h; exact step_kinds_error _ _ _ _
  · simp only [Option.some.injEq] at h; subst h; exact step_kinds_error _ _ _ _
  · split at h
    · exact hstore _ h
    · split at h
      · exact hstore _ h
      · simp only [Option.some.injEq] at h; subst h; exact step_kinds_error _ _ _ _

/-- Every callback is of one of the four kinds of `step_kinds`. -/
theorem handle_event_kinds (info : PluginInfo) (event : Event) (next : PluginInfo × List Effect)
    (h : handle_event info event = some next) : step_kinds info next.1 := by
  cases event with
  | click env =>
    simp only [handle_event, Option.some.injEq] at h
    subst h; exact button_clicked_kinds info env
  | default_adapter_reply reply =>
    simp only [handle_event, Option.some.injEq] at h
    subst h; exact default_adapter_cb_kinds info reply
  | find_device_reply reply =>
    simp only [handle_event, Option.some.injEq] at h
    subst h; exact find_device_cb_kinds info reply
  | connect_reply reply =>
    simp only [handle_event, Option.some.injEq] at h
    subst h; exact dun_connect_cb_kinds info reply
  | property_changed property value =>
    simp only [handle_event, Option.some.injEq] at h
    subst h; exact dun_property_changed_kinds info property value
  | device_added path =>
    simp only [handle_event, Option.some.injEq] at h
    subst h; exact step_kinds_frame _ _ rfl rfl rfl rfl
  | device_removed path =>
    simp only [handle_event, Option.some.injEq] at h
    subst h; exact modem_removed_kinds info path
  | get_all_reply proxy reply env =>
    exact modem_get_all_cb_kinds info proxy reply env next h
  | timeout =>
    simp only [handle_event, Option.some.injEq] at h
    subst h; exact step_kinds_error _ _ _ _
  | wizard_done canceled method env =>
    exact wizard_done_cb_kinds info canceled method env next h

/-- In every reachable state the wizard is absent exactly when the technology
family is unknown, and the toggle is insensitive whenever the bus is held. -/
theorem reachable_invariant (info : PluginInfo) (h : Reachable info) :
    (info.wizard = none ↔ info.devtype = NMDeviceType.NM_DEVICE_TYPE_UNKNOWN)
      ∧ (info.bus.isSome → info.button_sensitive = false) := by
  induction h with
  | init bdaddr method connection toggled_id _ => simp [plugin_info_new]
  | step info event next _ hstep ih =>
    rcases handle_event_kinds info event next hstep with
      ⟨before, message, uncheck, hk⟩ | ⟨h1, h2, h3, h4⟩ | ⟨h1, h2, h3, h4⟩ | ⟨h1, h2, h3, h4⟩
    · rw [hk]; simp [dun_cleanup_state]
    · rw [h3, h4]; exact ⟨ih.1, fun _ => h2⟩
    · refine ⟨?_, ?_⟩
      · constructor
        · intro hw; rw [hw] at h1; exact absurd h1 (by simp)
        · intro hd; exact absurd hd h2
      · rw [h3, h4]; exact ih.2
    · rw [h1, h2, h3, h4]; exact ih

/-- What `modem_get_all_cb` does for a property map whose "Device" is the base name
of the tunnel interface and whose "Type" is 1 or 2. -/
theorem modem_get_all_cb_match (info : PluginInfo) (proxy : DBusGProxy)
    (properties : List (String × GValue)) (env : Env) (rfcomm_iface : String)
    (n : Nat) (devtype : NMDeviceType)
    (h_iface : info.rfcomm_iface = some rfcomm_iface)
    (h_device : properties.lookup "Device" =
      some (GValue.string (some (g_path_get_basename rfcomm_iface))))
    (h_type : properties.lookup "Type" = some (GValue.uint n))
    (h_n : (n = 1 ∧ devtype = NMDeviceType.NM_DEVICE_TYPE_GSM)
      ∨ (n = 2 ∧ devtype = NMDeviceType.NM_DEVICE_TYPE_CDMA)) :
    modem_get_all_cb info proxy (Except.ok properties) env =
      some ({ info with
              devtype := devtype
              dun_timeout_id := 0
              window_group := (wizard_for env devtype).window_group
              wizard := some (wizard_for env devtype) },
            [Effect.source_remove info.dun_timeout_id,
             Effect.wizard_new (wizard_for env devtype),
             Effect.wizard_present (wizard_for env devtype)]) := by
  rcases h_n with ⟨rfl, rfl⟩ | ⟨rfl, rfl⟩ <;>
    simp [modem_get_all_cb, modem_devtype_from_properties, h_iface, h_device, h_type,
      modem_start_wizard, wizard_for]

/-- What `modem_get_all_cb` does for a property map whose "Device" is missing, is
not a string, or is not the base name of the tunnel interface. -/
theorem modem_get_all_cb_no_match (info : PluginInfo) (proxy : DBusGProxy)
    (properties : List (String × GValue)) (env : Env) (rfcomm_iface : String)
    (h_iface : info.rfcomm_iface = some rfcomm_iface)
    (h_unknown : info.devtype = NMDeviceType.NM_DEVICE_TYPE_UNKNOWN)
    (h_device : ∀ d, properties.lookup "Device" = some (GValue.string (some d)) →
      d ≠ g_path_get_basename rfcomm_iface) :
    modem_get_all_cb info proxy (Except.ok properties) env = some (info, []) := by
  have hdev : modem_devtype_from_properties info properties = some info.devtype := by
    unfold modem_devtype_from_properties
    split
    · rename_i modem_iface hl
      simp only [h_iface]
      have := h_device modem_iface hl
      simp [Ne.symm this]
    · rfl
  simp only [modem_get_all_cb, hdev, modem_start_wizard, h_unknown, ne_eq, not_true_eq_false,
    if_false]
  rw [← h_unknown]

/-- The sample session is a run of the widget: each of its states is reachable. -/
theorem sample_reachable :
    Reachable sample_idle ∧ Reachable sample_started ∧ Reachable sample_tunnel
      ∧ Reachable sample_watching ∧ Reachable sample_matched ∧ Reachable sample_timed_out := by
  have h0 : Reachable sample_idle :=
    Reachable.init "00:11:22:33:44:55" BtMethod.BT_METHOD_DUN none 1 (by decide)
  have h1 : Reachable sample_started :=
    Reachable.step sample_idle (Event.click sample_env) (button_clicked sample_idle sample_env)
      h0 rfl
  have h2 : Reachable sample_adapter :=
    Reachable.step sample_started (Event.default_adapter_reply (Except.ok "/org/bluez/hci0"))
      (default_adapter_cb sample_started (Except.ok "/org/bluez/hci0")) h1 rfl
  have h3 : Reachable sample_device :=
    Reachable.step sample_adapter
      (Event.find_device_reply (Except.ok "/org/bluez/hci0/dev_00_11_22_33_44_55"))
      (find_device_cb sample_adapter (Except.ok "/org/bluez/hci0/dev_00_11_22_33_44_55")) h2 rfl
  have h4 : Reachable sample_tunnel :=
    Reachable.step sample_device (Event.connect_reply (Except.ok (some "/dev/rfcomm0")))
      (dun_connect_cb sample_device (Except.ok (some "/dev/rfcomm0"))) h3 rfl
  have h5 : Reachable (modem_added sample_tunnel "/org/freedesktop/ModemManager/Modems/0").1 :=
    Reachable.step sample_tunnel (Event.device_added "/org/freedesktop/ModemManager/Modems/0")
      (modem_added sample_tunnel "/org/freedesktop/ModemManager/Modems/0") h4 rfl
  have h6 : Reachable sample_watching :=
    Reachable.step _ (Event.device_added "/org/freedesktop/ModemManager/Modems/1")
      (modem_added (modem_added sample_tunnel "/org/freedesktop/ModemManager/Modems/0").1
        "/org/freedesktop/ModemManager/Modems/1") h5 rfl
  have h7 : Reachable sample_matched :=
    Reachable.step sample_watching
      (Event.get_all_reply (sample_modem 0) (Except.ok sample_gsm_properties) sample_env)
      (sample_matched, [Effect.source_remove 7, Effect.wizard_new sample_wizard,
        Effect.wizard_present sample_wizard]) h6 (by decide)
  have h8 : Reachable sample_timed_out :=
    Reachable.step sample_watching Event.timeout (dun_timeout_cb sample_watching).1 h6 rfl
  exact ⟨h0, h1, h4, h6, h7, h8⟩

/-- C3: in every reachable state whose tunnel interface name is known and whose
wizard has not been started, a property reply whose "Device" is a string equal
to the base name (last path segment) of the interface name and whose "Type" is
the unsigned 1 (respectively 2) makes `modem_get_all_cb` record the family GSM
(respectively CDMA), remove the timeout and create and present one wizard for
exactly that family; a reply whose "Device" is missing, is not a string or
differs from that base name returns the state unchanged, with the family
still unknown, and makes no call. -/
theorem modem_get_all_cb_correlates (info : PluginInfo) (proxy : DBusGProxy)
    (properties : List (String × GValue)) (env : Env) (rfcomm_iface : String)
    (h_reach : Reachable info)
    (h_iface : info.rfcomm_iface = some rfcomm_iface)
    (h_wizard : info.wizard = none) :
    (properties.lookup "Device" =
          some (GValue.string (some (g_path_get_basename rfcomm_iface))) →
        (properties.lookup "Type" = some (GValue.uint 1) →
          modem_get_all_cb info proxy (Except.ok properties) env =
            some ({ info with
                    devtype := NMDeviceType.NM_DEVICE_TYPE_GSM
                    dun_timeout_id := 0
                    window_group := (wizard_for env NMDeviceType.NM_DEVICE_TYPE_GSM).window_group
                    wizard := some (wizard_for env NMDeviceType.NM_DEVICE_TYPE_GSM) },
                  [Effect.source_remove info.dun_timeout_id,
                   Effect.wizard_new (wizard_for env NMDeviceType.NM_DEVICE_TYPE_GSM),
                   Effect.wizard_present (wizard_for env NMDeviceType.NM_DEVICE_TYPE_GSM)]))
        ∧ (properties.lookup "Type" = some (GValue.uint 2) →
          modem_get_all_cb info proxy (Except.ok properties) env =
            some ({ info with
                    devtype := NMDeviceType.NM_DEVICE_TYPE_CDMA
                    dun_timeout_id := 0
                    window_group := (wizard_for env NMDeviceType.NM_DEVICE_TYPE_CDMA).window_group
                    wizard := some (wizard_for env NMDeviceType.NM_DEVICE_TYPE_CDMA) },
                  [Effect.source_remove info.dun_timeout_id,
                   Effect.wizard_new (wizard_for env NMDeviceType.NM_DEVICE_TYPE_CDMA),
                   Effect.wizard_present (wizard_for env NMDeviceType.NM_DEVICE_TYPE_CDMA)])))
      ∧ ((∀ d, properties.lookup "Device" = some (GValue.string (some d)) →
            d ≠ g_path_get_basename rfcomm_iface) →
          modem_get_all_cb info proxy (Except.ok properties) env = some (info, [])
            ∧ info.devtype = NMDeviceType.NM_DEVICE_TYPE_UNKNOWN) := by
  have h_unknown : info.devtype = NMDeviceType.NM_DEVICE_TYPE_UNKNOWN :=
    (reachable_invariant info h_reach).1.1 h_wizard
  refine ⟨fun h_device => ⟨fun h_type => ?_, fun h_type => ?_⟩, fun h_device => ⟨?_, h_unknown⟩⟩
  · exact modem_get_all_cb_match info proxy properties env rfcomm_iface 1 _ h_iface h_device
      h_type (Or.inl ⟨rfl, rfl⟩)
  · exact modem_get_all_cb_match info proxy properties env rfcomm_iface 2 _ h_iface h_device
      h_type (Or.inr ⟨rfl, rfl⟩)
  · exact modem_get_all_cb_no_match info proxy properties env rfcomm_iface h_iface h_unknown
      h_device

/-- A witness for `modem_get_all_cb_correlates`: in the sample session the reply of
the GSM modem on `rfcomm0` starts the wizard for GSM. -/
theorem modem_get_all_cb_correlates_witness :
    Reachable sample_watching ∧ sample_watching.rfcomm_iface = some "/dev/rfcomm0"
      ∧ sample_watching.wizard = none
      ∧ modem_get_all_cb sample_watching (sample_modem 0) (Except.ok sample_gsm_properties)
          sample_env =
        some (sample_matched, [Effect.source_remove 7, Effect.wizard_new sample_wizard,
          Effect.wizard_present sample_wizard]) :=
  ⟨sample_reachable.2.2.2.1, rfl, rfl,
   ((modem_get_all_cb_correlates sample_watching (sample_modem 0) sample_gsm_properties
      sample_env "/dev/rfcomm0" sample_reachable.2.2.2.1 rfl rfl).1 (by decide)).1 (by decide)⟩

/-- C1 (counterexample): in the sample session a negotiation is in progress (bus and
proxies held, timeout 7 armed, toggle active, method DUN), yet `button_toggled`
calls `dun_start` again: it issues a second `DefaultAdapter` request, arms a
second timeout and overwrites the stored timeout id. -/
theorem enable_while_negotiating_counterexample :
    sample_watching.bus = some { id := 1 }
      ∧ sample_watching.bluez_proxy.isSome = true
      ∧ sample_watching.mm_proxy.isSome = true
      ∧ sample_watching.dun_timeout_id = 7
      ∧ sample_watching.button_active = true
      ∧ sample_watching.method = BtMethod.BT_METHOD_DUN
      ∧ (button_toggled sample_watching { sample_env with timeout_id := 8 }).2 =
          [Effect.connect_signal
              (dbus_g_proxy_new_for_name (some { id := 1 }) MM_SERVICE MM_PATH MM_INTERFACE)
              "DeviceAdded" "modem_added",
           Effect.connect_signal
              (dbus_g_proxy_new_for_name (some { id := 1 }) MM_SERVICE MM_PATH MM_INTERFACE)
              "DeviceRemoved" "modem_removed",
           Effect.begin_call
              (dbus_g_proxy_new_for_name (some { id := 1 }) BLUEZ_SERVICE BLUEZ_MANAGER_PATH
                BLUEZ_MANAGER_INTERFACE)
              "DefaultAdapter" "default_adapter_cb" none [],
           Effect.timeout_add_seconds 30 "dun_timeout_cb" 8]
      ∧ (button_toggled sample_watching { sample_env with timeout_id := 8 }).1.dun_timeout_id = 8
      ∧ button_toggled sample_watching { sample_env with timeout_id := 8 } ≠
          (sample_watching, []) := by
  decide

/-- C1 (amended): in every reachable state in which a negotiation is in progress
(the bus is held) the toggle is insensitive, so an enable request made on the
toggle does not reach `button_toggled`: the click makes no call (no request, no
second timeout) and leaves every field of the state unchanged. -/
theorem enable_while_negotiating_gated (info : PluginInfo) (env : Env)
    (h_reach : Reachable info) (h_bus : info.bus.isSome = true) :
    info.button_sensitive = false ∧ button_clicked info env = (info, []) := by
  have h := (reachable_invariant info h_reach).2 h_bus
  exact ⟨h, by simp [button_clicked, h]⟩

/-- A witness for `enable_while_negotiating_gated`: the sample session with the
tunnel open and two modem replies outstanding. -/
theorem enable_while_negotiating_gated_witness :
    Reachable sample_watching ∧ sample_watching.bus.isSome = true
      ∧ sample_watching.button_sensitive = false
      ∧ button_clicked sample_watching { sample_env with timeout_id := 8 } =
          (sample_watching, []) :=
  ⟨sample_reachable.2.2.2.1, rfl,
   enable_while_negotiating_gated sample_watching { sample_env with timeout_id := 8 }
     sample_reachable.2.2.2.1 rfl⟩

/-- What `dun_timeout_cb` does in every state: it returns `FALSE`, arms no timer,
removes none (the id is zeroed first), runs the teardown with the timed-out
message and the toggle reset to off, and does not touch `mm_proxy`. -/
theorem dun_timeout_cb_teardown (info : PluginInfo) :
    (dun_timeout_cb info).2 = false
      ∧ (dun_timeout_cb info).1 =
          dun_cleanup { info with dun_timeout_id := 0 }
            "Error: timed out detecting phone details." true
      ∧ (∀ n cb id, Effect.timeout_add_seconds n cb id ∉ (dun_timeout_cb info).1.2)
      ∧ (∀ id, Effect.source_remove id ∉ (dun_timeout_cb info).1.2)
      ∧ (dun_timeout_cb info).1.2.filter Effect.is_dbus_call =
          (match info.dun_proxy, info.rfcomm_iface with
            | some dun, some iface => [Effect.call_no_reply dun "Disconnect" [iface]]
            | _, _ => [])
      ∧ (dun_timeout_cb info).1.1.dun_timeout_id = 0
      ∧ (dun_timeout_cb info).1.1.dun_proxy = none
      ∧ (dun_timeout_cb info).1.1.adapter_proxy = none
      ∧ (dun_timeout_cb info).1.1.bluez_proxy = none
      ∧ (dun_timeout_cb info).1.1.bus = none
      ∧ (dun_timeout_cb info).1.1.modem_proxies = []
      ∧ (dun_timeout_cb info).1.1.label = "Error: timed out detecting phone details."
      ∧ (dun_timeout_cb info).1.1.button_active = false
      ∧ (dun_timeout_cb info).1.1.mm_proxy = info.mm_proxy := by
  have h : (dun_timeout_cb info).1 =
      dun_cleanup { info with dun_timeout_id := 0 }
        "Error: timed out detecting phone details." true := by
    simp [dun_timeout_cb, dun_error, dun_error_message]
  refine ⟨rfl, h, ?_, ?_, ?_, ?_⟩
  · rw [h]; exact (dun_cleanup_starts_nothing _ _ _).2.1
  · intro id hmem
    rw [h] at hmem
    simp only [dun_cleanup, List.mem_append, List.mem_map] at hmem
    rcases hmem with (((((((⟨p, -, hp⟩ | hm) | hm) | hm) | hm) | hm) | hm) | hm)
    · exact Effect.noConfusion hp
    · cases hd : info.dun_proxy <;> cases hi : info.rfcomm_iface <;> simp [hd, hi] at hm
    · cases hd : info.adapter_proxy <;> simp [hd] at hm
    · cases hd : info.bluez_proxy <;> simp [hd] at hm
    · cases hd : info.bus <;> simp [hd] at hm
    · simp at hm
    · cases hd : info.window_group <;> simp [hd] at hm
    · cases hd : info.wizard <;> simp [hd] at hm
  · rw [h]; exact dun_cleanup_dbus_calls _ _ _
  · rw [h]; simp [dun_cleanup_state]

/-- C4 (the code at the failing input): when the timeout fires in the sample session
with the tunnel open, the callback returns `FALSE`, sends `Disconnect` for
`/dev/rfcomm0`, releases the two modem proxies, the serial, adapter and BlueZ
manager proxies and the bus, shows the timed-out error and unchecks the toggle,
but the ModemManager proxy `mm_proxy`, on which `modem_added` and
`modem_removed` are connected, is still held afterwards. -/
theorem dun_timeout_cb_keeps_mm_proxy :
    (dun_timeout_cb sample_watching).2 = false
      ∧ Effect.call_no_reply
          (dbus_g_proxy_new_for_name (some { id := 1 }) BLUEZ_SERVICE
            "/org/bluez/hci0/dev_00_11_22_33_44_55" BLUEZ_SERIAL_INTERFACE)
          "Disconnect" ["/dev/rfcomm0"] ∈ (dun_timeout_cb sample_watching).1.2
      ∧ sample_timed_out.dun_timeout_id = 0
      ∧ sample_timed_out.dun_proxy = none
      ∧ sample_timed_out.adapter_proxy = none
      ∧ sample_timed_out.bluez_proxy = none
      ∧ sample_timed_out.bus = none
      ∧ sample_timed_out.modem_proxies = []
      ∧ sample_timed_out.label = "Error: timed out detecting phone details."
      ∧ sample_timed_out.button_active = false
      ∧ sample_timed_out.mm_proxy =
          some (dbus_g_proxy_new_for_name (some { id := 1 }) MM_SERVICE MM_PATH MM_INTERFACE) := by
  decide

/-- C9 (the code at the failing input): after the sample session has been torn down
by the timeout, `mm_proxy` is still held, and a `DeviceAdded` event runs
`modem_added` as before: it adds a modem candidate to the empty list and calls
`GetAll` on it. -/
theorem modem_added_after_teardown :
    sample_timed_out = (dun_cleanup { sample_watching with dun_timeout_id := 0 }
        "Error: timed out detecting phone details." true).1
      ∧ sample_timed_out.mm_proxy.isSome = true
      ∧ sample_timed_out.modem_proxies = []
      ∧ (modem_added sample_timed_out "/org/freedesktop/ModemManager/Modems/2").1.modem_proxies =
          [dbus_g_proxy_new_for_name none MM_SERVICE "/org/freedesktop/ModemManager/Modems/2"
            "org.freedesktop.DBus.Properties"]
      ∧ (modem_added sample_timed_out "/org/freedesktop/ModemManager/Modems/2").2 =
          [Effect.begin_call
            (dbus_g_proxy_new_for_name none MM_SERVICE "/org/freedesktop/ModemManager/Modems/2"
              "org.freedesktop.DBus.Properties")
            "GetAll" "modem_get_all_cb" none [MM_MODEM_INTERFACE]]
      ∧ (modem_added sample_timed_out "/org/freedesktop/ModemManager/Modems/2").1 ≠
          sample_timed_out := by
  decide

/-- C10 (the code at the failing input): in the sample session the reply of modem 0
has matched and the GSM wizard is shown; the reply of modem 1, which sits on
`ttyUSB0` and is not the modem of the tunnel, then makes `modem_get_all_cb` call
`g_source_remove (0)` and create and present a second wizard. -/
theorem modem_get_all_cb_second_wizard :
    modem_get_all_cb sample_watching (sample_modem 0) (Except.ok sample_gsm_properties)
        sample_env =
      some (sample_matched, [Effect.source_remove 7, Effect.wizard_new sample_wizard,
        Effect.wizard_present sample_wizard])
      ∧ sample_modem 1 ∈ sample_matched.modem_proxies
      ∧ sample_other_properties.lookup "Device" = some (GValue.string (some "ttyUSB0"))
      ∧ g_path_get_basename "/dev/rfcomm0" ≠ "ttyUSB0"
      ∧ modem_get_all_cb sample_matched (sample_modem 1) (Except.ok sample_other_properties)
          sample_env =
        some (sample_matched, [Effect.source_remove 0, Effect.wizard_new sample_wizard,
          Effect.wizard_present sample_wizard]) := by
  decide

/-- C12 (counterexample): in the sample session the reply of a modem that sits on the
tunnel (`rfcomm0`) but reports type 3 changes nothing: no teardown, the timeout
7 stays armed, the toggle stays on and insensitive, the label is not an
"unknown modem type" error. -/
theorem modem_unknown_type_counterexample :
    sample_watching.rfcomm_iface = some "/dev/rfcomm0"
      ∧ g_path_get_basename "/dev/rfcomm0" = "rfcomm0"
      ∧ modem_get_all_cb sample_watching (sample_modem 0)
          (Except.ok [("Device", GValue.string (some "rfcomm0")), ("Type", GValue.uint 3)])
          sample_env = some (sample_watching, [])
      ∧ sample_watching.dun_timeout_id = 7
      ∧ sample_watching.button_active = true
      ∧ sample_watching.bus.isSome = true
      ∧ sample_watching.label = "Detecting phone configuration..." := by
  decide

/-- C12 (amended): when the family is still unknown and a property reply matches the
tunnel interface but its "Type" is not the unsigned 1 or 2 (another number,
missing, or not an unsigned integer), `modem_get_all_cb` returns the state
unchanged and makes no call: no teardown runs, the timeout stays armed and the
toggle is left alone. -/
theorem modem_unknown_type_ignored (info : PluginInfo) (proxy : DBusGProxy)
    (properties : List (String × GValue)) (env : Env) (rfcomm_iface : String)
    (h_iface : info.rfcomm_iface = some rfcomm_iface)
    (h_unknown : info.devtype = NMDeviceType.NM_DEVICE_TYPE_UNKNOWN)
    (h_device : properties.lookup "Device" =
      some (GValue.string (some (g_path_get_basename rfcomm_iface))))
    (h_type1 : properties.lookup "Type" ≠ some (GValue.uint 1))
    (h_type2 : properties.lookup "Type" ≠ some (GValue.uint 2)) :
    modem_get_all_cb info proxy (Except.ok properties) env = some (info, []) := by
  have hdev : modem_devtype_from_properties info properties = some info.devtype := by
    unfold modem_devtype_from_properties
    simp only [h_device, h_iface, if_true]
  simp only [modem_get_all_cb, hdev, modem_start_wizard, h_unknown, ne_eq, not_true_eq_false,
    if_false]
  rw [← h_unknown]

/-- C12 (witness): the sample session and a reply with type 3. -/
theorem modem_unknown_type_ignored_witness :
    modem_get_all_cb sample_watching (sample_modem 0)
        (Except.ok [("Device", GValue.string (some "rfcomm0")), ("Type", GValue.uint 3)])
        sample_env = some (sample_watching, []) :=
  modem_unknown_type_ignored sample_watching (sample_modem 0)
    [("Device", GValue.string (some "rfcomm0")), ("Type", GValue.uint 3)] sample_env
    "/dev/rfcomm0" rfl rfl (by decide) (by decide) (by decide)

/-- The teardown makes no store request and no D-Bus call but the `Disconnect`. -/
theorem dun_cleanup_no_store_request (info : PluginInfo) (message : String) (uncheck : Bool) :
    (dun_cleanup info message uncheck).2.filter Effect.is_store_request = []
      ∧ (dun_cleanup info message uncheck).2.filter Effect.is_timeout_add = [] := by
  constructor <;>
  · rw [List.filter_eq_nil_iff]
    intro e he
    have := dun_cleanup_effects_release info message uncheck e he
    cases e <;> simp_all [Effect.is_release, Effect.is_store_request, Effect.is_timeout_add]

/-- C14: from a state with no session, `dun_start` with the system bus obtained
makes exactly one D-Bus call, `DefaultAdapter` on the BlueZ manager, arms
exactly one timeout, of 30 seconds, whose id it stores, and makes the toggle
insensitive; when the bus cannot be obtained it makes no D-Bus call, arms no
timeout, unchecks the toggle and shows an "Error: ..." text. -/
theorem dun_start_from_idle (info : PluginInfo) (env : Env) (h_idle : session_clear info) :
    (∀ bus, env.bus_get_bus = some bus → env.bus_get_error = none →
        (dun_start info env).2.filter Effect.is_dbus_call =
            [Effect.begin_call
              (dbus_g_proxy_new_for_name (some bus) BLUEZ_SERVICE BLUEZ_MANAGER_PATH
                BLUEZ_MANAGER_INTERFACE)
              "DefaultAdapter" "default_adapter_cb" none []]
          ∧ (dun_start info env).2.filter Effect.is_timeout_add =
            [Effect.timeout_add_seconds 30 "dun_timeout_cb" env.timeout_id]
          ∧ (dun_start info env).1.dun_timeout_id = env.timeout_id
          ∧ (dun_start info env).1.button_sensitive = false
          ∧ (dun_start info env).1.bus = some bus)
      ∧ (env.bus_get_bus = none ∨ env.bus_get_error.isSome = true →
        (dun_start info env).2.filter Effect.is_dbus_call = []
          ∧ (dun_start info env).2.filter Effect.is_timeout_add = []
          ∧ (dun_start info env).1.dun_timeout_id = 0
          ∧ (dun_start info env).1.bus = none
          ∧ (dun_start info env).1.button_active = false
          ∧ (dun_start info env).1.label =
              dun_error_message env.bus_get_error "could not connect to the system bus."
          ∧ ∃ cause, (dun_start info env).1.label = "Error: " ++ cause) := by
  obtain ⟨-, -, -, -, h_dun, -, -, -⟩ := h_idle
  constructor
  · intro bus h_bus h_err
    simp [dun_start, h_bus, h_err, Effect.is_dbus_call, Effect.is_timeout_add]
  · intro h_fail
    have hcond : env.bus_get_error.isSome = true ∨ env.bus_get_bus.isNone = true := by
      rcases h_fail with h | h
      · right; simp [h]
      · left; exact h
    have hstart : dun_start info env =
        dun_cleanup { info with bus := env.bus_get_bus }
          (dun_error_message env.bus_get_error "could not connect to the system bus.") true := by
      simp only [dun_start, hcond, if_true, dun_error]
    rw [hstart]
    refine ⟨?_, (dun_cleanup_no_store_request _ _ _).2, ?_⟩
    · rw [dun_cleanup_dbus_calls]
      simp [h_dun]
    · simp only [dun_cleanup_state, if_true, true_and]
      exact ⟨_, rfl⟩

/-- C14 (witness): the new widget of the sample session and the sample answers. -/
theorem dun_start_from_idle_witness :
    session_clear sample_idle
      ∧ (dun_start sample_idle sample_env).2.filter Effect.is_dbus_call =
          [Effect.begin_call
            (dbus_g_proxy_new_for_name (some { id := 1 }) BLUEZ_SERVICE BLUEZ_MANAGER_PATH
              BLUEZ_MANAGER_INTERFACE)
            "DefaultAdapter" "default_adapter_cb" none []]
      ∧ (dun_start sample_idle sample_env).2.filter Effect.is_timeout_add =
          [Effect.timeout_add_seconds 30 "dun_timeout_cb" 7] :=
  have h : session_clear sample_idle := ⟨rfl, rfl, rfl, rfl, rfl, rfl, rfl, rfl⟩
  ⟨h, ((dun_start_from_idle sample_idle sample_env h).1 { id := 1 } rfl rfl).1,
    ((dun_start_from_idle sample_idle sample_env h).1 { id := 1 } rfl rfl).2.1⟩

/-- The calls of `add_pan_connection` are store requests only. -/
theorem add_pan_connection_effects (env : Env) (bdaddr : String) :
    (add_pan_connection env bdaddr).2.filter Effect.is_dbus_call = []
      ∧ (add_pan_connection env bdaddr).2.filter Effect.is_timeout_add = [] := by
  unfold add_pan_connection
  cases get_array_from_bdaddr bdaddr <;>
    simp [Effect.is_dbus_call, Effect.is_timeout_add]

/-- C15: for every state whose method is PAN, `button_toggled` with the toggle active
calls `add_pan_connection` on the stored address and stores its result in
`connection`; it makes no D-Bus call and arms no timeout, and leaves the bus,
all proxies, the modem candidates, the interface name, the timeout id, the
technology family and the wizard as they were. -/
theorem button_toggled_pan (info : PluginInfo) (env : Env)
    (h_active : info.button_active = true) (h_pan : info.method = BtMethod.BT_METHOD_PAN) :
    button_toggled info env =
        ({ info with connection := (add_pan_connection env info.bdaddr).1 },
         (add_pan_connection env info.bdaddr).2)
      ∧ (button_toggled info env).2.filter Effect.is_dbus_call = []
      ∧ (button_toggled info env).2.filter Effect.is_timeout_add = []
      ∧ (button_toggled info env).1.bus = info.bus
      ∧ (button_toggled info env).1.bluez_proxy = info.bluez_proxy
      ∧ (button_toggled info env).1.adapter_proxy = info.adapter_proxy
      ∧ (button_toggled info env).1.dun_proxy = info.dun_proxy
      ∧ (button_toggled info env).1.mm_proxy = info.mm_proxy
      ∧ (button_toggled info env).1.modem_proxies = info.modem_proxies
      ∧ (button_toggled info env).1.rfcomm_iface = info.rfcomm_iface
      ∧ (button_toggled info env).1.dun_timeout_id = info.dun_timeout_id
      ∧ (button_toggled info env).1.devtype = info.devtype
      ∧ (button_toggled info env).1.wizard = info.wizard := by
  have h : button_toggled info env =
      ({ info with connection := (add_pan_connection env info.bdaddr).1 },
       (add_pan_connection env info.bdaddr).2) := by
    simp [button_toggled, h_active, h_pan]
  refine ⟨h, ?_, ?_, ?_⟩
  · rw [h]; exact (add_pan_connection_effects env info.bdaddr).1
  · rw [h]; exact (add_pan_connection_effects env info.bdaddr).2
  · simp [h]

/-- C15 (witness): a PAN peer without a stored connection is enabled; the record
built for it is held afterwards. -/
theorem button_toggled_pan_witness :
    (button_toggled
        { plugin_info_new "00:11:22:33:44:55" BtMethod.BT_METHOD_PAN none 1 with
          button_active := true } sample_env).1.connection =
      some { settings :=
              [NMSetting.connection "00:11:22:33:44:55 PANU"
                 "2815492f-7e56-435e-b2e9-246bd7cdc664" "bluetooth" false,
               NMSetting.bluetooth (some [0, 17, 34, 51, 68, 85]) (some "panu"),
               NMSetting.ip4_config "auto"] } := by
  have h := (button_toggled_pan
    { plugin_info_new "00:11:22:33:44:55" BtMethod.BT_METHOD_PAN none 1 with
      button_active := true } sample_env rfl rfl).1
  rw [h]
  decide

/-- C17: when the wizard completes cancelled, or without a result, `wizard_done_cb`
only runs the teardown with the "Mobile wizard was canceled" error and the
toggle reset to off: it makes no store request, leaves the held connection as
it was and clears the session. -/
theorem wizard_done_cb_cancelled (info : PluginInfo) (canceled : Bool)
    (method : Option MobileWizardAccessMethod) (env : Env)
    (h : canceled = true ∨ method = none) :
    wizard_done_cb info canceled method env =
        some (dun_cleanup info "Error: Mobile wizard was canceled" true)
      ∧ (dun_cleanup info "Error: Mobile wizard was canceled" true).2.filter
          Effect.is_store_request = []
      ∧ (dun_cleanup info "Error: Mobile wizard was canceled" true).1.connection =
          info.connection
      ∧ (dun_cleanup info "Error: Mobile wizard was canceled" true).1.button_active = false
      ∧ session_clear (dun_cleanup info "Error: Mobile wizard was canceled" true).1
      ∧ (dun_cleanup info "Error: Mobile wizard was canceled" true).1.modem_proxies = [] := by
  refine ⟨?_, (dun_cleanup_no_store_request _ _ _).1, ?_⟩
  · rcases h with h | h
    · subst h; cases method <;> simp [wizard_done_cb, dun_error, dun_error_message]
    · subst h; cases canceled <;> simp [wizard_done_cb, dun_error, dun_error_message]
  · simp [dun_cleanup_state, session_clear]

/-- C17 (witness): the wizard of the sample session is cancelled. -/
theorem wizard_done_cb_cancelled_witness :
    wizard_done_cb sample_matched true none sample_env =
      some (dun_cleanup sample_matched "Error: Mobile wizard was canceled" true) :=
  (wizard_done_cb_cancelled sample_matched true none sample_env (Or.inl rfl)).1

/-- What `button_toggled` does with the toggle inactive, in every state: it calls the
store's delete on `info->connection`, whether or not a record is held, and then
holds no record; `delete_cb`, with or without an error, changes nothing in the
controller state and makes no call. -/
theorem button_toggled_inactive (info : PluginInfo) (env : Env)
    (h_inactive : info.button_active = false) :
    button_toggled info env =
        ({ info with connection := none }, [Effect.settings_connection_delete info.connection])
      ∧ (button_toggled info env).1.connection = none
      ∧ ∀ (state : PluginInfo) (connection : Option NMConnection) (error : Option GError),
          delete_cb state connection error = (state, []) := by
  have h : button_toggled info env =
      ({ info with connection := none }, [Effect.settings_connection_delete info.connection]) := by
    simp [button_toggled, h_inactive]
  exact ⟨h, by rw [h], fun _ _ _ => rfl⟩

/-- C18 (the code at the failing input): a PAN peer is enabled while the store
refuses the new record, so the toggle is on and no record is held; when the
user then unticks the toggle, `button_toggled` still calls the store's delete,
on `NULL`, where `device_removed` tests `if (connection)` before the same call. -/
theorem button_toggled_deletes_null :
    (button_clicked (plugin_info_new "00:11:22:33:44:55" BtMethod.BT_METHOD_PAN none 1)
        { sample_env with add_connection_ok := false }).1.connection = none
      ∧ (button_clicked (plugin_info_new "00:11:22:33:44:55" BtMethod.BT_METHOD_PAN none 1)
        { sample_env with add_connection_ok := false }).1.button_active = true
      ∧ (button_clicked
          (button_clicked (plugin_info_new "00:11:22:33:44:55" BtMethod.BT_METHOD_PAN none 1)
            { sample_env with add_connection_ok := false }).1 sample_env).2 =
          [Effect.settings_connection_delete none]
      ∧ (button_clicked
          (button_clicked (plugin_info_new "00:11:22:33:44:55" BtMethod.BT_METHOD_PAN none 1)
            { sample_env with add_connection_ok := false }).1 sample_env).2.filter
            Effect.is_store_request ≠ [] := by
  decide

/-- The loop of `ether_aton_r` reads exactly the octets it was asked for. -/
theorem ether_aton_loop_length (remaining : Nat) :
    ∀ (asc : List Char) (acc octets : List Nat),
      ether_aton_loop remaining asc acc = some octets →
      octets.length = acc.length + remaining := by
  induction remaining with
  | zero =>
    intro asc acc octets h
    simp only [ether_aton_loop, Option.some.injEq] at h
    subst h
    simp
  | succ n ih =>
    intro asc acc octets h
    unfold ether_aton_loop at h
    split at h
    · exact absurd h (by simp)
    · split at h
      · exact absurd h (by simp)
      · split at h
        · split at h
          · simp only [Option.some.injEq] at h
            subst h
            rename_i hn
            simp [hn]
          · exact absurd h (by simp)
        · split at h
          · split at h
            · exact absurd h (by simp)
            · split at h
              · simp only [Option.some.injEq] at h
                subst h
                rename_i hn
                simp [hn]
              · split at h
                · have := ih _ _ _ h
                  simp only [List.length_cons] at this
                  omega
                · exact absurd h (by simp)
          · have := ih _ _ _ h
            simp only [List.length_cons] at this
            omega

/-- An address `get_array_from_bdaddr` returns has six bytes. -/
theorem get_array_from_bdaddr_length (str : String) (mac : List Nat)
    (h : get_array_from_bdaddr str = some mac) : mac.length = 6 := by
  unfold get_array_from_bdaddr ether_aton at h
  split at h
  · rename_i addr heq
    simp only [Option.some.injEq] at h
    subst h
    have := ether_aton_loop_length 6 _ _ _ heq
    simpa using this
  · exact absurd h (by simp)

/-- What the storing part of `wizard_done_cb` does when the address parses. -/
theorem wizard_done_store_ok (info : PluginInfo) (connection : NMConnection) (env : Env)
    (mac : List Nat) (h_mac : get_array_from_bdaddr info.bdaddr = some mac) :
    ∃ next, wizard_done_store info connection env = some next
      ∧ next.2.filter Effect.is_store_request =
          [Effect.settings_add_connection
            { settings := connection.settings
                ++ [NMSetting.bluetooth (some mac) (some NM_SETTING_BLUETOOTH_TYPE_DUN)] }]
      ∧ next.1.connection =
          (if env.add_connection_ok then
            some { settings := connection.settings
                    ++ [NMSetting.bluetooth (some mac) (some NM_SETTING_BLUETOOTH_TYPE_DUN)] }
           else info.connection)
      ∧ next.1.label = "Your phone is now ready to use!"
      ∧ next.1.button_active = info.button_active
      ∧ session_clear next.1 := by
  refine ⟨_, by simp only [wizard_done_store, h_mac]; rfl, ?_, ?_⟩
  · simp only [List.filter_append, (dun_cleanup_no_store_request _ _ _).1]
    cases info.wizard <;> simp [Effect.is_store_request]
  · cases env.add_connection_ok <;> simp [dun_cleanup_state, session_clear]

/-- C16: when the stored address parses (to six bytes) and the wizard completes, not
cancelled, with a GSM or CDMA result, `wizard_done_cb` makes exactly one store
request, the add of one record: the settings of `dun_new_gsm` (GSM setting with
number "*99#" and the result's user name, password and APN) or of
`dun_new_cdma` (CDMA setting with number "#777"), the serial and PPP settings,
a connection setting with autoconnect off and the id "<provider> <plan>" or,
without a plan name, "<provider> connection", and a Bluetooth setting with the
parsed address and type "dun"; the record is held when the store exported it.
A result of any other device type makes no store request, leaves the held
connection alone and runs the teardown with the toggle reset to off. -/
theorem wizard_done_cb_persists (info : PluginInfo) (method : MobileWizardAccessMethod)
    (env : Env) (mac : List Nat) (h_mac : get_array_from_bdaddr info.bdaddr = some mac) :
    mac.length = 6
      ∧ (method.devtype = NMDeviceType.NM_DEVICE_TYPE_GSM →
          ∃ next, wizard_done_cb info false (some method) env = some next
            ∧ next.2.filter Effect.is_store_request =
              [Effect.settings_add_connection
                { settings :=
                    [NMSetting.gsm "*99#" method.username method.password method.gsm_apn,
                     NMSetting.serial 115200 8 'n' 1,
                     NMSetting.ppp,
                     NMSetting.connection (dun_connection_id method) env.uuid "gsm" false,
                     NMSetting.bluetooth (some mac) (some "dun")] }]
            ∧ (env.add_connection_ok = true →
                next.1.connection =
                  some { settings :=
                    [NMSetting.gsm "*99#" method.username method.password method.gsm_apn,
                     NMSetting.serial 115200 8 'n' 1,
                     NMSetting.ppp,
                     NMSetting.connection (dun_connection_id method) env.uuid "gsm" false,
                     NMSetting.bluetooth (some mac) (some "dun")] })
            ∧ session_clear next.1)
      ∧ (method.devtype = NMDeviceType.NM_DEVICE_TYPE_CDMA →
          ∃ next, wizard_done_cb info false (some method) env = some next
            ∧ next.2.filter Effect.is_store_request =
              [Effect.settings_add_connection
                { settings :=
                    [NMSetting.cdma "#777" method.username method.password,
                     NMSetting.serial 115200 8 'n' 1,
                     NMSetting.ppp,
                     NMSetting.connection (dun_connection_id method) env.uuid "cdma" false,
                     NMSetting.bluetooth (some mac) (some "dun")] }]
            ∧ (env.add_connection_ok = true →
                next.1.connection =
                  some { settings :=
                    [NMSetting.cdma "#777" method.username method.password,
                     NMSetting.serial 115200 8 'n' 1,
                     NMSetting.ppp,
                     NMSetting.connection (dun_connection_id method) env.uuid "cdma" false,
                     NMSetting.bluetooth (some mac) (some "dun")] })
            ∧ session_clear next.1)
      ∧ (∀ provider plan : String,
          method.provider_name = some provider → method.plan_name = some plan →
          dun_connection_id method = provider ++ " " ++ plan)
      ∧ (∀ provider : String,
          method.provider_name = some provider → method.plan_name = none →
          dun_connection_id method = provider ++ " connection")
      ∧ (method.devtype ≠ NMDeviceType.NM_DEVICE_TYPE_GSM →
          method.devtype ≠ NMDeviceType.NM_DEVICE_TYPE_CDMA →
          wizard_done_cb info false (some method) env =
              some (dun_cleanup info "Error: Unknown phone device type (not GSM or CDMA)" true)
            ∧ (dun_cleanup info "Error: Unknown phone device type (not GSM or CDMA)"
                true).2.filter Effect.is_store_request = []
            ∧ (dun_cleanup info "Error: Unknown phone device type (not GSM or CDMA)"
                true).1.connection = info.connection
            ∧ (dun_cleanup info "Error: Unknown phone device type (not GSM or CDMA)"
                true).1.button_active = false
            ∧ session_clear
                (dun_cleanup info "Error: Unknown phone device type (not GSM or CDMA)" true).1) := by
  refine ⟨get_array_from_bdaddr_length _ _ h_mac, ?_, ?_, ?_, ?_, ?_⟩
  · intro h_gsm
    obtain ⟨next, h1, h2, h3, -, -, h6⟩ :=
      wizard_done_store_ok info (dun_new_gsm env method) env mac h_mac
    refine ⟨next, ?_, ?_, ?_, h6⟩
    · simp [wizard_done_cb, h_gsm, h1]
    · simpa [dun_new_gsm, NM_SETTING_GSM_SETTING_NAME, NM_SETTING_BLUETOOTH_TYPE_DUN] using h2
    · intro h_ok
      simpa [dun_new_gsm, NM_SETTING_GSM_SETTING_NAME, NM_SETTING_BLUETOOTH_TYPE_DUN, h_ok]
        using h3
  · intro h_cdma
    obtain ⟨next, h1, h2, h3, -, -, h6⟩ :=
      wizard_done_store_ok info (dun_new_cdma env method) env mac h_mac
    refine ⟨next, ?_, ?_, ?_, h6⟩
    · simp [wizard_done_cb, h_cdma, h1]
    · simpa [dun_new_cdma, NM_SETTING_CDMA_SETTING_NAME, NM_SETTING_BLUETOOTH_TYPE_DUN] using h2
    · intro h_ok
      simpa [dun_new_cdma, NM_SETTING_CDMA_SETTING_NAME, NM_SETTING_BLUETOOTH_TYPE_DUN, h_ok]
        using h3
  · intro provider plan hp hq
    simp [dun_connection_id, hp, hq, printf_s]
  · intro provider hp hq
    simp [dun_connection_id, hp, hq, printf_s]
  · intro h1 h2
    refine ⟨?_, (dun_cleanup_no_store_request _ _ _).1, ?_⟩
    · simp [wizard_done_cb, h1, h2, dun_error, dun_error_message]
    · simp [dun_cleanup_state, session_clear]

/-- C16 (witness): the wizard of the sample session completes with a GSM plan; one
record is added, with the id "Acme Mobile Internet" and the address
00:11:22:33:44:55. -/
theorem wizard_done_cb_persists_witness :
    get_array_from_bdaddr sample_matched.bdaddr = some [0, 17, 34, 51, 68, 85]
      ∧ ∃ next, wizard_done_cb sample_matched false (some sample_access_method) sample_env =
          some next
        ∧ next.2.filter Effect.is_store_request =
          [Effect.settings_add_connection
            { settings :=
                [NMSetting.gsm "*99#" none none (some "internet.acme"),
                 NMSetting.serial 115200 8 'n' 1,
                 NMSetting.ppp,
                 NMSetting.connection "Acme Mobile Internet"
                   "2815492f-7e56-435e-b2e9-246bd7cdc664" "gsm" false,
                 NMSetting.bluetooth (some [0, 17, 34, 51, 68, 85]) (some "dun")] }] := by
  refine ⟨by decide, ?_⟩
  obtain ⟨next, h1, h2, -, -⟩ :=
    (wizard_done_cb_persists sample_matched sample_access_method sample_env
      [0, 17, 34, 51, 68, 85] (by decide)).2.1 rfl
  exact ⟨next, h1, h2⟩

/-- When the stored address is not longer than the parsed one, the test of a
candidate is defined. -/
theorem candidate_found_defined (array : List Nat) (method : BtMethod)
    (candidate : NMConnection)
    (h : ∀ addr type, nm_connection_get_setting_bluetooth candidate = some (some addr, type) →
      addr.length ≤ array.length) :
    candidate_found array method candidate = some (is_found array method candidate) := by
  unfold is_found candidate_found
  cases hs : nm_connection_get_setting_bluetooth candidate with
  | none => simp
  | some setting =>
    obtain ⟨addr, type⟩ := setting
    cases addr with
    | none => simp only; split <;> (try split) <;> simp
    | some bytes =>
      have hlen := h bytes type hs
      simp only [memcmp_differs, le_refl, hlen, and_self, if_true, List.take_length]
      generalize (bytes != List.take bytes.length array) = differs
      split <;> (try split) <;> cases differs <;> simp

/-- The lookup loop returns the first record at which it stops. -/
theorem get_connection_loop_find (array : List Nat) (method : BtMethod)
    (store : List NMConnection) (h : addresses_within array.length store) :
    get_connection_loop array method store = some (store.find? (is_found array method)) := by
  induction store with
  | nil => rfl
  | cons c cs ih =>
    have hc := candidate_found_defined array method c (fun addr type hs =>
      h c (List.mem_cons_self _ _) addr type hs)
    have hcs : addresses_within array.length cs := fun d hd => h d (List.mem_cons_of_mem _ hd)
    simp only [get_connection_loop, hc, List.find?_cons]
    cases is_found array method c <;> simp [ih hcs]

/-- Deleting the first record that satisfies `p` removes the head of the records
that satisfy `p` and none of the others. -/
theorem erase_first_found (p : NMConnection → Bool) (store : List NMConnection)
    (c : NMConnection) (h : store.find? p = some c) :
    store.filter p = c :: (store.erase c).filter p
      ∧ (store.erase c).filter (fun d => !p d) = store.filter (fun d => !p d)
      ∧ ∀ d ∈ store.erase c, d ∈ store := by
  refine ⟨?_, ?_, fun d hd => List.mem_of_mem_erase hd⟩
  · induction store with
    | nil => simp at h
    | cons a as ih =>
      by_cases hpa : p a = true
      · simp only [List.find?_cons, hpa, Option.some.injEq] at h
        subst h
        simp [hpa]
      · simp only [Bool.not_eq_true] at hpa
        simp only [List.find?_cons, hpa] at h
        have hne : a ≠ c := by
          intro hac
          have := List.find?_some h
          rw [← hac, hpa] at this
          exact absurd this (by simp)
        have hne' : (a == c) = false := by simpa using hne
        simp [List.erase_cons, hne', hpa, ih h]
  · induction store with
    | nil => simp at h
    | cons a as ih =>
      by_cases hpa : p a = true
      · simp only [List.find?_cons, hpa, Option.some.injEq] at h
        subst h
        simp [hpa]
      · simp only [Bool.not_eq_true] at hpa
        simp only [List.find?_cons, hpa] at h
        have hne : a ≠ c := by
          intro hac
          have := List.find?_some h
          rw [← hac, hpa] at this
          exact absurd this (by simp)
        have hne' : (a == c) = false := by simpa using hne
        simp [List.erase_cons, hne', hpa, ih h]

/-- The lookup of `get_connection_for_bdaddr` for an address that parses, on a store
without over-long addresses: the first record at which the loop stops. -/
theorem get_connection_for_bdaddr_find (store : List NMConnection) (bdaddr : String)
    (method : BtMethod) (array : List Nat) (h_mac : get_array_from_bdaddr bdaddr = some array)
    (h_within : addresses_within 6 store) :
    get_connection_for_bdaddr store bdaddr method =
      some (store.find? (is_found array method)) := by
  have h6 := get_array_from_bdaddr_length bdaddr array h_mac
  simp only [get_connection_for_bdaddr, h_mac]
  exact get_connection_loop_find array method store (by rw [h6]; exact h_within)

/-- The loop of `device_removed` with more fuel than records to delete: it deletes
the records the lookup stops at, in store order, and leaves the others. -/
theorem device_removed_loop_spec (bdaddr : String) (array : List Nat)
    (h_mac : get_array_from_bdaddr bdaddr = some array) (fuel : Nat) :
    ∀ (store : List NMConnection) (calls : List Effect),
      addresses_within 6 store →
      (store.filter (is_found array BtMethod.BT_METHOD_UNKNOWN)).length < fuel →
      device_removed_loop bdaddr fuel store calls =
        some (store.filter (fun c => !is_found array BtMethod.BT_METHOD_UNKNOWN c),
          calls ++ (store.filter (is_found array BtMethod.BT_METHOD_UNKNOWN)).map
            (fun c => Effect.settings_connection_delete (some c))) := by
  induction fuel with
  | zero => intro store calls _ h; exact absurd h (Nat.not_lt_zero _)
  | succ n ih =>
    intro store calls h_within h_fuel
    have hfind := get_connection_for_bdaddr_find store bdaddr BtMethod.BT_METHOD_UNKNOWN array
      h_mac h_within
    cases hf : store.find? (is_found array BtMethod.BT_METHOD_UNKNOWN) with
    | none =>
      rw [hf] at hfind
      have hall : ∀ c ∈ store, is_found array BtMethod.BT_METHOD_UNKNOWN c = false := by
        intro c hc
        have := List.find?_eq_none.1 hf c hc
        simpa using this
      have h1 : store.filter (is_found array BtMethod.BT_METHOD_UNKNOWN) = [] := by
        rw [List.filter_eq_nil_iff]
        intro c hc
        simp [hall c hc]
      have h2 : store.filter (fun c => !is_found array BtMethod.BT_METHOD_UNKNOWN c) = store := by
        rw [List.filter_eq_self]
        intro c hc
        simp [hall c hc]
      simp [device_removed_loop, hfind, h1, h2]
    | some c =>
      rw [hf] at hfind
      obtain ⟨e1, e2, e3⟩ := erase_first_found _ store c hf
      have h_within' : addresses_within 6 (store.erase c) :=
        fun d hd => h_within d (e3 d hd)
      have h_fuel' : ((store.erase c).filter
          (is_found array BtMethod.BT_METHOD_UNKNOWN)).length < n := by
        rw [e1] at h_fuel
        simp only [List.length_cons] at h_fuel
        omega
      simp only [device_removed_loop, hfind, store_delete]
      rw [ih (store.erase c) _ h_within' h_fuel', e2, e1]
      simp

/-- What `device_removed` does on stores the lookup is defined on: for every address
and every finite store in which a delete removes the record from later listings
and no stored address is longer than six bytes, `device_removed` returns.  For an address that
parses it makes one delete call for each stored record at which the lookup for
the address stops (any Bluetooth type), in store order, and no other call; the
store it leaves holds the other records, and a further lookup finds nothing.
For a record with a six-byte address the lookup stops exactly when its bytes
are the parsed address; it never stops at a record without a Bluetooth
setting.  For an address that does not parse it returns at once. -/
theorem device_removed_deletes_all (store : List NMConnection) (bdaddr : String)
    (h_within : addresses_within 6 store) :
    (∀ array, get_array_from_bdaddr bdaddr = some array →
        device_removed store bdaddr =
            some (store.filter (fun c => !is_found array BtMethod.BT_METHOD_UNKNOWN c),
              (store.filter (is_found array BtMethod.BT_METHOD_UNKNOWN)).map
                (fun c => Effect.settings_connection_delete (some c)))
          ∧ get_connection_for_bdaddr
              (store.filter (fun c => !is_found array BtMethod.BT_METHOD_UNKNOWN c)) bdaddr
              BtMethod.BT_METHOD_UNKNOWN = some none
          ∧ (∀ c addr type, nm_connection_get_setting_bluetooth c = some (some addr, type) →
              addr.length = 6 →
              (is_found array BtMethod.BT_METHOD_UNKNOWN c = true ↔ addr = array))
          ∧ (∀ c, nm_connection_get_setting_bluetooth c = none →
              is_found array BtMethod.BT_METHOD_UNKNOWN c = false))
      ∧ (get_array_from_bdaddr bdaddr = none → device_removed store bdaddr = some (store, [])) := by
  refine ⟨fun array h_mac => ?_, fun h_none => ?_⟩
  · have h6 := get_array_from_bdaddr_length bdaddr array h_mac
    refine ⟨?_, ?_, ?_, ?_⟩
    · have := device_removed_loop_spec bdaddr array h_mac (store.length + 1) store [] h_within
        (Nat.lt_succ_of_le (List.length_filter_le _ _))
      simpa [device_removed] using this
    · have h_within' : addresses_within 6
          (store.filter (fun c => !is_found array BtMethod.BT_METHOD_UNKNOWN c)) :=
        fun d hd => h_within d (List.mem_of_mem_filter hd)
      rw [get_connection_for_bdaddr_find _ bdaddr _ array h_mac h_within']
      congr 1
      rw [List.find?_eq_none]
      intro c hc
      have := (List.mem_filter.1 hc).2
      simpa using this
    · intro c addr type hs hlen
      have hta : List.take addr.length array = array := by
        rw [hlen, ← h6]; exact List.take_length array
      have hm : memcmp_differs addr array addr.length = some (addr != array) := by
        have hle : addr.length ≤ array.length := by omega
        simp only [memcmp_differs, le_refl, hle, and_self, if_true, List.take_length, hta]
      simp [is_found, candidate_found, hs, hm]
    · intro c hs
      simp [is_found, candidate_found, hs]
  · simp [device_removed, device_removed_loop, get_connection_for_bdaddr, h_none]

/-- Removing the peer 00:11:22:33:44:55 from the sample store deletes
its PAN record and its DUN record and leaves the wired connection and the record
of the other peer. -/
theorem device_removed_deletes_all_witness :
    get_array_from_bdaddr "00:11:22:33:44:55" = some [0, 17, 34, 51, 68, 85]
      ∧ device_removed sample_store "00:11:22:33:44:55" =
          some ([sample_wired, sample_other_record],
            [Effect.settings_connection_delete (some sample_pan_record),
             Effect.settings_connection_delete (some sample_dun_record)]) := by
  have h_within : addresses_within 6 sample_store := by
    intro candidate hc addr type hs
    simp only [sample_store, List.mem_cons, List.mem_singleton, List.not_mem_nil, or_false] at hc
    rcases hc with rfl | rfl | rfl | rfl <;>
      simp [nm_connection_get_setting_bluetooth, sample_wired, sample_pan_record,
        sample_other_record, sample_dun_record] at hs <;>
      (obtain ⟨rfl, -⟩ := hs; decide)
  refine ⟨by decide, ?_⟩
  rw [((device_removed_deletes_all sample_store "00:11:22:33:44:55" h_within).1
    [0, 17, 34, 51, 68, 85] (by decide)).1]
  decide

/-- What the lookup stops at among records with six-byte addresses: a record whose
address is the parsed one and whose type is "panu" for PAN, "dun" for DUN, any
type (or none) for UNKNOWN. -/
theorem is_found_six_bytes (array : List Nat) (method : BtMethod) (c : NMConnection)
    (addr : List Nat) (type : Option String) (h_array : array.length = 6)
    (hs : nm_connection_get_setting_bluetooth c = some (some addr, type))
    (hlen : addr.length = 6) :
    is_found array method c = true ↔
      addr = array
        ∧ (method = BtMethod.BT_METHOD_PAN → type = some NM_SETTING_BLUETOOTH_TYPE_PANU)
        ∧ (method = BtMethod.BT_METHOD_DUN → type = some NM_SETTING_BLUETOOTH_TYPE_DUN) := by
  have hta : List.take addr.length array = array := by
    rw [hlen, ← h_array]; exact List.take_length array
  have hm : memcmp_differs addr array addr.length = some (addr != array) := by
    have hle : addr.length ≤ array.length := by omega
    simp only [memcmp_differs, le_refl, hle, and_self, if_true, List.take_length, hta]
  cases method <;> cases type <;>
    simp [is_found, candidate_found, hs, hm, g_strcmp0_differs] <;>
    (split <;> simp_all)

/-- C20 (the code at the failing input): the store holds one PAN record whose stored
address is the three bytes 00:11:22.  The lookup compares only those three
bytes (`memcmp` over `addr->len`), so it returns this record for the peer
00:11:22:33:44:55 and for the peer 00:11:22:AA:BB:CC as well, though the stored
address is neither. -/
theorem get_connection_for_bdaddr_short_address :
    nm_connection_get_setting_bluetooth sample_short_record =
        some (some [0, 17, 34], some "panu")
      ∧ get_array_from_bdaddr "00:11:22:33:44:55" = some [0, 17, 34, 51, 68, 85]
      ∧ get_connection_for_bdaddr [sample_short_record] "00:11:22:33:44:55"
          BtMethod.BT_METHOD_PAN = some (some sample_short_record)
      ∧ get_connection_for_bdaddr [sample_short_record] "00:11:22:AA:BB:CC"
          BtMethod.BT_METHOD_PAN = some (some sample_short_record)
      ∧ get_connection_for_bdaddr [sample_wired, sample_short_record, sample_pan_record]
          "00:11:22:33:44:55" BtMethod.BT_METHOD_UNKNOWN = some (some sample_short_record) := by
  decide

/-- The live sources after two lists of calls in a row. -/
theorem sources_after_append (a b : List Effect) (sources : List Nat) :
    sources_after (a ++ b) sources = sources_after b (sources_after a sources) := by
  induction a generalizing sources with
  | nil => rfl
  | cons e es ih => cases e <;> simp [sources_after, ih]

/-- Calls that are not timer calls leave the live sources alone. -/
theorem sources_after_no_timer (l : List Effect) (sources : List Nat)
    (h : ∀ e ∈ l, e.is_timer = false) : sources_after l sources = sources := by
  induction l generalizing sources with
  | nil => rfl
  | cons e es ih =>
    have he := h e (List.mem_cons_self _ _)
    have hes : ∀ x ∈ es, x.is_timer = false := fun x hx => h x (List.mem_cons_of_mem _ hx)
    clear h
    cases e <;>
      first
        | (simp only [sources_after]; exact ih _ hes)
        | simp [Effect.is_timer] at he

/-- The teardown removes the source of the stored timeout id, if there is one, and
touches no other source. -/
theorem sources_after_cleanup (info : PluginInfo) (message : String) (uncheck : Bool)
    (sources : List Nat) :
    sources_after (dun_cleanup info message uncheck).2 sources =
      if info.dun_timeout_id = 0 then sources else sources.erase info.dun_timeout_id := by
  have h1 : ∀ l : List DBusGProxy, ∀ e ∈ l.map Effect.proxy_unref, e.is_timer = false := by
    intro l e he
    obtain ⟨p, -, rfl⟩ := List.mem_map.1 he
    rfl
  simp only [dun_cleanup, sources_after_append]
  rw [sources_after_no_timer _ _ (h1 _)]
  have h2 : ∀ s, sources_after
      (match info.dun_proxy with
        | some dun =>
          (match info.rfcomm_iface with
            | some iface => [Effect.call_no_reply dun "Disconnect" [iface]]
            | none => []) ++ [Effect.proxy_unref dun]
        | none => []) s = s := by
    intro s
    cases info.dun_proxy <;> cases info.rfcomm_iface <;> rfl
  have h3 : ∀ s, sources_after
      (match info.adapter_proxy with
        | some p => [Effect.proxy_unref p]
        | none => []) s = s := by
    intro s; cases info.adapter_proxy <;> rfl
  have h4 : ∀ s, sources_after
      (match info.bluez_proxy with
        | some p => [Effect.proxy_unref p]
        | none => []) s = s := by
    intro s; cases info.bluez_proxy <;> rfl
  have h5 : ∀ s, sources_after
      (match info.bus with
        | some b => [Effect.connection_unref b]
        | none => []) s = s := by
    intro s; cases info.bus <;> rfl
  have h6 : ∀ s, sources_after
      (match info.window_group with
        | some g => [Effect.window_group_unref g]
        | none => []) s = s := by
    intro s; cases info.window_group <;> rfl
  have h7 : ∀ s, sources_after
      (match info.wizard with
        | some w => [Effect.wizard_destroy (some w)]
        | none => []) s = s := by
    intro s; cases info.wizard <;> rfl
  rw [h2, h3, h4, h5, h7, h6]
  by_cases h : info.dun_timeout_id = 0 <;> simp [h, sources_after]

/-- A world whose plugin state a teardown has just returned satisfies the
invariant, when before the teardown the live sources were those of the stored id. -/
theorem world_invariant_cleanup (before : PluginInfo) (message : String) (uncheck : Bool)
    (sources : List Nat) (wizards : Nat)
    (h : sources = if before.dun_timeout_id = 0 then [] else [before.dun_timeout_id]) :
    world_invariant
      { info := (dun_cleanup before message uncheck).1
        sources := sources_after (dun_cleanup before message uncheck).2 sources
        wizards := wizards } := by
  refine ⟨?_, ?_, ?_⟩
  · rw [sources_after_cleanup, h]
    by_cases h0 : before.dun_timeout_id = 0 <;> simp [h0, dun_cleanup_state]
  · intro _
    simp [dun_cleanup_state, session_clear]
  · simp [dun_cleanup_state]

/-- A step that keeps the timeout id, the live sources and the wizard, and after
which the toggle is insensitive or no session exists, keeps the invariant. -/
theorem world_invariant_frame (w next : World) (hinv : world_invariant w)
    (h_id : next.info.dun_timeout_id = w.info.dun_timeout_id)
    (h_sources : next.sources = w.sources)
    (h_wizard : next.info.wizard = w.info.wizard)
    (h_clear : next.info.button_sensitive = true → session_clear next.info) :
    world_invariant next := by
  obtain ⟨i1, -, i3⟩ := hinv
  exact ⟨by rw [h_sources, h_id]; exact i1, h_clear, by rw [h_wizard, h_id]; exact i3⟩

/-- The calls of `add_pan_connection` add and remove no timeout source. -/
theorem sources_after_add_pan (env : Env) (bdaddr : String) (sources : List Nat) :
    sources_after (add_pan_connection env bdaddr).2 sources = sources := by
  unfold add_pan_connection
  cases get_array_from_bdaddr bdaddr <;> rfl

/-- From a state with no session and no live source, `dun_start` leads to a world
that satisfies the invariant, when the id of the new source is not 0. -/
theorem dun_start_world_invariant (info : PluginInfo) (env : Env) (wizards : Nat)
    (hclear : session_clear info) (h_id : env.timeout_id ≠ 0) :
    world_invariant
      { info := (dun_start info env).1
        sources := sources_after (dun_start info env).2 []
        wizards := wizards } := by
  obtain ⟨c1, -, -, c4, -, -, -, -⟩ := hclear
  by_cases hcond : env.bus_get_error.isSome = true ∨ env.bus_get_bus.isNone = true
  · have hstart : dun_start info env =
        dun_cleanup { info with bus := env.bus_get_bus }
          (dun_error_message env.bus_get_error "could not connect to the system bus.") true := by
      simp only [dun_start, hcond, if_true, dun_error]
    rw [hstart]
    exact world_invariant_cleanup _ _ _ _ _ (by simp [c4])
  · simp only [dun_start, hcond, if_false]
    refine ⟨?_, ?_, ?_⟩
    · simp [sources_after, h_id]
    · intro hsens; simp at hsens
    · intro hw; simp [c1] at hw

/-- The toggle handler keeps the invariant when it runs in a state with no session
(the only states in which the toggle is sensitive). -/
theorem button_toggled_world_invariant (w : World) (info : PluginInfo) (env : Env)
    (wizards : Nat) (hinv : world_invariant w) (hclear : session_clear info)
    (h_same : info.dun_timeout_id = w.info.dun_timeout_id ∧ info.wizard = w.info.wizard)
    (h_id : env.timeout_id ≠ 0) :
    world_invariant
      { info := (button_toggled info env).1
        sources := sources_after (button_toggled info env).2 w.sources
        wizards := wizards } := by
  have hclear' := hclear
  obtain ⟨c1, c2, c3, c4, c5, c6, c7, c8⟩ := hclear'
  have hsrc : w.sources = [] := by rw [hinv.1, ← h_same.1]; simp [c4]
  by_cases h1 : info.button_active = false
  · simp only [button_toggled, h1, if_true]
    refine world_invariant_frame w _ hinv h_same.1 rfl h_same.2 (fun _ => ?_)
    simpa [session_clear] using hclear
  · by_cases h2 : info.method = BtMethod.BT_METHOD_PAN
    · simp only [button_toggled, h1, h2, if_true, if_false]
      refine world_invariant_frame w _ hinv h_same.1 (sources_after_add_pan _ _ _) h_same.2
        (fun _ => ?_)
      simpa [session_clear] using hclear
    · by_cases h3 : info.method = BtMethod.BT_METHOD_DUN
      · simp only [button_toggled, h1, h2, h3, if_true, if_false]
        rw [hsrc]
        exact dun_start_world_invariant info env wizards hclear h_id
      · simp only [button_toggled, h1, h2, h3, if_false]
        exact world_invariant_frame w _ hinv h_same.1 rfl h_same.2 (fun _ => hclear)

/-- A click keeps the invariant, when the id of a new source is not 0. -/
theorem button_clicked_world_invariant (w : World) (env : Env) (wizards : Nat)
    (hinv : world_invariant w) (h_id : env.timeout_id ≠ 0) :
    world_invariant
      { info := (button_clicked w.info env).1
        sources := sources_after (button_clicked w.info env).2 w.sources
        wizards := wizards } := by
  by_cases hs : w.info.button_sensitive = true
  · have hclear := hinv.2.1 hs
    simp only [button_clicked, hs, if_true]
    refine button_toggled_world_invariant w _ env wizards hinv ?_ ⟨rfl, rfl⟩ h_id
    simpa [session_clear] using hclear
  · simp only [button_clicked, hs]
    exact world_invariant_frame w _ hinv rfl rfl rfl (fun h => absurd h hs)

/-- A reply of a tunnel step keeps the invariant, when the proxy the call was made
on is still held. -/
theorem tunnel_reply_world_invariant (w : World) (wizards : Nat) (hinv : world_invariant w) :
    (∀ reply, w.info.bluez_proxy.isSome = true →
        world_invariant
          { info := (default_adapter_cb w.info reply).1
            sources := sources_after (default_adapter_cb w.info reply).2 w.sources
            wizards := wizards })
      ∧ (∀ reply, w.info.adapter_proxy.isSome = true →
        world_invariant
          { info := (find_device_cb w.info reply).1
            sources := sources_after (find_device_cb w.info reply).2 w.sources
            wizards := wizards })
      ∧ (∀ reply, w.info.dun_proxy.isSome = true →
        world_invariant
          { info := (dun_connect_cb w.info reply).1
            sources := sources_after (dun_connect_cb w.info reply).2 w.sources
            wizards := wizards }) := by
  have hinsens : ∀ {α : Type} (field : PluginInfo → Option α),
      (session_clear w.info → field w.info = none) → (field w.info).isSome = true →
      w.info.button_sensitive = false := by
    intro α field hfield hsome
    cases hb : w.info.button_sensitive with
    | false => rfl
    | true =>
      have := hfield (hinv.2.1 hb)
      rw [this] at hsome
      exact absurd hsome (by simp)
  refine ⟨?_, ?_, ?_⟩
  · intro reply hp
    have hns := hinsens (fun i => i.bluez_proxy) (fun h => h.2.2.2.2.2.2.1) hp
    cases reply with
    | error e => exact world_invariant_cleanup _ _ _ _ _ hinv.1
    | ok p =>
      refine world_invariant_frame w _ hinv rfl rfl rfl (fun h => ?_)
      simp [default_adapter_cb, hns] at h
  · intro reply hp
    have hns := hinsens (fun i => i.adapter_proxy) (fun h => h.2.2.2.2.2.1) hp
    cases reply with
    | error e => exact world_invariant_cleanup _ _ _ _ _ hinv.1
    | ok p =>
      refine world_invariant_frame w _ hinv rfl rfl rfl (fun h => ?_)
      simp [find_device_cb, hns] at h
  · intro reply hp
    have hns := hinsens (fun i => i.dun_proxy) (fun h => h.2.2.2.2.1) hp
    unfold dun_connect_cb
    split
    · exact world_invariant_cleanup _ _ _ _ _ hinv.1
    · split
      · exact world_invariant_cleanup _ _ _ _ _ hinv.1
      · split
        · exact world_invariant_cleanup _ _ _ _ _ hinv.1
        · refine world_invariant_frame w _ hinv rfl rfl rfl (fun h => ?_)
          simp [hns] at h

/-- Without an interface name, a property reply that does not crash leaves the
technology family as it was. -/
theorem modem_devtype_without_iface (info : PluginInfo) (properties : List (String × GValue))
    (devtype : NMDeviceType) (h_iface : info.rfcomm_iface = none)
    (h : modem_devtype_from_properties info properties = some devtype) :
    devtype = info.devtype := by
  unfold modem_devtype_from_properties at h
  split at h
  · simp [h_iface] at h
  · simpa using h.symm

/-- The signals and replies that never change the tunnel keep the invariant. -/
theorem watch_event_world_invariant (w : World) (wizards : Nat) (hinv : world_invariant w) :
    (∀ property value,
        world_invariant
          { info := (dun_property_changed w.info property value).1
            sources := sources_after (dun_property_changed w.info property value).2 w.sources
            wizards := wizards })
      ∧ (∀ path,
        world_invariant
          { info := (modem_added w.info path).1
            sources := sources_after (modem_added w.info path).2 w.sources
            wizards := wizards })
      ∧ (∀ path,
        world_invariant
          { info := (modem_removed w.info path).1
            sources := sources_after (modem_removed w.info path).2 w.sources
            wizards := wizards }) := by
  refine ⟨?_, ?_, ?_⟩
  · intro property value
    unfold dun_property_changed
    split
    · exact world_invariant_frame w _ hinv rfl rfl rfl hinv.2.1
    · split
      · exact world_invariant_frame w _ hinv rfl rfl rfl hinv.2.1
      · exact world_invariant_cleanup _ _ _ _ _ hinv.1
  · intro path
    refine world_invariant_frame w _ hinv rfl rfl rfl (fun h => ?_)
    have := hinv.2.1 h
    simpa [session_clear, modem_added] using this
  · intro path
    unfold modem_removed
    split
    · refine world_invariant_frame w _ hinv rfl rfl rfl (fun h => ?_)
      have := hinv.2.1 h
      simpa [session_clear] using this
    · exact world_invariant_frame w _ hinv rfl rfl rfl hinv.2.1

/-- A property reply that does not crash keeps the invariant. -/
theorem modem_get_all_cb_world_invariant (w : World) (wizards : Nat) (proxy : DBusGProxy)
    (reply : Except GError (List (String × GValue))) (env : Env)
    (next : PluginInfo × List Effect) (hinv : world_invariant w)
    (h : modem_get_all_cb w.info proxy reply env = some next) :
    world_invariant
      { info := next.1, sources := sources_after next.2 w.sources, wizards := wizards } := by
  unfold modem_get_all_cb at h
  split at h
  · simp only [Option.some.injEq] at h
    subst h
    exact world_invariant_frame w _ hinv rfl rfl rfl hinv.2.1
  · split at h
    · exact absurd h (by simp)
    · rename_i properties _ devtype hdev
      simp only [Option.some.injEq] at h
      subst h
      by_cases hu : devtype = NMDeviceType.NM_DEVICE_TYPE_UNKNOWN
      · have hold : w.info.devtype = NMDeviceType.NM_DEVICE_TYPE_UNKNOWN := by
          rcases modem_devtype_from_properties_cases w.info properties devtype hdev with
            h1 | h1 | h1
          · rw [hu] at h1; exact absurd h1 (by decide)
          · rw [hu] at h1; exact absurd h1 (by decide)
          · rw [← h1]; exact hu
        subst hu
        simp only [modem_start_wizard, ne_eq, not_true_eq_false, if_false]
        refine world_invariant_frame w _ hinv rfl rfl rfl (fun hsens => ?_)
        obtain ⟨c1, -, c3, c4, c5, c6, c7, c8⟩ := hinv.2.1 hsens
        exact ⟨c1, rfl, c3, c4, c5, c6, c7, c8⟩
      · have hinsens : w.info.button_sensitive = false := by
          cases hb : w.info.button_sensitive with
          | false => rfl
          | true =>
            have hclear := hinv.2.1 hb
            have := modem_devtype_without_iface w.info properties devtype hclear.2.2.1 hdev
            rw [this] at hu
            exact absurd hclear.2.1 hu
        simp only [modem_start_wizard, ne_eq, hu, not_false_eq_true, if_true]
        refine ⟨?_, ?_, ?_⟩
        · simp only [sources_after]
          rw [hinv.1]
          by_cases h0 : w.info.dun_timeout_id = 0 <;> simp [h0]
        · intro hsens
          simp [hinsens] at hsens
        · intro _; rfl

/-- The completion of a wizard, when it does not fail an assertion, keeps the
invariant. -/
theorem wizard_done_cb_world_invariant (w : World) (wizards : Nat) (canceled : Bool)
    (method : Option MobileWizardAccessMethod) (env : Env) (next : PluginInfo × List Effect)
    (hinv : world_invariant w)
    (h : wizard_done_cb w.info canceled method env = some next) :
    world_invariant
      { info := next.1, sources := sources_after next.2 w.sources, wizards := wizards } := by
  have hstore : ∀ connection, wizard_done_store w.info connection env = some next →
      world_invariant
        { info := next.1, sources := sources_after next.2 w.sources, wizards := wizards } := by
    intro connection hs
    unfold wizard_done_store at hs
    cases hm : get_array_from_bdaddr w.info.bdaddr with
    | none => simp [hm] at hs
    | some mac =>
      simp only [hm, Option.some.injEq] at hs
      subst hs
      have hsrc : ∀ (l : List Effect) (c : NMConnection) (tail : List Effect),
          (∀ e ∈ l, e.is_timer = false) →
          sources_after (l ++ [Effect.settings_add_connection c] ++ tail) w.sources =
            sources_after tail w.sources := by
        intro l c tail hl
        rw [sources_after_append, sources_after_append, sources_after_no_timer l _ hl]
        rfl
      have hdestroy : ∀ e ∈ [Effect.wizard_destroy w.info.wizard], e.is_timer = false := by
        intro e he
        simp only [List.mem_singleton] at he
        subst he; rfl
      simp only [hsrc _ _ _ hdestroy]
      refine world_invariant_cleanup _ _ _ _ _ ?_
      rw [hinv.1]
      cases env.add_connection_ok <;> rfl
  unfold wizard_done_cb at h
  split at h
  · simp only [Option.some.injEq] at h; subst h
    exact world_invariant_cleanup _ _ _ _ _ hinv.1
  · simp only [Option.some.injEq] at h; subst h
    exact world_invariant_cleanup _ _ _ _ _ hinv.1
  · split at h
    · exact hstore _ h
    · split at h
      · exact hstore _ h
      · simp only [Option.some.injEq] at h; subst h
        exact world_invariant_cleanup _ _ _ _ _ hinv.1

/-- Every turn of the main loop keeps the invariant. -/
theorem world_step_invariant (w : World) (d : Delivery) (next : World)
    (hinv : world_invariant w) (h : world_step w d = some next) : world_invariant next := by
  unfold world_step at h
  split at h
  · rename_i hd
    cases d with
    | fire id =>
      simp only [Option.some.injEq] at h
      subst h
      simp only [deliverable, decide_eq_true_eq] at hd
      have hid : w.info.dun_timeout_id ≠ 0 ∧ id = w.info.dun_timeout_id := by
        rw [hinv.1] at hd
        by_cases h0 : w.info.dun_timeout_id = 0
        · simp [h0] at hd
        · simp [h0] at hd; exact ⟨h0, hd⟩
      have ht : (dun_timeout_cb w.info).1 =
          dun_cleanup { w.info with dun_timeout_id := 0 }
            "Error: timed out detecting phone details." true := by
        simp [dun_timeout_cb, dun_error, dun_error_message]
      have h2 : (dun_timeout_cb w.info).2 = false := rfl
      simp only [h2, ht]
      refine ⟨?_, ?_, ?_⟩
      · simp only [sources_after_cleanup, if_true, Bool.false_eq_true, if_false]
        rw [hinv.1, hid.2]
        simp [hid.1, dun_cleanup_state]
      · intro _
        simp [dun_cleanup_state, session_clear]
      · simp [dun_cleanup_state]
    | event e =>
      cases e with
      | click env =>
        simp only [handle_event, Option.some.injEq] at h
        subst h
        simp only [deliverable, decide_eq_true_eq] at hd
        exact button_clicked_world_invariant w env _ hinv hd.1
      | default_adapter_reply reply =>
        simp only [handle_event, Option.some.injEq] at h
        subst h
        exact (tunnel_reply_world_invariant w _ hinv).1 reply hd
      | find_device_reply reply =>
        simp only [handle_event, Option.some.injEq] at h
        subst h
        exact (tunnel_reply_world_invariant w _ hinv).2.1 reply hd
      | connect_reply reply =>
        simp only [handle_event, Option.some.injEq] at h
        subst h
        exact (tunnel_reply_world_invariant w _ hinv).2.2 reply hd
      | property_changed property value =>
        simp only [handle_event, Option.some.injEq] at h
        subst h
        exact (watch_event_world_invariant w _ hinv).1 property value
      | device_added path =>
        simp only [handle_event, Option.some.injEq] at h
        subst h
        exact (watch_event_world_invariant w _ hinv).2.1 path
      | device_removed path =>
        simp only [handle_event, Option.some.injEq] at h
        subst h
        exact (watch_event_world_invariant w _ hinv).2.2 path
      | get_all_reply proxy reply env =>
        simp only [handle_event] at h
        cases hr : modem_get_all_cb w.info proxy reply env with
        | none => simp [hr] at h
        | some result =>
          simp only [hr, Option.some.injEq] at h
          subst h
          exact modem_get_all_cb_world_invariant w _ proxy reply env result hinv hr
      | timeout => simp [deliverable] at hd
      | wizard_done canceled method env =>
        simp only [handle_event] at h
        cases hr : wizard_done_cb w.info canceled method env with
        | none => simp [hr] at h
        | some result =>
          simp only [hr, Option.some.injEq] at h
          subst h
          exact wizard_done_cb_world_invariant w _ canceled method env result hinv hr
  · exact absurd h (by simp)

/-- The invariant holds in every world of a run. -/
theorem run_invariant (w : World) (h : Run w) : world_invariant w := by
  induction h with
  | init bdaddr method connection toggled_id _ =>
    refine ⟨by simp [plugin_info_new], fun _ => ?_, by simp [plugin_info_new]⟩
    simp [session_clear, plugin_info_new]
  | step w d next _ hstep ih => exact world_step_invariant w d next ih hstep

/-- The sample session is a run of the main loop. -/
theorem sample_run :
    Run sample_world_idle ∧ Run sample_world_started ∧ Run sample_world_early_modem
      ∧ Run sample_world_watching ∧ Run sample_world_matched := by
  have h0 : Run sample_world_idle :=
    Run.init "00:11:22:33:44:55" BtMethod.BT_METHOD_DUN none 1 (by decide)
  have h1 : Run sample_world_started :=
    Run.step _ (Delivery.event (Event.click sample_env)) _ h0 (by decide)
  have h1' : Run sample_world_early_modem :=
    Run.step _ (Delivery.event (Event.device_added "/org/freedesktop/ModemManager/Modems/0"))
      _ h1 (by decide)
  have h2 : Run { info := sample_adapter, sources := [7], wizards := 0 } :=
    Run.step _ (Delivery.event (Event.default_adapter_reply (Except.ok "/org/bluez/hci0")))
      _ h1 (by decide)
  have h3 : Run { info := sample_device, sources := [7], wizards := 0 } :=
    Run.step _
      (Delivery.event
        (Event.find_device_reply (Except.ok "/org/bluez/hci0/dev_00_11_22_33_44_55")))
      _ h2 (by decide)
  have h4 : Run { info := sample_tunnel, sources := [7], wizards := 0 } :=
    Run.step _ (Delivery.event (Event.connect_reply (Except.ok (some "/dev/rfcomm0"))))
      _ h3 (by decide)
  have h5 : Run
      { info := (modem_added sample_tunnel "/org/freedesktop/ModemManager/Modems/0").1
        sources := [7], wizards := 0 } :=
    Run.step _ (Delivery.event (Event.device_added "/org/freedesktop/ModemManager/Modems/0"))
      _ h4 (by decide)
  have h6 : Run sample_world_watching :=
    Run.step _ (Delivery.event (Event.device_added "/org/freedesktop/ModemManager/Modems/1"))
      _ h5 (by decide)
  have h7 : Run sample_world_matched :=
    Run.step _
      (Delivery.event
        (Event.get_all_reply (sample_modem 0) (Except.ok sample_gsm_properties) sample_env))
      _ h6 (by decide)
  exact ⟨h0, h1, h1', h6, h7⟩

/-- C11 (the code at the failing input): in the run of the sample session, right
after `dun_start` (no reply of the tunnel steps yet, interface name absent) a
`DeviceAdded` signal can be delivered and `modem_added` handles it; the property
reply for that modem can then be delivered while the interface name is still
absent, and `modem_get_all_cb` passes the absent name to `g_path_get_basename`
and the result to `strcmp`: it crashes. -/
theorem modem_get_all_cb_reads_absent_iface :
    Run sample_world_started
      ∧ sample_world_started.info.rfcomm_iface = none
      ∧ deliverable sample_world_started
          (Delivery.event (Event.device_added "/org/freedesktop/ModemManager/Modems/0")) = true
      ∧ world_step sample_world_started
          (Delivery.event (Event.device_added "/org/freedesktop/ModemManager/Modems/0")) =
          some sample_world_early_modem
      ∧ sample_world_early_modem.info.rfcomm_iface = none
      ∧ deliverable sample_world_early_modem
          (Delivery.event
            (Event.get_all_reply (sample_modem 0) (Except.ok sample_gsm_properties)
              sample_env)) = true
      ∧ modem_get_all_cb sample_world_early_modem.info (sample_modem 0)
          (Except.ok sample_gsm_properties) sample_env = none :=
  ⟨sample_run.2.1, by decide, by decide, by decide, by decide, by decide, by decide⟩

/-- The modem watch is started by `dun_start`, with the tunnel
negotiation: when the bus is obtained, `dun_start` holds the ModemManager proxy
with `modem_added` and `modem_removed` connected and leaves the interface name
as it was.  Whenever a property reply is handled in a state whose interface
name is resolved, `modem_get_all_cb` reads that name and returns normally. -/
theorem modem_watch_from_dun_start (info : PluginInfo) (env : Env) (bus : DBusGConnection)
    (h_bus : env.bus_get_bus = some bus) (h_err : env.bus_get_error = none) :
    (dun_start info env).1.mm_proxy =
        some (dbus_g_proxy_new_for_name (some bus) MM_SERVICE MM_PATH MM_INTERFACE)
      ∧ Effect.connect_signal
          (dbus_g_proxy_new_for_name (some bus) MM_SERVICE MM_PATH MM_INTERFACE)
          "DeviceAdded" "modem_added" ∈ (dun_start info env).2
      ∧ Effect.connect_signal
          (dbus_g_proxy_new_for_name (some bus) MM_SERVICE MM_PATH MM_INTERFACE)
          "DeviceRemoved" "modem_removed" ∈ (dun_start info env).2
      ∧ (dun_start info env).1.rfcomm_iface = info.rfcomm_iface
      ∧ ∀ (state : PluginInfo) (proxy : DBusGProxy)
          (reply : Except GError (List (String × GValue))) (answers : Env),
          state.rfcomm_iface.isSome = true →
          (modem_get_all_cb state proxy reply answers).isSome = true := by
  refine ⟨?_, ?_, ?_, ?_, ?_⟩
  · simp [dun_start, h_bus, h_err]
  · simp [dun_start, h_bus, h_err]
  · simp [dun_start, h_bus, h_err]
  · simp [dun_start, h_bus, h_err]
  · intro state proxy reply answers h_iface
    cases hi : state.rfcomm_iface with
    | none => simp [hi] at h_iface
    | some iface =>
      cases reply with
      | error e => simp [modem_get_all_cb]
      | ok properties =>
        have : ∃ d, modem_devtype_from_properties state properties = some d := by
          unfold modem_devtype_from_properties
          split
          · simp only [hi]
            split
            · split <;> exact ⟨_, rfl⟩
            · exact ⟨_, rfl⟩
          · exact ⟨_, rfl⟩
        obtain ⟨d, hd⟩ := this
        simp [modem_get_all_cb, hd]

/-- The first `dun_start` of the sample session holds the ModemManager proxy, and
the property reply is handled once the tunnel is open. -/
theorem modem_watch_from_dun_start_witness :
    (dun_start sample_idle sample_env).1.mm_proxy =
        some (dbus_g_proxy_new_for_name (some { id := 1 }) MM_SERVICE MM_PATH MM_INTERFACE)
      ∧ (modem_get_all_cb sample_watching (sample_modem 0) (Except.ok sample_gsm_properties)
          sample_env).isSome = true :=
  ⟨(modem_watch_from_dun_start sample_idle sample_env { id := 1 } rfl rfl).1,
   (modem_watch_from_dun_start sample_idle sample_env { id := 1 } rfl rfl).2.2.2.2
     sample_watching (sample_modem 0) (Except.ok sample_gsm_properties) sample_env rfl⟩

/-- C13: in every world of a run in which a wizard is held, the stored timeout id
is 0 and no timeout source is live, so no timeout can fire; the same holds
whenever the toggle is sensitive (no session); and the teardown, run in any
world of a run, returns a timeout id of 0 and leaves no live source. -/
theorem deadline_disarmed (w : World) (h : Run w) :
    (w.info.wizard.isSome = true →
        w.info.dun_timeout_id = 0 ∧ w.sources = []
          ∧ ∀ id, world_step w (Delivery.fire id) = none)
      ∧ (w.info.button_sensitive = true → w.info.dun_timeout_id = 0 ∧ w.sources = [])
      ∧ (∀ message uncheck,
          (dun_cleanup w.info message uncheck).1.dun_timeout_id = 0
            ∧ sources_after (dun_cleanup w.info message uncheck).2 w.sources = []) := by
  obtain ⟨i1, i2, i3⟩ := run_invariant w h
  refine ⟨fun hw => ?_, fun hs => ?_, fun message uncheck => ?_⟩
  · have h0 := i3 hw
    have hsrc : w.sources = [] := by rw [i1]; simp [h0]
    refine ⟨h0, hsrc, fun id => ?_⟩
    simp [world_step, deliverable, hsrc]
  · have h0 := (i2 hs).2.2.2.1
    exact ⟨h0, by rw [i1]; simp [h0]⟩
  · refine ⟨by simp [dun_cleanup_state], ?_⟩
    rw [sources_after_cleanup, i1]
    by_cases h0 : w.info.dun_timeout_id = 0 <;> simp [h0]

/-- C13 (witness): the world of the sample session with the wizard shown. -/
theorem deadline_disarmed_witness :
    Run sample_world_matched ∧ sample_world_matched.info.wizard.isSome = true
      ∧ sample_world_matched.info.dun_timeout_id = 0 ∧ sample_world_matched.sources = [] :=
  ⟨sample_run.2.2.2.2, rfl,
   ((deadline_disarmed sample_world_matched sample_run.2.2.2.2).1 rfl).1,
   ((deadline_disarmed sample_world_matched sample_run.2.2.2.2).1 rfl).2.1⟩

/-- The loop of `ip_address_filter_cb` appends the kept characters, in order, to
what it has kept before. -/
theorem ip_address_filter_loop_eq (text result : List Char) :
    ip_address_filter_loop text result =
      result ++ text.filter (fun c => decide (('0' ≤ c ∧ c ≤ '9') ∨ c = '.')) := by
  induction text generalizing result with
  | nil => simp [ip_address_filter_loop]
  | cons c rest ih =>
    by_cases h : ('0' ≤ c ∧ c ≤ '9') ∨ c = '.'
    · simp only [ip_address_filter_loop, h, if_true, ih, List.filter_cons, decide_True]
      simp
    · simp only [ip_address_filter_loop, h, if_false, ih, List.filter_cons, decide_False]
      simp

/-- C26: for every text offered for insertion, `ip_address_filter_cb` passes to
`gtk_editable_insert_text` exactly the characters of the text that are ASCII
digits or '.', in their original order (a sublist of the text), makes no insert
call when there is no such character, and always stops the emission of
`insert-text`, so the original text is never inserted; filtering the filtered
text gives the same text again. -/
theorem ip_address_filter_cb_keeps_digits_and_dots (text : List Char) :
    (ip_address_filter_cb text).inserted =
        (if text.filter (fun c => decide (('0' ≤ c ∧ c ≤ '9') ∨ c = '.')) = [] then none
         else some (text.filter (fun c => decide (('0' ≤ c ∧ c ≤ '9') ∨ c = '.'))))
      ∧ (ip_address_filter_cb text).emission_stopped = true
      ∧ (text.filter (fun c => decide (('0' ≤ c ∧ c ≤ '9') ∨ c = '.'))).Sublist text
      ∧ ip_address_filter_loop (ip_address_filter_loop text []) [] =
          ip_address_filter_loop text []
      ∧ ((∀ c ∈ text, ('0' ≤ c ∧ c ≤ '9') ∨ c = '.') →
          (ip_address_filter_cb text).inserted = if text = [] then none else some text) := by
  refine ⟨?_, rfl, List.filter_sublist _, ?_, ?_⟩
  · simp only [ip_address_filter_cb, ip_address_filter_loop_eq, List.nil_append]
    cases h : text.filter (fun c => decide (('0' ≤ c ∧ c ≤ '9') ∨ c = '.')) <;> simp
  · simp only [ip_address_filter_loop_eq, List.nil_append, List.filter_filter, Bool.and_self]
  · intro hall
    have hf : text.filter (fun c => decide (('0' ≤ c ∧ c ≤ '9') ∨ c = '.')) = text := by
      rw [List.filter_eq_self]
      intro c hc
      simpa using hall c hc
    simp only [ip_address_filter_cb, ip_address_filter_loop_eq, List.nil_append, hf]
    cases text <;> simp

/-- C26 (witness): the text "192.168.1.1" passes the filter unchanged. -/
theorem ip_address_filter_cb_keeps_digits_and_dots_witness :
    (ip_address_filter_cb "192.168.1.1".data).inserted = some "192.168.1.1".data := by
  have h := (ip_address_filter_cb_keeps_digits_and_dots "192.168.1.1".data).2.2.2.2
    (by decide)
  rw [h]
  decide

/-- C27: for every choice of distinct method strings, on a page with the five
methods and on a VPN page (no Link-Local row), and for every row of the method
combo: the method string and the `ignore_dhcp_dns` flag that `ui_to_setting`
writes when that row is active make `populate_ui` compute the method number of
that row and activate that row again; the flag is set exactly when the row is
"Automatic with manual DNS settings". -/
theorem ip4_method_round_trip (names : IP4MethodNames) (is_vpn : Bool) (row : Nat)
    (h_row : row < (method_store is_vpn).length)
    (h1 : names.autoip ≠ names.manual) (h2 : names.autoip ≠ names.shared)
    (h3 : names.manual ≠ names.shared) (h4 : names.dhcp ≠ names.autoip)
    (h5 : names.dhcp ≠ names.manual) (h6 : names.dhcp ≠ names.shared) :
    populate_ui_active names (method_store is_vpn)
        (some (ui_to_setting_method names (method_store is_vpn) (some row)).1)
        (ui_to_setting_method names (method_store is_vpn) (some row)).2 = row
      ∧ (method_store is_vpn).get? row =
          some (populate_ui_method names
            (some (ui_to_setting_method names (method_store is_vpn) (some row)).1)
            (ui_to_setting_method names (method_store is_vpn) (some row)).2)
      ∧ ((ui_to_setting_method names (method_store is_vpn) (some row)).2 = true ↔
          (method_store is_vpn).get? row = some IP4_METHOD_AUTO_MANUAL_DNS)
      ∧ method_store false =
          [IP4_METHOD_AUTO, IP4_METHOD_AUTO_MANUAL_DNS, IP4_METHOD_MANUAL,
           IP4_METHOD_LINK_LOCAL, IP4_METHOD_SHARED] := by
  have h1' := h1.symm
  have h2' := h2.symm
  have h3' := h3.symm
  refine ⟨?_, ?_, ?_, rfl⟩ <;>
  · cases is_vpn <;>
      simp only [method_store, List.length_cons, List.length_nil, List.length_append,
        Bool.false_eq_true, if_false, if_true] at h_row <;>
      interval_cases row <;>
      simp [populate_ui_active, populate_ui_method, ui_to_setting_method, method_store,
        set_method_walk, IP4_METHOD_AUTO, IP4_METHOD_AUTO_MANUAL_DNS, IP4_METHOD_MANUAL,
        IP4_METHOD_LINK_LOCAL, IP4_METHOD_SHARED, h1, h2, h3, h4, h5, h6, h1', h2', h3']

/-- C27 (witness): with NetworkManager's method strings, the Link-Local row (row 3)
of an ordinary page is written as ("autoip", false) and read back as row 3. -/
theorem ip4_method_round_trip_witness :
    ui_to_setting_method nm_ip4_method_names (method_store false) (some 3) = ("autoip", false)
      ∧ populate_ui_active nm_ip4_method_names (method_store false) (some "autoip") false = 3 :=
  ⟨by decide,
   (ip4_method_round_trip nm_ip4_method_names false 3 (by decide) (by decide) (by decide)
      (by decide) (by decide) (by decide) (by decide)).1⟩

/-- The method `get_best_method` returns, by membership of the two markers. -/
theorem get_best_method_by_membership (bdaddr : String) (uuids : Option (List String)) :
    get_best_method bdaddr uuids =
      (if "NAP" ∈ uuids.getD [] then BtMethod.BT_METHOD_PAN
       else if "DialupNetworking" ∈ uuids.getD [] then BtMethod.BT_METHOD_DUN
       else BtMethod.BT_METHOD_UNKNOWN) := by
  cases uuids with
  | none => simp [get_best_method]
  | some us =>
    simp only [get_best_method, get_best_method_loop_eq, Option.getD_some]
    by_cases h1 : "NAP" ∈ us <;> by_cases h2 : "DialupNetworking" ∈ us <;> simp [h1, h2]

/-- C22: for every address text that does not parse, `add_pan_connection` returns
`NULL` and makes no call on the store; `get_connection_for_bdaddr` returns
`NULL` whatever the store holds and whatever the method (it returns before it
lists the store); and `device_removed` makes no call and leaves every store as
it is. -/
theorem unparsable_address_rejected (bdaddr : String)
    (h_bad : get_array_from_bdaddr bdaddr = none) :
    (∀ env, add_pan_connection env bdaddr = (none, []))
      ∧ (∀ store method, get_connection_for_bdaddr store bdaddr method = some none)
      ∧ (∀ store, device_removed store bdaddr = some (store, [])) := by
  refine ⟨fun env => ?_, fun store method => ?_, fun store => ?_⟩
  · simp [add_pan_connection, h_bad]
  · simp [get_connection_for_bdaddr, h_bad]
  · simp [device_removed, device_removed_loop, get_connection_for_bdaddr, h_bad]

/-- C22 (witness): the text "phone" is no address; the sample store is left alone. -/
theorem unparsable_address_rejected_witness :
    get_array_from_bdaddr "phone" = none
      ∧ device_removed sample_store "phone" = some (sample_store, []) :=
  ⟨by decide, (unparsable_address_rejected "phone" (by decide)).2.2 sample_store⟩

/-- C23: for every address and service list, `has_config_widget` is true exactly
when `get_best_method` is not UNKNOWN, that is, when the list contains "NAP" or
"DialupNetworking"; on a store in which the lookup is defined (no stored address
longer than six bytes), `get_config_widgets` returns `NULL` when the method is
UNKNOWN and otherwise a widget whose state records the address and the method
`get_best_method` returns. -/
theorem config_widget_follows_classifier (store : List NMConnection) (toggled_id : Nat)
    (bdaddr : String) (uuids : Option (List String)) (h_within : addresses_within 6 store) :
    (has_config_widget bdaddr uuids = true ↔
        get_best_method bdaddr uuids ≠ BtMethod.BT_METHOD_UNKNOWN)
      ∧ (has_config_widget bdaddr uuids = true ↔
        "NAP" ∈ uuids.getD [] ∨ "DialupNetworking" ∈ uuids.getD [])
      ∧ (has_config_widget bdaddr uuids = false →
        get_config_widgets store toggled_id bdaddr uuids = some none)
      ∧ (has_config_widget bdaddr uuids = true →
        ∃ info, get_config_widgets store toggled_id bdaddr uuids = some (some info)
          ∧ info.method = get_best_method bdaddr uuids
          ∧ info.bdaddr = bdaddr) := by
  have hcls := get_best_method_by_membership bdaddr uuids
  refine ⟨by simp [has_config_widget], ?_, ?_, ?_⟩
  · simp only [has_config_widget, decide_eq_true_eq, hcls]
    by_cases h1 : "NAP" ∈ uuids.getD [] <;> by_cases h2 : "DialupNetworking" ∈ uuids.getD [] <;>
      simp [h1, h2]
  · intro h
    simp only [has_config_widget, decide_eq_false_iff_not, not_not] at h
    simp [get_config_widgets, h]
  · intro h
    simp only [has_config_widget, decide_eq_true_eq] at h
    cases hm : get_array_from_bdaddr bdaddr with
    | none =>
      refine ⟨plugin_info_new bdaddr (get_best_method bdaddr uuids) none toggled_id, ?_, rfl, rfl⟩
      simp [get_config_widgets, h, get_connection_for_bdaddr, hm]
    | some array =>
      refine ⟨plugin_info_new bdaddr (get_best_method bdaddr uuids)
        (store.find? (is_found array (get_best_method bdaddr uuids))) toggled_id, ?_, rfl, rfl⟩
      simp [get_config_widgets, h,
        get_connection_for_bdaddr_find store bdaddr _ array hm h_within]

/-- No record of the sample store holds an address longer than six bytes. -/
theorem sample_store_within : addresses_within 6 sample_store := by
  intro candidate hc addr type hs
  simp only [sample_store, List.mem_cons, List.mem_singleton, List.not_mem_nil, or_false] at hc
  rcases hc with rfl | rfl | rfl | rfl <;>
    simp [nm_connection_get_setting_bluetooth, sample_wired, sample_pan_record,
      sample_other_record, sample_dun_record] at hs <;>
    (obtain ⟨rfl, -⟩ := hs; decide)

/-- C23 (witness): on the sample store, a peer that advertises both markers gets a
PAN widget that holds the stored PAN record; a peer that advertises neither
gets no widget. -/
theorem config_widget_follows_classifier_witness :
    addresses_within 6 sample_store
      ∧ has_config_widget "00:11:22:33:44:55" (some ["DialupNetworking", "NAP"]) = true
      ∧ get_config_widgets sample_store 3 "00:11:22:33:44:55" (some ["DialupNetworking", "NAP"])
          = some (some (plugin_info_new "00:11:22:33:44:55" BtMethod.BT_METHOD_PAN
              (some sample_pan_record) 3))
      ∧ has_config_widget "00:11:22:33:44:55" (some ["OBEXObjectPush"]) = false
      ∧ get_config_widgets sample_store 3 "00:11:22:33:44:55" (some ["OBEXObjectPush"])
          = some none :=
  ⟨sample_store_within, by decide, by decide, by decide,
   (config_widget_follows_classifier sample_store 3 "00:11:22:33:44:55"
      (some ["OBEXObjectPush"]) sample_store_within).2.2.1 (by decide)⟩

/-- A character between two others is the character of a number between theirs. -/
theorem char_between (c lo hi : Char) (h : lo ≤ c ∧ c ≤ hi) :
    ∃ n, lo.toNat ≤ n ∧ n ≤ hi.toNat ∧ c = Char.ofNat n := by
  refine ⟨c.toNat, ?_, ?_, (Char.ofNat_toNat c).symm⟩
  · exact h.1
  · exact h.2

/-- A digit of the specification is a digit for `ether_aton_r`, with the same
value; it is neither a colon nor white space. -/
theorem spec_hex_digit_sound (c : Char) (v : Nat) (h : spec_hex_digit c = some v) :
    hex_digit_value c = some v ∧ c ≠ ':' ∧ isspace c = false ∧ v < 16 := by
  unfold spec_hex_digit at h
  split at h
  · rename_i hr
    obtain ⟨n, h1, h2, rfl⟩ := char_between c '0' '9' hr
    have h1 : 48 ≤ n := h1
    have h2 : n ≤ 57 := h2
    interval_cases n <;> (cases h; decide)
  · split at h
    · rename_i hr
      obtain ⟨n, h1, h2, rfl⟩ := char_between c 'a' 'f' hr
      have h1 : 97 ≤ n := h1
      have h2 : n ≤ 102 := h2
      interval_cases n <;> (cases h; decide)
    · split at h
      · rename_i hr
        obtain ⟨n, h1, h2, rfl⟩ := char_between c 'A' 'F' hr
        have h1 : 65 ≤ n := h1
        have h2 : n ≤ 70 := h2
        interval_cases n <;> (cases h; decide)
      · cases h

/-- An octet of the specification is two digits with their values. -/
theorem spec_octet_digits (high low : Char) (o : Nat) (h : spec_octet high low = some o) :
    ∃ hv lv, spec_hex_digit high = some hv ∧ spec_hex_digit low = some lv ∧ o = hv * 16 + lv := by
  unfold spec_octet at h
  split at h
  · rename_i hv lv h1 h2
    cases h
    exact ⟨hv, lv, h1, h2, rfl⟩
  · cases h

/-- One turn of the loop of `ether_aton_r` on a two-digit octet that is not the last. -/
theorem ether_aton_loop_two_digits (remaining : Nat) (high low : Char) (hv lv : Nat)
    (rest : List Char) (acc : List Nat)
    (h1 : hex_digit_value high = some hv) (h2 : hex_digit_value low = some lv)
    (h3 : low ≠ ':') :
    ether_aton_loop (remaining + 2) (high :: low :: ':' :: rest) acc =
      ether_aton_loop (remaining + 1) rest ((hv * 16 + lv) :: acc) := by
  simp [ether_aton_loop, h1, h2, h3]

/-- The last turn of the loop of `ether_aton_r` on a two-digit octet: what follows
the octet is not looked at. -/
theorem ether_aton_loop_last_two_digits (high low : Char) (hv lv : Nat)
    (rest : List Char) (acc : List Nat)
    (h1 : hex_digit_value high = some hv) (h2 : hex_digit_value low = some lv)
    (h3 : isspace low = false) :
    ether_aton_loop 1 (high :: low :: rest) acc = some ((hv * 16 + lv) :: acc).reverse := by
  simp [ether_aton_loop, h1, h2, h3]

/-- One turn of the loop of `ether_aton_r` on a one-digit octet that is not the last. -/
theorem ether_aton_loop_one_digit (remaining : Nat) (digit : Char) (v : Nat)
    (rest : List Char) (acc : List Nat) (h1 : hex_digit_value digit = some v) :
    ether_aton_loop (remaining + 2) (digit :: ':' :: rest) acc =
      ether_aton_loop (remaining + 1) rest (v :: acc) := by
  simp [ether_aton_loop, h1]

/-- A text the specification accepts is parsed by `ether_aton_r` to the same
octets, whatever follows it. -/
theorem spec_parse_bdaddr_sound (str tail : String) (octets : List Nat)
    (h : spec_parse_bdaddr str = some octets) :
    get_array_from_bdaddr (str ++ tail) = some octets := by
  unfold spec_parse_bdaddr at h
  split at h
  · rename_i a1 b1 s1 a2 b2 s2 a3 b3 s3 a4 b4 s4 a5 b5 s5 a6 b6 hdata
    split at h
    · rename_i hsep
      obtain ⟨rfl, rfl, rfl, rfl, rfl⟩ := hsep
      split at h
      · rename_i o1 o2 o3 o4 o5 o6 e1 e2 e3 e4 e5 e6
        cases h
        obtain ⟨x1, y1, p1, q1, rfl⟩ := spec_octet_digits _ _ _ e1
        obtain ⟨x2, y2, p2, q2, rfl⟩ := spec_octet_digits _ _ _ e2
        obtain ⟨x3, y3, p3, q3, rfl⟩ := spec_octet_digits _ _ _ e3
        obtain ⟨x4, y4, p4, q4, rfl⟩ := spec_octet_digits _ _ _ e4
        obtain ⟨x5, y5, p5, q5, rfl⟩ := spec_octet_digits _ _ _ e5
        obtain ⟨x6, y6, p6, q6, rfl⟩ := spec_octet_digits _ _ _ e6
        have hx1 := spec_hex_digit_sound _ _ p1
        have hy1 := spec_hex_digit_sound _ _ q1
        have hx2 := spec_hex_digit_sound _ _ p2
        have hy2 := spec_hex_digit_sound _ _ q2
        have hx3 := spec_hex_digit_sound _ _ p3
        have hy3 := spec_hex_digit_sound _ _ q3
        have hx4 := spec_hex_digit_sound _ _ p4
        have hy4 := spec_hex_digit_sound _ _ q4
        have hx5 := spec_hex_digit_sound _ _ p5
        have hy5 := spec_hex_digit_sound _ _ q5
        have hx6 := spec_hex_digit_sound _ _ p6
        have hy6 := spec_hex_digit_sound _ _ q6
        have hloop : ether_aton_loop 6 (str ++ tail).data [] =
            some [x1 * 16 + y1, x2 * 16 + y2, x3 * 16 + y3, x4 * 16 + y4, x5 * 16 + y5,
              x6 * 16 + y6] := by
          rw [String.data_append, hdata]
          simp only [List.cons_append, List.nil_append]
          rw [ether_aton_loop_two_digits 4 _ _ _ _ _ _ hx1.1 hy1.1 hy1.2.1,
            ether_aton_loop_two_digits 3 _ _ _ _ _ _ hx2.1 hy2.1 hy2.2.1,
            ether_aton_loop_two_digits 2 _ _ _ _ _ _ hx3.1 hy3.1 hy3.2.1,
            ether_aton_loop_two_digits 1 _ _ _ _ _ _ hx4.1 hy4.1 hy4.2.1,
            ether_aton_loop_two_digits 0 _ _ _ _ _ _ hx5.1 hy5.1 hy5.2.1,
            ether_aton_loop_last_two_digits _ _ _ _ _ _ hx6.1 hy6.1 hy6.2.2.1]
          rfl
        simp only [get_array_from_bdaddr, ether_aton, hloop]
      · cases h
    · cases h
  · cases h

/-- A text `ether_aton_r` reads `remaining + 1` octets from holds at least
`remaining` colons. -/
theorem ether_aton_loop_colons (remaining : Nat) :
    ∀ (asc : List Char) (acc result : List Nat),
      ether_aton_loop (remaining + 1) asc acc = some result → remaining ≤ asc.count ':' := by
  induction remaining with
  | zero => intro _ _ _ _; exact Nat.zero_le _
  | succ m ih =>
    intro asc acc result h
    unfold ether_aton_loop at h
    cases asc with
    | nil => simp at h
    | cons c rest =>
      simp only at h
      cases hc : hex_digit_value c with
      | none => simp [hc] at h
      | some number =>
        simp only [hc] at h
        cases rest with
        | nil => simp at h
        | cons ch rest2 =>
          simp only at h
          by_cases hch : ch = ':'
          · subst hch
            simp only [ne_eq, not_true_eq_false, and_false, Nat.add_one_ne_zero, false_and,
              or_self, if_false] at h
            have := ih rest2 _ _ h
            simp only [List.count_cons, beq_self_eq_true, if_true]
            split <;> omega
          · simp only [ne_eq, hch, not_false_eq_true, and_true, Nat.zero_lt_succ,
              true_or, if_true] at h
            cases hl : hex_digit_value ch with
            | none => simp [hl] at h
            | some low =>
              simp only [hl, Nat.add_one_ne_zero, if_false] at h
              split at h
              · rename_i rest3
                have := ih rest3 _ _ h
                simp only [List.count_cons, beq_self_eq_true, if_true]
                split <;> split <;> omega
              · cases h

/-- A hexadecimal digit is worth less than sixteen. -/
theorem hex_digit_value_lt (c : Char) (v : Nat) (h : hex_digit_value c = some v) : v < 16 := by
  unfold hex_digit_value at h
  simp only at h
  split at h
  · rename_i hr
    have h2 : c.toLower.toNat ≤ 57 := hr.2
    have h0 : '0'.toNat = 48 := rfl
    cases h
    omega
  · split at h
    · rename_i hr
      have h2 : c.toLower.toNat ≤ 102 := hr.2
      have h0 : 'a'.toNat = 97 := rfl
      cases h
      omega
    · cases h

/-- Every octet `ether_aton_r` stores is a byte. -/
theorem ether_aton_loop_bytes (remaining : Nat) :
    ∀ (asc : List Char) (acc octets : List Nat),
      ether_aton_loop remaining asc acc = some octets →
      (∀ b ∈ acc, b < 256) → ∀ b ∈ octets, b < 256 := by
  induction remaining with
  | zero =>
    intro asc acc octets h hacc
    simp only [ether_aton_loop, Option.some.injEq] at h
    subst h
    simpa using hacc
  | succ n ih =>
    intro asc acc octets h hacc
    unfold ether_aton_loop at h
    split at h
    · exact absurd h (by simp)
    · split at h
      · exact absurd h (by simp)
      · rename_i number hnum
        have hn16 := hex_digit_value_lt _ _ hnum
        have hacc1 : ∀ b ∈ number :: acc, b < 256 := by
          intro b hb
          rcases List.mem_cons.1 hb with rfl | hb
          · omega
          · exact hacc b hb
        split at h
        · split at h
          · simp only [Option.some.injEq] at h
            subst h
            intro b hb
            exact hacc1 b (List.mem_reverse.1 hb)
          · exact absurd h (by simp)
        · split at h
          · split at h
            · exact absurd h (by simp)
            · rename_i low hlow
              have hl16 := hex_digit_value_lt _ _ hlow
              have hacc2 : ∀ b ∈ (number * 16 + low) :: acc, b < 256 := by
                intro b hb
                rcases List.mem_cons.1 hb with rfl | hb
                · omega
                · exact hacc b hb
              split at h
              · simp only [Option.some.injEq] at h
                subst h
                intro b hb
                exact hacc2 b (List.mem_reverse.1 hb)
              · split at h
                · exact ih _ _ _ h hacc2
                · exact absurd h (by simp)
          · exact ih _ _ _ h hacc1

/-- C21 (counterexample): three texts that are not six colon-separated two-digit
octets (one-digit octets; two characters after the sixth octet; a seventh octet),
for each of which `get_array_from_bdaddr` returns an array. -/
theorem get_array_from_bdaddr_strict_counterexample :
    spec_parse_bdaddr "0:1:2:3:4:5" = none
      ∧ get_array_from_bdaddr "0:1:2:3:4:5" = some [0, 1, 2, 3, 4, 5]
      ∧ spec_parse_bdaddr "00:11:22:33:44:55zz" = none
      ∧ get_array_from_bdaddr "00:11:22:33:44:55zz" = some [0, 17, 34, 51, 68, 85]
      ∧ spec_parse_bdaddr "00:11:22:33:44:55:66" = none
      ∧ get_array_from_bdaddr "00:11:22:33:44:55:66" = some [0, 17, 34, 51, 68, 85] := by
  decide

/-- C21 (amended): `get_array_from_bdaddr` returns the octet values in order for
every text of six colon-separated two-digit hexadecimal octets (letters in either
case), also when any characters follow the sixth octet; it returns the digit
values for six colon-separated one-digit octets; every array it returns has six
elements, each a byte, and is returned for a text with at least five colons; so
a text with fewer than five colons (fewer octets, other separators) yields no
array. -/
theorem get_array_from_bdaddr_lenient (str : String) :
    (∀ octets, spec_parse_bdaddr str = some octets →
        ∀ tail : String, get_array_from_bdaddr (str ++ tail) = some octets)
      ∧ (∀ d1 d2 d3 d4 d5 d6 v1 v2 v3 v4 v5 v6,
          spec_hex_digit d1 = some v1 → spec_hex_digit d2 = some v2 →
          spec_hex_digit d3 = some v3 → spec_hex_digit d4 = some v4 →
          spec_hex_digit d5 = some v5 → spec_hex_digit d6 = some v6 →
          str.data = [d1, ':', d2, ':', d3, ':', d4, ':', d5, ':', d6] →
          get_array_from_bdaddr str = some [v1, v2, v3, v4, v5, v6])
      ∧ (∀ bytes, get_array_from_bdaddr str = some bytes →
          bytes.length = 6 ∧ (∀ b ∈ bytes, b < 256) ∧ 5 ≤ str.data.count ':')
      ∧ (str.data.count ':' < 5 → get_array_from_bdaddr str = none) := by
  have hsome : ∀ bytes, get_array_from_bdaddr str = some bytes →
      bytes.length = 6 ∧ (∀ b ∈ bytes, b < 256) ∧ 5 ≤ str.data.count ':' := by
    intro bytes h
    refine ⟨get_array_from_bdaddr_length str bytes h, ?_, ?_⟩
    · unfold get_array_from_bdaddr ether_aton at h
      split at h
      · rename_i addr heq
        cases h
        exact ether_aton_loop_bytes 6 _ _ _ heq (by simp)
      · cases h
    · unfold get_array_from_bdaddr ether_aton at h
      split at h
      · rename_i addr heq
        exact ether_aton_loop_colons 5 _ _ _ heq
      · cases h
  refine ⟨fun octets h tail => spec_parse_bdaddr_sound str tail octets h, ?_, hsome, ?_⟩
  · intro d1 d2 d3 d4 d5 d6 v1 v2 v3 v4 v5 v6 h1 h2 h3 h4 h5 h6 hdata
    have e1 := (spec_hex_digit_sound _ _ h1).1
    have e2 := (spec_hex_digit_sound _ _ h2).1
    have e3 := (spec_hex_digit_sound _ _ h3).1
    have e4 := (spec_hex_digit_sound _ _ h4).1
    have e5 := (spec_hex_digit_sound _ _ h5).1
    have e6 := (spec_hex_digit_sound _ _ h6).1
    have hloop : ether_aton_loop 6 str.data [] = some [v1, v2, v3, v4, v5, v6] := by
      rw [hdata, ether_aton_loop_one_digit 4 _ _ _ _ e1, ether_aton_loop_one_digit 3 _ _ _ _ e2,
        ether_aton_loop_one_digit 2 _ _ _ _ e3, ether_aton_loop_one_digit 1 _ _ _ _ e4,
        ether_aton_loop_one_digit 0 _ _ _ _ e5]
      simp [ether_aton_loop, e6]
    simp only [get_array_from_bdaddr, ether_aton, hloop]
  · intro hlt
    cases h : get_array_from_bdaddr str with
    | none => rfl
    | some bytes =>
      have := (hsome bytes h).2.2
      omega

/-- C21 (witness): the text "00:1a:2B:3c:4D:5e" is six two-digit octets and parses
to their values; the text "00-11-22-33-44-55" holds no colon and yields no array. -/
theorem get_array_from_bdaddr_lenient_witness :
    spec_parse_bdaddr "00:1a:2B:3c:4D:5e" = some [0, 26, 43, 60, 77, 94]
      ∧ get_array_from_bdaddr ("00:1a:2B:3c:4D:5e" ++ "") = some [0, 26, 43, 60, 77, 94]
      ∧ "00-11-22-33-44-55".data.count ':' < 5
      ∧ get_array_from_bdaddr "00-11-22-33-44-55" = none :=
  ⟨by decide,
   (get_array_from_bdaddr_lenient "00:1a:2B:3c:4D:5e").1 [0, 26, 43, 60, 77, 94] (by decide) "",
   by decide,
   (get_array_from_bdaddr_lenient "00-11-22-33-44-55").2.2.2 (by decide)⟩

/-- The teardown keeps the stored address. -/
theorem dun_cleanup_bdaddr (info : PluginInfo) (message : String) (uncheck : Bool) :
    (dun_cleanup info message uncheck).1.bdaddr = info.bdaddr := rfl

/-- The deliveries `world_run` makes are turns of the main loop. -/
theorem world_run_steps (ds : List Delivery) :
    ∀ (start w next : World), Steps start w → world_run w ds = some next → Steps start next := by
  induction ds with
  | nil =>
    intro start w next hs h
    simp only [world_run, Option.some.injEq] at h
    subst h
    exact hs
  | cons d ds ih =>
    intro start w next hs h
    simp only [world_run] at h
    cases hstep : world_step w d with
    | none => simp [hstep] at h
    | some mid =>
      simp only [hstep] at h
      exact ih start mid next (Steps.step start w d mid hs hstep) h

/-- The worlds the main loop leads to from the world of a widget are worlds of a run. -/
theorem steps_run (start w : World) (h : Steps start w) (h_start : Run start) : Run w := by
  induction h with
  | refl => exact h_start
  | step w d next _ hstep ih => exact Run.step w d next ih hstep

/-- The plugin itself never checks the address text: `get_config_widgets` creates a
widget for the text "phone" of a peer that advertises `DialupNetworking`; if
BlueZ resolved `FindDevice` for that text and the other replies were those of
the sample session, the main loop would lead to the world with the wizard
shown, where the completion of the wizard with a GSM result can be delivered,
the stored address does not parse, and `wizard_done_cb` fails its assertion on
`mac`. -/
theorem wizard_done_cb_unchecked_address :
    get_config_widgets [] 1 "phone" (some ["DialupNetworking"]) = some (some sample_malformed_idle)
      ∧ world_run (world_new sample_malformed_idle) sample_deliveries = some sample_world_malformed
      ∧ Steps (world_new sample_malformed_idle) sample_world_malformed
      ∧ deliverable sample_world_malformed
          (Delivery.event (Event.wizard_done false (some sample_access_method) sample_env)) = true
      ∧ sample_access_method.devtype = NMDeviceType.NM_DEVICE_TYPE_GSM
      ∧ get_array_from_bdaddr sample_world_malformed.info.bdaddr = none
      ∧ wizard_done_cb sample_world_malformed.info false (some sample_access_method) sample_env
          = none := by
  have hrun : world_run (world_new sample_malformed_idle) sample_deliveries
      = some sample_world_malformed := by decide
  exact ⟨by decide, hrun, world_run_steps _ _ _ _ (Steps.refl _) hrun, by decide, by decide,
    by decide, by decide⟩

/-- C25 (the code at the failing inputs): two runs from `get_config_widgets` on an
empty store in which the store refuses the new record.  For a peer that
advertises `NAP`, the click runs `add_pan_connection`, which returns `NULL`: the
toggle is sensitive and on, no record is held.  For a peer that advertises
`DialupNetworking`, the sample session up to the wizard followed by the
completion of the wizard with a GSM result: `wizard_done_cb` runs the teardown
without resetting the toggle, so the toggle is sensitive and on, the label
reads "Your phone is now ready to use!", no wizard, bus or timeout is left and
no record is held.  With the same deliveries and a store that exports the
record the record is held; and when the wizard is cancelled instead, the
teardown resets the toggle to off. -/
theorem toggle_on_without_record :
    get_config_widgets [] 1 "00:11:22:33:44:55" (some ["NAP"]) = some (some sample_pan_idle)
      ∧ (world_run (world_new sample_pan_idle)
          [Delivery.event (Event.click sample_refusing_env)]).map world_summary
          = some { button_sensitive := true, button_active := true, connection := none, label := "",
                   wizard := none, bus := none, sources := [] }
      ∧ get_config_widgets [] 1 "00:11:22:33:44:55" (some ["DialupNetworking"])
          = some (some sample_idle)
      ∧ (world_run (world_new sample_idle)
          (sample_deliveries ++
            [Delivery.event
              (Event.wizard_done false (some sample_access_method) sample_refusing_env)])).map
          world_summary
          = some { button_sensitive := true, button_active := true, connection := none,
                   label := "Your phone is now ready to use!", wizard := none, bus := none,
                   sources := [] }
      ∧ ((world_run (world_new sample_idle)
          (sample_deliveries ++
            [Delivery.event
              (Event.wizard_done false (some sample_access_method) sample_env)])).map
          (fun w => (w.info.button_active, w.info.connection.isSome))) = some (true, true)
      ∧ ((world_run (world_new sample_idle)
          (sample_deliveries ++
            [Delivery.event (Event.wizard_done true none sample_env)])).map
          (fun w => (w.info.button_active, w.info.connection.isSome))) = some (false, false) := by
  exact ⟨by decide, by decide, by decide, by decide, by decide, by decide⟩

/-- For the address text "phone" the deliveries of the sample session are not
deliveries BlueZ can make: the run stops at the reply to `FindDevice`. -/
theorem sample_malformed_not_resolved :
    bluez_run (world_new sample_malformed_idle) sample_deliveries = none
      ∧ (bluez_run (world_new sample_malformed_idle) (sample_deliveries.take 2)).isSome = true := by
  decide

/-- C19 (the code at the failing input): the store holds a wired connection, a PAN
record whose stored address is the three bytes 00:11:22, and the PAN record of
the peer 00:11:22:AA:BB:CC.  `device_removed` for that peer returns, but it
makes two delete calls: the lookup compares only the three stored bytes of the
first Bluetooth record, so that record, whose address is not the peer's, is
deleted as well as the peer's own. -/
theorem device_removed_deletes_prefix_record :
    nm_connection_get_setting_bluetooth sample_short_record =
        some (some [0, 17, 34], some "panu")
      ∧ nm_connection_get_setting_bluetooth sample_other_record =
        some (some [0, 17, 34, 170, 187, 204], some "panu")
      ∧ get_array_from_bdaddr "00:11:22:AA:BB:CC" = some [0, 17, 34, 170, 187, 204]
      ∧ device_removed [sample_wired, sample_short_record, sample_other_record]
          "00:11:22:AA:BB:CC" =
          some ([sample_wired],
            [Effect.settings_connection_delete (some sample_short_record),
             Effect.settings_connection_delete (some sample_other_record)]) := by
  decide

end NMApplet
